import Mathlib

/-!
Verification of the constrained shortest-path search of `src/day17/src/main.rs`
(the `ConstrainedPathFinder` of the specification).

The Rust program is embedded shallowly:

* machine integers (`u8`, `u64`, `isize`) become `Nat` / `Int`; the only
  arithmetic where wrap-around could matter is the byte subtraction
  `ch - b'0'` in the parser, which is modelled with release-mode wrapping
  semantics (`(ch + 256 - 48) % 256`);
* the per-tile `HashMap<TileType, u64>` becomes an association list
  (`TLMap`); hash iteration order is irrelevant because the program only
  takes minima over the values;
* the `VecDeque` work queue becomes a functional two-list FIFO queue;
* every place where the Rust code can panic (slice indexing through
  `impl Index<Coord> for Map`, the `total_loss[&prev_tt]` map index) is
  modelled by an `Option` layer: `none` is a panic.

The search loop (`while let Some(..) = to_examine.pop_front()`) is defined
both by well-founded recursion (`search`, the reference semantics) and with
explicit fuel (`searchFuel`, used to evaluate the function on concrete
fixtures inside the kernel); the two are proved to agree.
-/

namespace Day17

/-- The four movement directions (Rust `enum Dir`). -/
inductive Dir
  | North
  | South
  | East
  | West
  deriving DecidableEq, Repr

/-- Rust `Dir::left`. -/
def Dir.left : Dir → Dir
  | .North => .East
  | .South => .West
  | .East => .North
  | .West => .South

/-- Rust `Dir::right`. -/
def Dir.right : Dir → Dir
  | .North => .West
  | .South => .East
  | .East => .South
  | .West => .North

/-- Rust `struct TileType { dir: Dir, steps_in_dir: u8 }`.
`steps_in_dir` is modelled as `Nat`; the algorithm only ever stores values
bounded by its `max_dist` argument. -/
structure TileType where
  dir : Dir
  steps_in_dir : Nat
  deriving DecidableEq, Repr

/-- Rust `struct Coord { x: isize, y: isize }`. -/
structure Coord where
  x : Int
  y : Int
  deriving DecidableEq, Repr

/-- Rust `impl Add<Dir> for Coord`. -/
def Coord.add (c : Coord) : Dir → Coord
  | .North => ⟨c.x, c.y - 1⟩
  | .South => ⟨c.x, c.y + 1⟩
  | .East => ⟨c.x + 1, c.y⟩
  | .West => ⟨c.x - 1, c.y⟩

/-- Association list modelling the per-tile `HashMap<TileType, u64>`. -/
abbrev TLMap := List (TileType × Nat)

/-- `HashMap` lookup (`total_loss.get` / `total_loss[&tt]`). -/
def lookupTL : TLMap → TileType → Option Nat
  | [], _ => none
  | (k, v) :: rest, tt => if k = tt then some v else lookupTL rest tt

/-- Overwrite the value stored at an existing key (first occurrence). -/
def modifyTL : TLMap → TileType → Nat → TLMap
  | [], _, _ => []
  | (k, v) :: rest, tt, loss =>
    if k = tt then (k, loss) :: rest else (k, v) :: modifyTL rest tt loss

/-- The update `total_loss.entry(tt).and_modify(|prev| if loss < *prev {..}).or_insert_with(..)`
of the source: if the key is absent, insert `loss` (changed); if present with
value `prev`, overwrite only when `loss < prev` (changed); otherwise leave the
map untouched.  Returns the new map together with the `changed` flag. -/
def entryUpdate (tl : TLMap) (tt : TileType) (loss : Nat) : TLMap × Bool :=
  match lookupTL tl tt with
  | some prev => if loss < prev then (modifyTL tl tt loss, true) else (tl, false)
  | none => ((tt, loss) :: tl, true)

/-- Rust `struct Tile { heat_loss: u8, total_loss: HashMap<TileType, u64> }`. -/
structure Tile where
  heat_loss : Nat
  total_loss : TLMap

/-- Rust `struct Map(Vec<Vec<Tile>>)`. -/
structure Map where
  rows : List (List Tile)

/-- Rust `Map::height`. -/
def Map.height (m : Map) : Nat := m.rows.length

/-- Rust `Map::width`, i.e. `self.0[0].len()`.  (On an empty map the Rust
code panics here; `headD` returns `0` instead, but `find_min` only calls
`width` after having successfully indexed cell `(0,0)`, so the divergence is
unreachable from the entry point.) -/
def Map.width (m : Map) : Nat := (m.rows.headD []).length

/-- Rust `Map::is_in_bounds`. -/
def Map.is_in_bounds (m : Map) (c : Coord) : Prop :=
  0 ≤ c.x ∧ 0 ≤ c.y ∧ c.x.toNat < m.width ∧ c.y.toNat < m.height

instance (m : Map) (c : Coord) : Decidable (m.is_in_bounds c) := by
  unfold Map.is_in_bounds; infer_instance

/-- Rust `impl Index<Coord> for Map` (`&self.0[index.y as usize][index.x as usize]`).
`none` models the panic of an out-of-bounds index; a negative coordinate cast
to `usize` in Rust becomes a huge index and panics as well. -/
def Map.index? (m : Map) (c : Coord) : Option Tile :=
  if 0 ≤ c.x ∧ 0 ≤ c.y then
    match m.rows[c.y.toNat]? with
    | none => none
    | some row => row[c.x.toNat]?
  else none

/-- Write a new `total_loss` table into the tile at `c` (the effect of the
mutation performed through `impl IndexMut<Coord> for Map`).  Out-of-bounds
writes cannot happen in the program (they would have panicked at the
read that precedes them), so they are modelled as no-ops. -/
def Map.setTL (m : Map) (c : Coord) (tl : TLMap) : Map :=
  if 0 ≤ c.x ∧ 0 ≤ c.y then
    match m.rows[c.y.toNat]? with
    | none => m
    | some row =>
      match row[c.x.toNat]? with
      | none => m
      | some t =>
        ⟨m.rows.set c.y.toNat (row.set c.x.toNat { t with total_loss := tl })⟩
  else m

/-- Look up the stored cost of the state `(c, tt)` in the distributed cost
table (the `total_loss` maps of the tiles). -/
def Map.tableLookup (m : Map) (c : Coord) (tt : TileType) : Option Nat :=
  match m.index? c with
  | none => none
  | some t => lookupTL t.total_loss tt

/-- The heat numbers of the map, forgetting the cost tables. -/
def Map.heats (m : Map) : List (List Nat) :=
  m.rows.map (fun row => row.map Tile.heat_loss)

/-- FIFO queue modelling the Rust `VecDeque` (push at the back, pop at the
front). -/
structure Queue where
  front : List (Coord × TileType)
  back : List (Coord × TileType)

/-- The empty queue (`VecDeque::new()`). -/
def Queue.empty : Queue := ⟨[], []⟩

/-- `push_back`. -/
def Queue.push (q : Queue) (x : Coord × TileType) : Queue :=
  ⟨q.front, x :: q.back⟩

/-- `pop_front`. -/
def Queue.pop (q : Queue) : Option ((Coord × TileType) × Queue) :=
  match q.front with
  | x :: f => some (x, ⟨f, q.back⟩)
  | [] =>
    match q.back.reverse with
    | [] => none
    | x :: f => some (x, ⟨f, []⟩)

/-- Number of queued entries. -/
def Queue.size (q : Queue) : Nat := q.front.length + q.back.length

/-- The queued entries, as a list (membership only; the internal order of
this list is irrelevant to every statement below). -/
def Queue.entries (q : Queue) : List (Coord × TileType) := q.front ++ q.back

/-- One iteration of the inner `for next_dir in [incoming_dir, left, right]`
body of `Map::find_min`, for a single direction `next_dir`:
read `this_loss`, skip out-of-bounds targets, enforce the turn (`min_dist`)
and straight-run (`max_dist`) constraints, and relax the target state,
pushing it when its entry changed.  `none` models a panic. -/
def relaxDir (min_dist max_dist : Nat) (m : Map) (q : Queue) (coord : Coord)
    (prev_tt : TileType) (next_dir : Dir) : Option (Map × Queue) :=
  match m.index? coord with
  | none => none
  | some tile =>
    match lookupTL tile.total_loss prev_tt with
    | none => none
    | some this_loss =>
      let next_coord := coord.add next_dir
      if m.is_in_bounds next_coord then
        if next_dir ≠ prev_tt.dir ∧ prev_tt.steps_in_dir < min_dist then
          some (m, q)
        else
          let next_steps :=
            if next_dir = prev_tt.dir then prev_tt.steps_in_dir + 1 else 1
          if max_dist < next_steps then
            some (m, q)
          else
            match m.index? next_coord with
            | none => none
            | some next =>
              let loss := this_loss + next.heat_loss
              let tt : TileType := ⟨next_dir, next_steps⟩
              match entryUpdate next.total_loss tt loss with
              | (tl', true) => some (m.setTL next_coord tl', q.push (next_coord, tt))
              | (_, false) => some (m, q)
      else some (m, q)

/-- Result of one iteration of the `while let` loop: the queue was empty and
the final map is returned, or the body panicked, or the loop continues with a
new map and queue. -/
inductive StepRes
  | done (m : Map)
  | fail
  | next (st : Map × Queue)

/-- One full iteration of the `while let Some(..) = to_examine.pop_front()`
loop: pop a state and process the three candidate directions
`[incoming_dir, incoming_dir.left(), incoming_dir.right()]` in order. -/
def step1 (min_dist max_dist : Nat) (st : Map × Queue) : StepRes :=
  match st.2.pop with
  | none => .done st.1
  | some ((coord, prev_tt), rest) =>
    match relaxDir min_dist max_dist st.1 rest coord prev_tt prev_tt.dir with
    | none => .fail
    | some (m1, q1) =>
      match relaxDir min_dist max_dist m1 q1 coord prev_tt prev_tt.dir.left with
      | none => .fail
      | some (m2, q2) =>
        match relaxDir min_dist max_dist m2 q2 coord prev_tt prev_tt.dir.right with
        | none => .fail
        | some st3 => .next st3

/-- The loop of `Map::find_min`, with explicit fuel.  `none`: out of fuel;
`some none`: a panic; `some (some m)`: the loop drained the queue and the
final map is `m`. -/
def searchFuel (min_dist max_dist : Nat) : Nat → Map × Queue → Option (Option Map)
  | 0, _ => none
  | fuel + 1, st =>
    match step1 min_dist max_dist st with
    | .done m => some (some m)
    | .fail => some none
    | .next st' => searchFuel min_dist max_dist fuel st'

/-- Read the answer off the final map: index the bottom-right tile and take
the minimum stored cost among its states with `steps_in_dir ≥ min_dist`
(the `filter_map(..).min().cloned()` of the source).  `none` models the panic
of the destination index. -/
def readAnswer (min_dist : Nat) (m : Map) : Option (Option Nat) :=
  match m.index? ⟨(m.width : Int) - 1, (m.height : Int) - 1⟩ with
  | none => none
  | some tile =>
    some (((tile.total_loss.filter fun kv => ¬ kv.1.steps_in_dir < min_dist).map
      Prod.snd).min?)

/-- The start state `TileType { dir: East, steps_in_dir: 0 }`. -/
def startTT : TileType := ⟨.East, 0⟩

/-- The seeded initial state of the search: queue `[( (0,0), startTT )]` and
the start tile's table reset to `{(startTT, 0)}` (lines 142-148 of the
source).  Indexing cell `(0,0)` on an empty map panics (`none`). -/
def Map.seed (m : Map) : Option (Map × Queue) :=
  match m.index? ⟨0, 0⟩ with
  | none => none
  | some _ =>
    some (m.setTL ⟨0, 0⟩ [(startTT, 0)], Queue.empty.push (⟨0, 0⟩, startTT))

/-- Fuel-based version of `Map::find_min`, keeping the final (mutated) map.
Outer `none`: out of fuel; `some none`: a panic; `some (some (r, m'))`: the
call returns `r` and leaves the map in state `m'`. -/
def Map.find_min_fullFuel (m : Map) (fuel min_dist max_dist : Nat) :
    Option (Option (Option Nat × Map)) :=
  match m.seed with
  | none => some none
  | some st =>
    match searchFuel min_dist max_dist fuel st with
    | none => none
    | some none => some none
    | some (some mF) =>
      match readAnswer min_dist mF with
      | none => some none
      | some r => some (some (r, mF))

/-- Fuel-based `Map::find_min` (only the returned `Option<u64>`). -/
def Map.find_minFuel (m : Map) (fuel min_dist max_dist : Nat) :
    Option (Option (Option Nat)) :=
  (m.find_min_fullFuel fuel min_dist max_dist).map (fun r => r.map Prod.fst)

/-- Parse helper: the list of lines of a string (Rust `str::lines`): split on
the newline character and drop a final empty fragment (so a trailing newline
does not produce an extra empty line, and `""` has no lines). -/
def linesOf (s : String) : List String :=
  let l := s.splitOn "\n"
  if l.getLast? = some "" then l.dropLast else l

/-- Rust `impl FromStr for Map`: every line becomes a row of tiles whose
heat is the byte value `ch - b'0'` (release-mode wrapping subtraction on
`u8`; the fixtures are ASCII digits, where no wrapping occurs) and whose
`total_loss` table starts empty.  Note that this parser never returns an
error: the `Err` arm of the `Result` is dead code. -/
def Map.from_str (s : String) : Except Unit Map :=
  .ok ⟨(linesOf s).map fun l =>
    l.toList.map fun ch => ⟨(ch.toNat + 256 - 48) % 256, []⟩⟩

/-- A map with the given heat numbers and all cost tables empty: the shape in
which `from_str` delivers every grid to `find_min`. -/
def toMap (g : List (List Nat)) : Map :=
  ⟨g.map fun row => row.map fun h => ⟨h, []⟩⟩

/-!
### Association-list lemmas

Basic facts about `lookupTL`, `modifyTL` and `entryUpdate`.
-/

theorem lookupTL_modifyTL_self {tl : TLMap} {tt : TileType} {loss v : Nat}
    (h : lookupTL tl tt = some v) : lookupTL (modifyTL tl tt loss) tt = some loss := by
  induction tl with
  | nil => simp [lookupTL] at h
  | cons kv rest ih =>
    obtain ⟨k, w⟩ := kv
    by_cases hk : k = tt
    · subst hk; simp [lookupTL, modifyTL]
    · simp only [lookupTL, modifyTL, if_neg hk] at h ⊢
      exact ih h

theorem lookupTL_modifyTL_ne {tl : TLMap} {tt tt' : TileType} {loss : Nat}
    (h : tt' ≠ tt) : lookupTL (modifyTL tl tt loss) tt' = lookupTL tl tt' := by
  induction tl with
  | nil => simp [modifyTL]
  | cons kv rest ih =>
    obtain ⟨k, w⟩ := kv
    by_cases hk : k = tt
    · subst hk
      simp only [modifyTL, if_pos rfl, lookupTL]
      rw [if_neg (fun hkt => h hkt.symm), if_neg (fun hkt => h hkt.symm)]
    · simp only [modifyTL, if_neg hk, lookupTL]
      by_cases hk' : k = tt'
      · simp [hk']
      · rw [if_neg hk', if_neg hk', ih]

/-- Characterization of `entryUpdate`: the `changed = false` case. -/
theorem entryUpdate_false {tl : TLMap} {tt : TileType} {loss : Nat} {tl' : TLMap}
    (h : entryUpdate tl tt loss = (tl', false)) :
    tl' = tl ∧ ∃ prev, lookupTL tl tt = some prev ∧ prev ≤ loss := by
  unfold entryUpdate at h
  split at h
  · rename_i prev hl
    split at h
    · exact absurd (congrArg Prod.snd h) (by simp)
    · rename_i hlt
      injection h with h1 _
      exact ⟨h1.symm, prev, hl, Nat.le_of_not_lt hlt⟩
  · exact absurd (congrArg Prod.snd h) (by simp)

/-- Characterization of `entryUpdate`: the `changed = true` case.  The key is
now bound to `loss`, every other key is untouched, and the key was previously
either absent or had a strictly larger value. -/
theorem entryUpdate_true {tl : TLMap} {tt : TileType} {loss : Nat} {tl' : TLMap}
    (h : entryUpdate tl tt loss = (tl', true)) :
    lookupTL tl' tt = some loss ∧
    (∀ tt', tt' ≠ tt → lookupTL tl' tt' = lookupTL tl tt') ∧
    (lookupTL tl tt = none ∨ ∃ prev, lookupTL tl tt = some prev ∧ loss < prev) := by
  unfold entryUpdate at h
  split at h
  · rename_i prev hl
    split at h
    · rename_i hlt
      injection h with h1 _
      subst h1
      exact ⟨lookupTL_modifyTL_self hl, fun tt' htt' => lookupTL_modifyTL_ne htt',
        Or.inr ⟨prev, hl, hlt⟩⟩
    · exact absurd (congrArg Prod.snd h) (by simp)
  · rename_i hl
    injection h with h1 _
    subst h1
    refine ⟨by simp [lookupTL], ?_, Or.inl hl⟩
    intro tt' htt'
    simp only [lookupTL]
    rw [if_neg (fun hkt => htt' hkt.symm)]

/-!
### Map indexing and update lemmas
-/

/-- An in-range cell fully determines the success of `index?`. -/
theorem index?_eq_some_iff {m : Map} {c : Coord} {t : Tile} :
    m.index? c = some t ↔
      0 ≤ c.x ∧ 0 ≤ c.y ∧ ∃ row, m.rows[c.y.toNat]? = some row ∧ row[c.x.toNat]? = some t := by
  unfold Map.index?
  by_cases hx : 0 ≤ c.x ∧ 0 ≤ c.y
  · rw [if_pos hx]
    rcases hrow : m.rows[c.y.toNat]? with _ | row
    · simp [hx]
    · simp [hx, hrow]
  · rw [if_neg hx]
    constructor
    · intro h; exact absurd h (by simp)
    · rintro ⟨h1, h2, -⟩; exact absurd ⟨h1, h2⟩ hx

theorem heats_setTL (m : Map) (c : Coord) (tl : TLMap) :
    (m.setTL c tl).heats = m.heats := by
  unfold Map.setTL
  split
  · cases hrow : m.rows[c.y.toNat]? with
    | none => rfl
    | some row =>
      dsimp only
      cases ht : row[c.x.toNat]? with
      | none => rfl
      | some t =>
        dsimp only
        have hylt : c.y.toNat < m.rows.length := (List.getElem?_eq_some_iff.mp hrow).1
        have hxlt : c.x.toNat < row.length := (List.getElem?_eq_some_iff.mp ht).1
        unfold Map.heats
        apply List.ext_getElem?
        intro i
        simp only [List.getElem?_map]
        rcases eq_or_ne c.y.toNat i with hi | hi
        · subst hi
          rw [List.getElem?_set_self hylt, hrow]
          simp only [Option.map_some']
          congr 1
          apply List.ext_getElem?
          intro j
          simp only [List.getElem?_map]
          rcases eq_or_ne c.x.toNat j with hj | hj
          · subst hj
            rw [List.getElem?_set_self hxlt, ht]
            rfl
          · rw [List.getElem?_set_ne hj]
        · rw [List.getElem?_set_ne hi]
  · rfl

/-- Two coordinates with nonnegative components are equal iff their `toNat`
projections are. -/
theorem coord_eq_of_toNat {c c' : Coord} (hx : 0 ≤ c.x) (hy : 0 ≤ c.y)
    (hx' : 0 ≤ c'.x) (hy' : 0 ≤ c'.y) (h1 : c'.x.toNat = c.x.toNat)
    (h2 : c'.y.toNat = c.y.toNat) : c' = c := by
  obtain ⟨x, y⟩ := c
  obtain ⟨x', y'⟩ := c'
  simp only at hx hy hx' hy' h1 h2
  have e1 : x' = x := by
    rw [← Int.toNat_of_nonneg hx', ← Int.toNat_of_nonneg hx, h1]
  have e2 : y' = y := by
    rw [← Int.toNat_of_nonneg hy', ← Int.toNat_of_nonneg hy, h2]
  simp [e1, e2]

/-- Effect of `setTL` on `index?`: the written cell now carries the new
table, all other coordinates read as before. -/
theorem index?_setTL {m : Map} {c : Coord} {t : Tile} (hc : m.index? c = some t)
    (tl : TLMap) (c' : Coord) :
    (m.setTL c tl).index? c' =
      if c' = c then some { t with total_loss := tl } else m.index? c' := by
  obtain ⟨hx, hy, row, hrow, ht⟩ := index?_eq_some_iff.mp hc
  have hylt : c.y.toNat < m.rows.length := (List.getElem?_eq_some_iff.mp hrow).1
  have hxlt : c.x.toNat < row.length := (List.getElem?_eq_some_iff.mp ht).1
  have hset : m.setTL c tl =
      ⟨m.rows.set c.y.toNat (row.set c.x.toNat { t with total_loss := tl })⟩ := by
    unfold Map.setTL
    rw [if_pos ⟨hx, hy⟩, hrow]
    dsimp only
    rw [ht]
  rw [hset]
  by_cases hcc : c' = c
  · subst hcc
    rw [if_pos rfl]
    unfold Map.index?
    rw [if_pos ⟨hx, hy⟩]
    dsimp only
    rw [List.getElem?_set_self hylt]
    dsimp only
    rw [List.getElem?_set_self hxlt]
  · rw [if_neg hcc]
    unfold Map.index?
    by_cases hx' : 0 ≤ c'.x ∧ 0 ≤ c'.y
    · rw [if_pos hx', if_pos hx']
      by_cases hyy : c'.y.toNat = c.y.toNat
      · have hxx : c'.x.toNat ≠ c.x.toNat := by
          intro hxx
          exact hcc (coord_eq_of_toNat hx hy hx'.1 hx'.2 hxx hyy)
        rw [hyy, List.getElem?_set_self hylt, hrow]
        dsimp only
        rw [List.getElem?_set_ne (fun h => hxx h.symm)]
      · rw [List.getElem?_set_ne (fun h => hyy h.symm)]
    · rw [if_neg hx', if_neg hx']

/-- Effect of `setTL` on the distributed cost table. -/
theorem tableLookup_setTL {m : Map} {c : Coord} {t : Tile} (hc : m.index? c = some t)
    (tl : TLMap) (c' : Coord) (tt : TileType) :
    (m.setTL c tl).tableLookup c' tt =
      if c' = c then lookupTL tl tt else m.tableLookup c' tt := by
  unfold Map.tableLookup
  rw [index?_setTL hc tl c']
  by_cases hcc : c' = c
  · rw [if_pos hcc, if_pos hcc]
  · rw [if_neg hcc, if_neg hcc]

/-- The heat read through `index?`. -/
def Map.heatAt (m : Map) (c : Coord) : Option Nat :=
  (m.index? c).map Tile.heat_loss

/-- `heatAt` expressed through the pure heat grid. -/
theorem heatAt_eq_heats (m : Map) (c : Coord) :
    m.heatAt c =
      if 0 ≤ c.x ∧ 0 ≤ c.y then
        (m.heats[c.y.toNat]?).bind fun r => r[c.x.toNat]?
      else none := by
  unfold Map.heatAt Map.index? Map.heats
  by_cases hx : 0 ≤ c.x ∧ 0 ≤ c.y
  · rw [if_pos hx, if_pos hx]
    cases hrow : m.rows[c.y.toNat]? with
    | none => simp [hrow]
    | some row =>
      simp [hrow, List.getElem?_map]
  · rw [if_neg hx, if_neg hx]; rfl

/-- `height` expressed through the heat grid. -/
theorem height_eq_heats (m : Map) : m.height = m.heats.length := by
  unfold Map.height Map.heats
  rw [List.length_map]

/-- `width` expressed through the heat grid. -/
theorem width_eq_heats (m : Map) : m.width = (m.heats.headD []).length := by
  unfold Map.width Map.heats
  cases m.rows with
  | nil => rfl
  | cons r rs => simp

/-- Maps with the same heat grid agree on `is_in_bounds`. -/
theorem is_in_bounds_congr {m m' : Map} (h : m'.heats = m.heats) (c : Coord) :
    m'.is_in_bounds c ↔ m.is_in_bounds c := by
  unfold Map.is_in_bounds
  rw [height_eq_heats, height_eq_heats, width_eq_heats, width_eq_heats, h]

/-- Maps with the same heat grid agree on `heatAt`. -/
theorem heatAt_congr {m m' : Map} (h : m'.heats = m.heats) (c : Coord) :
    m'.heatAt c = m.heatAt c := by
  rw [heatAt_eq_heats, heatAt_eq_heats, h]

/-!
### Termination measure

The search loop terminates because each relaxation either inserts a state
into the cost table (finitely many candidate states exist) or strictly
lowers a stored value, and an iteration that changes nothing shortens the
queue.  `candL` enumerates every state the algorithm can ever store for a
given `max_dist` bound `b`.
-/

/-- All states the search can store: a cell of the map paired with a
direction and a run length `≤ b`. -/
def candL (m : Map) (b : Nat) : List (Coord × TileType) :=
  (List.range m.rows.length).flatMap fun y =>
    (List.range ((m.rows.getD y []).length)).flatMap fun x =>
      (List.range (b + 1)).flatMap fun s =>
        [Dir.North, Dir.South, Dir.East, Dir.West].map fun d =>
          (⟨(x : Int), (y : Int)⟩, ⟨d, s⟩)

/-- Number of candidate states not yet present in the cost table. -/
def missing (m : Map) (b : Nat) : Nat :=
  (candL m b).countP fun k => (m.tableLookup k.1 k.2).isNone

/-- Sum of the stored values over all candidate states. -/
def stored (m : Map) (b : Nat) : Nat :=
  ((candL m b).map fun k => (m.tableLookup k.1 k.2).getD 0).sum

/-- Strict decrease of the `(missing, stored)` measure. -/
def MeasureLt (b : Nat) (m' m : Map) : Prop :=
  missing m' b < missing m b ∨ (missing m' b = missing m b ∧ stored m' b < stored m b)

theorem measureLt_trans {b : Nat} {m1 m2 m3 : Map} (h32 : MeasureLt b m3 m2)
    (h21 : MeasureLt b m2 m1) : MeasureLt b m3 m1 := by
  rcases h32 with h32 | ⟨e32, s32⟩ <;> rcases h21 with h21 | ⟨e21, s21⟩
  · exact Or.inl (h32.trans h21)
  · exact Or.inl (e21 ▸ h32)
  · exact Or.inl (e32 ▸ h21)
  · exact Or.inr ⟨e32.trans e21, s32.trans s21⟩

/-- A cell that `index?` can read gives rise to candidate states. -/
theorem mem_candL {m : Map} {c : Coord} {t : Tile} (hc : m.index? c = some t)
    {tt : TileType} {b : Nat} (hs : tt.steps_in_dir ≤ b) : (c, tt) ∈ candL m b := by
  obtain ⟨hx, hy, row, hrow, ht⟩ := index?_eq_some_iff.mp hc
  have hylt : c.y.toNat < m.rows.length := (List.getElem?_eq_some_iff.mp hrow).1
  have hxlt : c.x.toNat < row.length := (List.getElem?_eq_some_iff.mp ht).1
  have hgd : m.rows.getD c.y.toNat [] = row := by
    rw [List.getD_eq_getElem?_getD, hrow]; rfl
  unfold candL
  simp only [List.mem_flatMap, List.mem_range, List.mem_map]
  refine ⟨c.y.toNat, hylt, c.x.toNat, ?_, tt.steps_in_dir, Nat.lt_succ_of_le hs,
    tt.dir, ?_, ?_⟩
  · rw [hgd]; exact hxlt
  · cases tt.dir <;> simp
  · obtain ⟨cx, cy⟩ := c
    obtain ⟨td, ts⟩ := tt
    simp only at hx hy ⊢
    rw [Int.toNat_of_nonneg hx, Int.toNat_of_nonneg hy]

/-- `candL` only depends on the shape of the map, so table updates keep it. -/
theorem candL_congr {m m' : Map} (h : m'.heats = m.heats) (b : Nat) :
    candL m' b = candL m b := by
  have hlen : m'.rows.length = m.rows.length := by
    have := congrArg List.length h
    simpa [Map.heats] using this
  have hrow : ∀ y, (m'.rows.getD y []).length = (m.rows.getD y []).length := by
    intro y
    have h2 := congrArg (fun l => l[y]?) h
    simp only [Map.heats, List.getElem?_map] at h2
    rw [List.getD_eq_getElem?_getD, List.getD_eq_getElem?_getD]
    cases h1 : m'.rows[y]? with
    | none =>
      cases h1' : m.rows[y]? with
      | none => rfl
      | some r => rw [h1, h1'] at h2; simp at h2
    | some r =>
      cases h1' : m.rows[y]? with
      | none => rw [h1, h1'] at h2; simp at h2
      | some r' =>
        rw [h1, h1'] at h2
        simp only [Option.map_some'] at h2
        have h3 := congrArg List.length (Option.some.inj h2)
        simpa using h3
  unfold candL
  rw [hlen]
  congr 1
  funext y
  rw [hrow y]

/-- A pointwise implication with one strict witness gives a strict `countP`
inequality. -/
theorem countP_lt_of {α : Type} {l : List α} {p q : α → Bool}
    (hle : ∀ a ∈ l, q a → p a) {a₀ : α} (ha₀ : a₀ ∈ l) (hp : p a₀)
    (hq : ¬ q a₀) : l.countP q < l.countP p := by
  induction l with
  | nil => cases ha₀
  | cons a rest ih =>
    rw [List.countP_cons, List.countP_cons]
    rcases List.mem_cons.mp ha₀ with rfl | hmem
    · have hqle : rest.countP q ≤ rest.countP p :=
        List.countP_mono_left fun x hx => hle x (List.mem_cons_of_mem _ hx)
      rw [if_pos hp, if_neg (by simpa using hq)]
      omega
    · have hlt := ih (fun x hx => hle x (List.mem_cons_of_mem _ hx)) hmem
      have : (if q a then 1 else 0) ≤ if p a then 1 else 0 := by
        by_cases hqa : q a
        · rw [if_pos hqa, if_pos (hle a (List.mem_cons_self a rest) hqa)]
        · rw [if_neg hqa]; omega
      omega

/-- Writing a changed entry into a candidate state strictly decreases the
`(missing, stored)` measure. -/
theorem measureLt_of_write {m : Map} {c : Coord} {t : Tile} {b : Nat}
    (hc : m.index? c = some t) {tt : TileType} {loss : Nat} {tl' : TLMap}
    (hupd : entryUpdate t.total_loss tt loss = (tl', true))
    (hs : tt.steps_in_dir ≤ b) : MeasureLt b (m.setTL c tl') m := by
  obtain ⟨hnew, hother, hprev⟩ := entryUpdate_true hupd
  have hheats := heats_setTL m c tl'
  have hcand := candL_congr hheats b
  have hmemc : (c, tt) ∈ candL m b := mem_candL hc hs
  have hold : ∀ ktt : TileType, m.tableLookup c ktt = lookupTL t.total_loss ktt := by
    intro ktt
    unfold Map.tableLookup
    rw [hc]
  have hlook := tableLookup_setTL hc tl'
  -- every key other than (c, tt) is unchanged
  have hsame : ∀ (kc : Coord) (ktt : TileType), ¬ (kc = c ∧ ktt = tt) →
      (m.setTL c tl').tableLookup kc ktt = m.tableLookup kc ktt := by
    intro kc ktt hk
    rw [hlook kc ktt]
    by_cases hkc : kc = c
    · subst hkc
      have hktt : ktt ≠ tt := fun h => hk ⟨rfl, h⟩
      rw [if_pos rfl, hold ktt, hother ktt hktt]
    · rw [if_neg hkc]
  have hself : (m.setTL c tl').tableLookup c tt = some loss := by
    rw [hlook c tt, if_pos rfl, hnew]
  rcases hprev with hmiss | ⟨prev, hprev, hlt⟩
  · -- a fresh insertion: `missing` strictly decreases
    left
    unfold missing
    rw [hcand]
    refine countP_lt_of ?_ hmemc ?_ ?_
    · rintro ⟨kc, ktt⟩ - hq
      dsimp only at hq ⊢
      by_cases hk : kc = c ∧ ktt = tt
      · obtain ⟨rfl, rfl⟩ := hk
        rw [hold, hmiss]; rfl
      · rw [← hsame kc ktt hk]; exact hq
    · dsimp only
      rw [hold, hmiss]; rfl
    · dsimp only
      rw [hself]; simp
  · -- lowering an existing entry: `missing` is unchanged, `stored` drops
    right
    constructor
    · unfold missing
      rw [hcand]
      refine List.countP_congr ?_
      rintro ⟨kc, ktt⟩ -
      dsimp only
      by_cases hk : kc = c ∧ ktt = tt
      · obtain ⟨rfl, rfl⟩ := hk
        rw [hself, hold, hprev]
        simp
      · rw [hsame kc ktt hk]
    · unfold stored
      rw [hcand]
      refine List.sum_lt_sum _ _ ?_ ?_
      · rintro ⟨kc, ktt⟩ -
        dsimp only
        by_cases hk : kc = c ∧ ktt = tt
        · obtain ⟨rfl, rfl⟩ := hk
          rw [hself, hold, hprev]
          simpa using Nat.le_of_lt hlt
        · rw [hsame kc ktt hk]
      · refine ⟨(c, tt), hmemc, ?_⟩
        dsimp only
        rw [hself, hold, hprev]
        simpa using hlt

/-- A single direction relaxation either changes nothing or strictly
decreases the table measure (and never grows it). -/
theorem relaxDir_measure {a b : Nat} {m : Map} {q : Queue} {c : Coord}
    {tt : TileType} {d : Dir} {m' : Map} {q' : Queue}
    (h : relaxDir a b m q c tt d = some (m', q')) :
    (m' = m ∧ q' = q) ∨ MeasureLt b m' m := by
  unfold relaxDir at h
  split at h
  · cases h
  · split at h
    · cases h
    · dsimp only at h
      split at h
      case isFalse => cases h; exact Or.inl ⟨rfl, rfl⟩
      case isTrue =>
        split at h
        case isTrue => cases h; exact Or.inl ⟨rfl, rfl⟩
        case isFalse =>
          split at h <;>
          · split at h
            case isTrue => cases h; exact Or.inl ⟨rfl, rfl⟩
            case isFalse =>
              split at h
              · cases h
              · rename_i hmax _ next hnext
                split at h
                · rename_i tl' hupd
                  cases h
                  exact Or.inr (measureLt_of_write hnext hupd (Nat.le_of_not_lt hmax))
                · cases h; exact Or.inl ⟨rfl, rfl⟩

theorem Queue.pop_size {q : Queue} {x : Coord × TileType} {q' : Queue}
    (h : q.pop = some (x, q')) : q'.size + 1 = q.size := by
  unfold Queue.pop at h
  split at h
  · rename_i y f hf
    cases h
    simp only [Queue.size, hf, List.length_cons]
    omega
  · rename_i hf
    split at h
    · cases h
    · rename_i y f hrev
      cases h
      have := congrArg List.length hrev
      simp at this
      simp [Queue.size, hf, ← this]

theorem Queue.push_size (q : Queue) (x : Coord × TileType) :
    (q.push x).size = q.size + 1 := by
  simp [Queue.push, Queue.size]
  omega

/-- One loop iteration either strictly decreases the table measure or keeps
the map and shortens the queue. -/
theorem step1_measure {a b : Nat} {st st' : Map × Queue}
    (h : step1 a b st = .next st') :
    MeasureLt b st'.1 st.1 ∨ (st'.1 = st.1 ∧ st'.2.size < st.2.size) := by
  unfold step1 at h
  split at h
  · cases h
  · rename_i p coord prev_tt rest hpop
    split at h
    · cases h
    · rename_i st1 h1
      split at h
      · cases h
      · rename_i st2 h2
        split at h
        · cases h
        · rename_i st3 h3
          cases h
          obtain ⟨m3, q3⟩ := st'
          dsimp only
          have hsz : rest.size < st.2.size := by
            have := Queue.pop_size hpop
            omega
          rcases relaxDir_measure h1 with ⟨e1m, e1q⟩ | l1 <;>
            rcases relaxDir_measure h2 with ⟨e2m, e2q⟩ | l2 <;>
            rcases relaxDir_measure h3 with ⟨e3m, e3q⟩ | l3
          · subst e1m; subst e1q; subst e2m; subst e2q; subst e3m; subst e3q
            exact Or.inr ⟨rfl, hsz⟩
          · subst e1m; subst e1q; subst e2m; subst e2q
            exact Or.inl l3
          · subst e1m; subst e1q; subst e3m; subst e3q
            exact Or.inl l2
          · subst e1m; subst e1q
            exact Or.inl (measureLt_trans l3 l2)
          · subst e2m; subst e2q; subst e3m; subst e3q
            exact Or.inl l1
          · subst e2m; subst e2q
            exact Or.inl (measureLt_trans l3 l1)
          · subst e3m; subst e3q
            exact Or.inl (measureLt_trans l2 l1)
          · exact Or.inl (measureLt_trans l3 (measureLt_trans l2 l1))

/-- The `while let` loop of `Map::find_min`: keep processing queue entries
until the queue is empty (`some` of the final map) or the body panics
(`none`).  Termination: every iteration either strictly shrinks the
`(missing, stored)` table measure or pops without pushing. -/
def search (a b : Nat) (st : Map × Queue) : Option Map :=
  match h : step1 a b st with
  | .done m => some m
  | .fail => none
  | .next st' => search a b st'
termination_by (missing st.1 b, stored st.1 b, st.2.size)
decreasing_by
  rcases step1_measure h with hlt | ⟨heq, hsz⟩
  · rcases hlt with hmiss | ⟨hmiss, hstore⟩
    · exact Prod.Lex.left _ _ hmiss
    · rw [hmiss]
      exact Prod.Lex.right _ (Prod.Lex.left _ _ hstore)
  · rw [heq]
    exact Prod.Lex.right _ (Prod.Lex.right _ hsz)

/-- Fuel-indexed runs agree with the loop. -/
theorem searchFuel_sound {a b : Nat} :
    ∀ {fuel : Nat} {st : Map × Queue} {r : Option Map},
      searchFuel a b fuel st = some r → search a b st = r := by
  intro fuel
  induction fuel with
  | zero => intro st r h; cases h
  | succ f ih =>
    intro st r h
    rw [search]
    unfold searchFuel at h
    split at h <;> rename_i hstep
    · rw [hstep]; exact Option.some.inj h
    · rw [hstep]; exact Option.some.inj h
    · rw [hstep]; exact ih h

/-- `Map::find_min` (lines 141-235 of the source), returning both the Rust
return value and the final state of the mutated map.  The outer `Option`
models panics. -/
def Map.find_min_full (m : Map) (min_dist max_dist : Nat) :
    Option (Option Nat × Map) :=
  match m.seed with
  | none => none
  | some st =>
    match search min_dist max_dist st with
    | none => none
    | some mF =>
      match readAnswer min_dist mF with
      | none => none
      | some r => some (r, mF)

/-- `Map::find_min` seen as the Rust caller sees it: just the returned
`Option<u64>` (`none` of the outer layer is a panic). -/
def Map.find_min (m : Map) (min_dist max_dist : Nat) : Option (Option Nat) :=
  (m.find_min_full min_dist max_dist).map Prod.fst

/-- `Map::find_min_basic` (`self.find_min(0, 3)`). -/
def Map.find_min_basic (m : Map) : Option (Option Nat) := m.find_min 0 3

/-- The fuel variant of the full entry point agrees with the loop-based one
whenever the fuel suffices. -/
theorem find_min_fullFuel_sound {m : Map} {fuel a b : Nat}
    {r : Option (Option Nat × Map)} (h : m.find_min_fullFuel fuel a b = some r) :
    m.find_min_full a b = r := by
  unfold Map.find_min_fullFuel at h
  unfold Map.find_min_full
  split at h
  · exact Option.some.inj h
  · rename_i st hseed
    split at h <;> rename_i hrun
    · cases h
    · rw [searchFuel_sound hrun]
      exact Option.some.inj h
    · rw [searchFuel_sound hrun]
      dsimp only
      split at h <;> exact Option.some.inj h

/-- Fuel variant of `find_min` agrees with `find_min`. -/
theorem find_minFuel_sound {m : Map} {fuel a b : Nat} {r : Option (Option Nat)}
    (h : m.find_minFuel fuel a b = some r) : m.find_min a b = r := by
  unfold Map.find_minFuel at h
  unfold Map.find_min
  cases hf : m.find_min_fullFuel fuel a b with
  | none => rw [hf] at h; cases h
  | some r' =>
    rw [hf] at h
    simp only [Option.map_some'] at h
    rw [find_min_fullFuel_sound hf, ← Option.some.inj h]

/-!
### Concrete fixtures

The grids of the unit tests of the source (`test_part1`, `test_part2`) and
the small grids used below as failing inputs and counterexamples.
-/

/-- The 13×13 digit grid of `test_part1` / `test_part2`. -/
def str13 : String :=
  "2413432311323\n3215453535623\n3255245654254\n3446585845452\n4546657867536\n1438598798454\n4457876987766\n3637877979653\n4654967986887\n4564679986453\n1224686865563\n2546548887735\n4322674655533"

/-- The 13×13 fixture as a freshly parsed map. -/
def m13 : Map := toMap
  [[2,4,1,3,4,3,2,3,1,1,3,2,3],
   [3,2,1,5,4,5,3,5,3,5,6,2,3],
   [3,2,5,5,2,4,5,6,5,4,2,5,4],
   [3,4,4,6,5,8,5,8,4,5,4,5,2],
   [4,5,4,6,6,5,7,8,6,7,5,3,6],
   [1,4,3,8,5,9,8,7,9,8,4,5,4],
   [4,4,5,7,8,7,6,9,8,7,7,6,6],
   [3,6,3,7,8,7,7,9,7,9,6,5,3],
   [4,6,5,4,9,6,7,9,8,6,8,8,7],
   [4,5,6,4,6,7,9,9,8,6,4,5,3],
   [1,2,2,4,6,8,6,8,6,5,5,6,3],
   [2,5,4,6,5,4,8,8,8,7,7,3,5],
   [4,3,2,2,6,7,4,6,5,5,5,3,3]]

/-- The 5-row corridor grid of `test_part2`. -/
def strCorr : String :=
  "111111111111\n999999999991\n999999999991\n999999999991\n999999999991"

/-- The corridor fixture as a freshly parsed map. -/
def corr12 : Map := toMap
  [[1,1,1,1,1,1,1,1,1,1,1,1],
   [9,9,9,9,9,9,9,9,9,9,9,1],
   [9,9,9,9,9,9,9,9,9,9,9,1],
   [9,9,9,9,9,9,9,9,9,9,9,1],
   [9,9,9,9,9,9,9,9,9,9,9,1]]

/-- A 5×5 grid whose cheapest `min_run = 4` path must leave the start cell
southwards: the first row is expensive, the first column and last row cost 1. -/
def g5x5 : Map := toMap
  [[1,9,9,9,9],
   [1,9,9,9,9],
   [1,9,9,9,9],
   [1,9,9,9,9],
   [1,1,1,1,1]]

/-- A 2×2 grid whose cheapest no-reversal path must leave the start cell
southwards (enter `(0,1)` for 1, then `(1,1)` for 1). -/
def g2x2 : Map := toMap [[1,9],[1,1]]

/-!
### The move relation of the search

`Reach m a b c tt v` holds when the search's own transition rules can drive
the synthetic start state `((0,0), East, run 0)` to the state `(c, tt)` along
a walk whose entered cells cost `v` in total.  This is the search-side
specification against which `find_min` is proved correct.
-/

/-- The run length after moving in direction `d` from state `tt`
(`next_steps` in the source). -/
def nextStepsOf (tt : TileType) (d : Dir) : Nat :=
  if d = tt.dir then tt.steps_in_dir + 1 else 1

/-- The in-bounds/turn/straight-run conditions the loop body checks before
relaxing a move (everything except membership of `d` in the three candidate
directions). -/
def MoveOk (m : Map) (a b : Nat) (c : Coord) (tt : TileType) (d : Dir) : Prop :=
  m.is_in_bounds (c.add d) ∧ (d = tt.dir ∨ a ≤ tt.steps_in_dir) ∧ nextStepsOf tt d ≤ b

instance (m : Map) (a b : Nat) (c : Coord) (tt : TileType) (d : Dir) :
    Decidable (MoveOk m a b c tt d) := by
  unfold MoveOk; infer_instance

/-- A legal transition of the search: `d` is one of the three candidate
directions tried by the loop, and the move conditions hold. -/
def LegalStep (m : Map) (a b : Nat) (c : Coord) (tt : TileType) (d : Dir) : Prop :=
  (d = tt.dir ∨ d = tt.dir.left ∨ d = tt.dir.right) ∧ MoveOk m a b c tt d

instance (m : Map) (a b : Nat) (c : Coord) (tt : TileType) (d : Dir) :
    Decidable (LegalStep m a b c tt d) := by
  unfold LegalStep; infer_instance

/-- States reachable by the search's own move relation together with the
cost of a walk that reaches them. -/
inductive Reach (m : Map) (a b : Nat) : Coord → TileType → Nat → Prop
  | seed : Reach m a b ⟨0, 0⟩ startTT 0
  | step {c : Coord} {tt : TileType} {v : Nat} {d : Dir} {hv : Nat} :
      Reach m a b c tt v → LegalStep m a b c tt d →
      m.heatAt (c.add d) = some hv →
      Reach m a b (c.add d) ⟨d, nextStepsOf tt d⟩ (v + hv)

/-- `MoveOk` only depends on the heat grid. -/
theorem moveOk_congr {m m' : Map} (h : m'.heats = m.heats) {a b : Nat}
    {c : Coord} {tt : TileType} {d : Dir} :
    MoveOk m' a b c tt d ↔ MoveOk m a b c tt d := by
  unfold MoveOk
  rw [is_in_bounds_congr h]

/-- `LegalStep` only depends on the heat grid. -/
theorem legalStep_congr {m m' : Map} (h : m'.heats = m.heats) {a b : Nat}
    {c : Coord} {tt : TileType} {d : Dir} :
    LegalStep m' a b c tt d ↔ LegalStep m a b c tt d := by
  unfold LegalStep
  rw [moveOk_congr h]

/-- `Reach` only depends on the heat grid. -/
theorem reach_congr {m m' : Map} (h : m'.heats = m.heats) {a b : Nat}
    {c : Coord} {tt : TileType} {v : Nat} :
    Reach m' a b c tt v → Reach m a b c tt v := by
  intro hr
  induction hr with
  | seed => exact .seed
  | step _ hl hh ih =>
    exact .step ih ((legalStep_congr h).mp hl) (by rw [← heatAt_congr h]; exact hh)

/-- Full characterization of one direction relaxation: the reads it performs,
and the three possible outcomes (move skipped, no improvement, improvement
written and pushed). -/
theorem relaxDir_spec {a b : Nat} {m : Map} {q : Queue} {c : Coord}
    {tt : TileType} {d : Dir} {m' : Map} {q' : Queue}
    (h : relaxDir a b m q c tt d = some (m', q')) :
    ∃ t this_loss, m.index? c = some t ∧
      lookupTL t.total_loss tt = some this_loss ∧
      ((¬ MoveOk m a b c tt d ∧ m' = m ∧ q' = q) ∨
       (MoveOk m a b c tt d ∧ ∃ next prev,
          m.index? (c.add d) = some next ∧
          m.tableLookup (c.add d) ⟨d, nextStepsOf tt d⟩ = some prev ∧
          prev ≤ this_loss + next.heat_loss ∧ m' = m ∧ q' = q) ∨
       (MoveOk m a b c tt d ∧ ∃ next tl',
          m.index? (c.add d) = some next ∧
          entryUpdate next.total_loss ⟨d, nextStepsOf tt d⟩
            (this_loss + next.heat_loss) = (tl', true) ∧
          m' = m.setTL (c.add d) tl' ∧
          q' = q.push (c.add d, ⟨d, nextStepsOf tt d⟩))) := by
  unfold relaxDir at h
  split at h
  · cases h
  · rename_i t ht
    split at h
    · cases h
    · rename_i this_loss hloss
      refine ⟨t, this_loss, ht, hloss, ?_⟩
      dsimp only at h
      split at h
      case isFalse hbnd =>
        cases h
        exact Or.inl ⟨fun hmo => hbnd hmo.1, rfl, rfl⟩
      case isTrue hbnd =>
        split at h
        case isTrue hturn =>
          cases h
          refine Or.inl ⟨fun hmo => ?_, rfl, rfl⟩
          rcases hmo.2.1 with hd | hle
          · exact hturn.1 hd
          · exact Nat.not_lt.mpr hle hturn.2
        case isFalse hturn =>
          have hturn' : d = tt.dir ∨ a ≤ tt.steps_in_dir := by
            by_cases hd : d = tt.dir
            · exact Or.inl hd
            · refine Or.inr (Nat.le_of_not_lt fun hlt => hturn ⟨hd, hlt⟩)
          split at h <;> rename_i hdir
          · -- straight move: next_steps = steps + 1
            split at h
            case isTrue hmax =>
              cases h
              refine Or.inl ⟨fun hmo => ?_, rfl, rfl⟩
              have := hmo.2.2
              rw [nextStepsOf, if_pos hdir] at this
              exact Nat.not_lt.mpr this hmax
            case isFalse hmax =>
              have hmo : MoveOk m a b c tt d :=
                ⟨hbnd, hturn', by rw [nextStepsOf, if_pos hdir]; exact Nat.le_of_not_lt hmax⟩
              have hns : nextStepsOf tt d = tt.steps_in_dir + 1 := by
                rw [nextStepsOf, if_pos hdir]
              split at h
              · cases h
              · rename_i next hnext
                split at h
                case h_1 tl' hupd =>
                  cases h
                  exact Or.inr (Or.inr ⟨hmo, next, tl', hnext, by rw [hns]; exact hupd,
                    rfl, by rw [hns]⟩)
                case h_2 tl' hupd =>
                  cases h
                  obtain ⟨-, prev, hprev, hple⟩ := entryUpdate_false hupd
                  refine Or.inr (Or.inl ⟨hmo, next, prev, hnext, ?_, hple, rfl, rfl⟩)
                  unfold Map.tableLookup
                  rw [hnext, hns]
                  exact hprev
          · -- turning move: next_steps = 1
            split at h
            case isTrue hmax =>
              cases h
              refine Or.inl ⟨fun hmo => ?_, rfl, rfl⟩
              have := hmo.2.2
              rw [nextStepsOf, if_neg hdir] at this
              exact Nat.not_lt.mpr this hmax
            case isFalse hmax =>
              have hmo : MoveOk m a b c tt d :=
                ⟨hbnd, hturn', by rw [nextStepsOf, if_neg hdir]; exact Nat.le_of_not_lt hmax⟩
              have hns : nextStepsOf tt d = 1 := by
                rw [nextStepsOf, if_neg hdir]
              split at h
              · cases h
              · rename_i next hnext
                split at h
                case h_1 tl' hupd =>
                  cases h
                  exact Or.inr (Or.inr ⟨hmo, next, tl', hnext, by rw [hns]; exact hupd,
                    rfl, by rw [hns]⟩)
                case h_2 tl' hupd =>
                  cases h
                  obtain ⟨-, prev, hprev, hple⟩ := entryUpdate_false hupd
                  refine Or.inr (Or.inl ⟨hmo, next, prev, hnext, ?_, hple, rfl, rfl⟩)
                  unfold Map.tableLookup
                  rw [hnext, hns]
                  exact hprev

/-- Two cells one move apart are distinct. -/
theorem coord_add_ne (c : Coord) (d : Dir) : c.add d ≠ c := by
  obtain ⟨x, y⟩ := c
  cases d <;> simp [Coord.add, Coord.mk.injEq] <;> omega

/-- Pushing only appends to the queued entries. -/
theorem Queue.mem_push {q : Queue} {x e : Coord × TileType} :
    e ∈ (q.push x).entries ↔ e ∈ q.entries ∨ e = x := by
  unfold Queue.push Queue.entries
  simp only [List.mem_append, List.mem_cons]
  tauto

/-- Popping refines the queued entries. -/
theorem Queue.mem_pop {q : Queue} {x : Coord × TileType} {q' : Queue}
    (h : q.pop = some (x, q')) :
    ∀ e, e ∈ q.entries ↔ e = x ∨ e ∈ q'.entries := by
  obtain ⟨fr, bk⟩ := q
  unfold Queue.pop at h
  cases fr with
  | cons w f =>
    dsimp only at h
    cases h
    intro e
    simp only [Queue.entries, List.cons_append, List.mem_cons, List.mem_append]
  | nil =>
    dsimp only at h
    cases hrev : bk.reverse with
    | nil => rw [hrev] at h; cases h
    | cons w f =>
      rw [hrev] at h
      dsimp only at h
      cases h
      intro e
      have hb : e ∈ bk ↔ e ∈ x :: f := by
        rw [← hrev, List.mem_reverse]
      simp only [Queue.entries, List.nil_append, List.append_nil, hb, List.mem_cons]

/-- The reads every successful `relaxDir` performs. -/
theorem relaxDir_reads {a b : Nat} {m : Map} {q : Queue} {c : Coord}
    {tt : TileType} {d : Dir} {m' : Map} {q' : Queue}
    (h : relaxDir a b m q c tt d = some (m', q')) :
    ∃ this_loss, m.tableLookup c tt = some this_loss := by
  obtain ⟨t, this_loss, ht, hl, -⟩ := relaxDir_spec h
  refine ⟨this_loss, ?_⟩
  unfold Map.tableLookup
  rw [ht]
  exact hl

/-- A successful `relaxDir` preserves the heat grid. -/
theorem relaxDir_heats {a b : Nat} {m : Map} {q : Queue} {c : Coord}
    {tt : TileType} {d : Dir} {m' : Map} {q' : Queue}
    (h : relaxDir a b m q c tt d = some (m', q')) : m'.heats = m.heats := by
  obtain ⟨t, this_loss, -, -, hcase⟩ := relaxDir_spec h
  rcases hcase with ⟨-, rfl, -⟩ | ⟨-, next, prev, -, -, -, rfl, -⟩ |
    ⟨-, next, tl', -, -, rfl, -⟩
  · rfl
  · rfl
  · exact heats_setTL m _ tl'

/-- `relaxDir` never raises a stored cost, and never deletes an entry. -/
theorem relaxDir_mono {a b : Nat} {m : Map} {q : Queue} {c : Coord}
    {tt : TileType} {d : Dir} {m' : Map} {q' : Queue}
    (h : relaxDir a b m q c tt d = some (m', q')) :
    ∀ k ktt v, m.tableLookup k ktt = some v →
      ∃ v' ≤ v, m'.tableLookup k ktt = some v' := by
  intro k ktt v hv
  obtain ⟨t, this_loss, -, -, hcase⟩ := relaxDir_spec h
  rcases hcase with ⟨-, rfl, -⟩ | ⟨-, next, prev, -, -, -, rfl, -⟩ |
    ⟨hmo, next, tl', hnext, hupd, rfl, -⟩
  · exact ⟨v, le_rfl, hv⟩
  · exact ⟨v, le_rfl, hv⟩
  · obtain ⟨hnew, hother, hprev⟩ := entryUpdate_true hupd
    rw [tableLookup_setTL hnext tl' k ktt]
    by_cases hk : k = c.add d
    · subst hk
      rw [if_pos rfl]
      by_cases hktt : ktt = ⟨d, nextStepsOf tt d⟩
      · subst hktt
        have hvold : lookupTL next.total_loss ⟨d, nextStepsOf tt d⟩ = some v := by
          have : m.tableLookup (c.add d) ⟨d, nextStepsOf tt d⟩ = some v := hv
          unfold Map.tableLookup at this
          rw [hnext] at this
          exact this
        rcases hprev with hmiss | ⟨prev, hprev, hlt⟩
        · rw [hvold] at hmiss; cases hmiss
        · rw [hvold] at hprev
          cases Option.some.inj hprev
          exact ⟨this_loss + next.heat_loss, Nat.le_of_lt hlt, hnew⟩
      · rw [hother ktt hktt]
        have : m.tableLookup (c.add d) ktt = some v := hv
        unfold Map.tableLookup at this
        rw [hnext] at this
        exact ⟨v, le_rfl, this⟩
    · rw [if_neg hk]
      exact ⟨v, le_rfl, hv⟩

/-- Provenance of entries after a `relaxDir`: an entry is either an old one
(with the same value) or the freshly relaxed target, which is then queued and
whose value comes from the popped state's value plus the entered heat. -/
theorem relaxDir_new {a b : Nat} {m : Map} {q : Queue} {c : Coord}
    {tt : TileType} {d : Dir} {m' : Map} {q' : Queue}
    (h : relaxDir a b m q c tt d = some (m', q')) :
    ∀ k ktt v', m'.tableLookup k ktt = some v' →
      m.tableLookup k ktt = some v' ∨
      (k = c.add d ∧ ktt = ⟨d, nextStepsOf tt d⟩ ∧ MoveOk m a b c tt d ∧
        (k, ktt) ∈ q'.entries ∧
        ∃ this_loss hv, m.tableLookup c tt = some this_loss ∧
          m.heatAt (c.add d) = some hv ∧ v' = this_loss + hv) := by
  intro k ktt v' hv'
  obtain ⟨t, this_loss, ht, hl, hcase⟩ := relaxDir_spec h
  have htab : m.tableLookup c tt = some this_loss := by
    unfold Map.tableLookup
    rw [ht]
    exact hl
  rcases hcase with ⟨-, rfl, -⟩ | ⟨-, next, prev, -, -, -, rfl, -⟩ |
    ⟨hmo, next, tl', hnext, hupd, rfl, rfl⟩
  · exact Or.inl hv'
  · exact Or.inl hv'
  · obtain ⟨hnew, hother, -⟩ := entryUpdate_true hupd
    rw [tableLookup_setTL hnext tl' k ktt] at hv'
    by_cases hk : k = c.add d
    · subst hk
      rw [if_pos rfl] at hv'
      by_cases hktt : ktt = ⟨d, nextStepsOf tt d⟩
      · subst hktt
        rw [hnew] at hv'
        cases Option.some.inj hv'
        refine Or.inr ⟨rfl, rfl, hmo, Queue.mem_push.mpr (Or.inr rfl),
          this_loss, next.heat_loss, htab, ?_, rfl⟩
        unfold Map.heatAt
        rw [hnext]
        rfl
      · rw [hother ktt hktt] at hv'
        refine Or.inl ?_
        unfold Map.tableLookup
        rw [hnext]
        exact hv'
    · rw [if_neg hk] at hv'
      exact Or.inl hv'

/-- Queue membership across a `relaxDir`: old entries stay, and any new entry
is the relaxed target, which is then present in the new table. -/
theorem relaxDir_qmem {a b : Nat} {m : Map} {q : Queue} {c : Coord}
    {tt : TileType} {d : Dir} {m' : Map} {q' : Queue}
    (h : relaxDir a b m q c tt d = some (m', q')) :
    (∀ e, e ∈ q.entries → e ∈ q'.entries) ∧
    (∀ e, e ∈ q'.entries → e ∈ q.entries ∨
      (e = (c.add d, ⟨d, nextStepsOf tt d⟩) ∧
        ∃ w, m'.tableLookup e.1 e.2 = some w)) := by
  obtain ⟨t, this_loss, ht, hl, hcase⟩ := relaxDir_spec h
  rcases hcase with ⟨-, rfl, rfl⟩ | ⟨-, next, prev, -, -, -, rfl, rfl⟩ |
    ⟨hmo, next, tl', hnext, hupd, rfl, rfl⟩
  · exact ⟨fun e he => he, fun e he => Or.inl he⟩
  · exact ⟨fun e he => he, fun e he => Or.inl he⟩
  · obtain ⟨hnew, -, -⟩ := entryUpdate_true hupd
    constructor
    · intro e he
      exact Queue.mem_push.mpr (Or.inl he)
    · intro e he
      rcases Queue.mem_push.mp he with he | rfl
      · exact Or.inl he
      · refine Or.inr ⟨rfl, this_loss + next.heat_loss, ?_⟩
        rw [tableLookup_setTL hnext tl', if_pos rfl]
        exact hnew

/-- After a successful `relaxDir` for a legal direction, the target state is
relaxed with respect to the popped state's stored value. -/
theorem relaxDir_relaxed {a b : Nat} {m : Map} {q : Queue} {c : Coord}
    {tt : TileType} {d : Dir} {m' : Map} {q' : Queue}
    (h : relaxDir a b m q c tt d = some (m', q'))
    (hmo : MoveOk m a b c tt d) {v : Nat} (hv : m.tableLookup c tt = some v) :
    ∃ hv' w, m.heatAt (c.add d) = some hv' ∧
      m'.tableLookup (c.add d) ⟨d, nextStepsOf tt d⟩ = some w ∧ w ≤ v + hv' := by
  obtain ⟨t, this_loss, ht, hl, hcase⟩ := relaxDir_spec h
  have htab : m.tableLookup c tt = some this_loss := by
    unfold Map.tableLookup
    rw [ht]
    exact hl
  have hveq : this_loss = v := by
    rw [htab] at hv
    exact Option.some.inj hv
  subst hveq
  rcases hcase with ⟨hnmo, -, -⟩ | ⟨-, next, prev, hnext, hprev, hple, rfl, -⟩ |
    ⟨-, next, tl', hnext, hupd, rfl, -⟩
  · exact absurd hmo hnmo
  · refine ⟨next.heat_loss, prev, ?_, hprev, hple⟩
    unfold Map.heatAt
    rw [hnext]
    rfl
  · obtain ⟨hnew, -, -⟩ := entryUpdate_true hupd
    refine ⟨next.heat_loss, this_loss + next.heat_loss, ?_, ?_, le_rfl⟩
    · unfold Map.heatAt
      rw [hnext]
      rfl
    · rw [tableLookup_setTL hnext tl', if_pos rfl]
      exact hnew

/-!
### Invariants of the search loop
-/

/-- A rectangular map: every row has the width of the first row. -/
def Rect (m : Map) : Prop := ∀ row ∈ m.rows, row.length = m.width

/-- In a rectangular map, `is_in_bounds` coordinates can be indexed. -/
theorem rect_index {m : Map} (hr : Rect m) {c : Coord}
    (hb : m.is_in_bounds c) : ∃ t, m.index? c = some t := by
  obtain ⟨hx, hy, hxlt, hylt⟩ := hb
  have hyrow : ∃ row, m.rows[c.y.toNat]? = some row := by
    have : c.y.toNat < m.rows.length := hylt
    exact ⟨m.rows[c.y.toNat], List.getElem?_eq_getElem this⟩
  obtain ⟨row, hrow⟩ := hyrow
  have hrl : row.length = m.width := by
    obtain ⟨hlt, hrw⟩ := List.getElem?_eq_some_iff.mp hrow
    exact hr row (hrw ▸ List.getElem_mem hlt)
  have hxrow : ∃ t, row[c.x.toNat]? = some t := by
    have : c.x.toNat < row.length := by rw [hrl]; exact hxlt
    exact ⟨row[c.x.toNat], List.getElem?_eq_getElem this⟩
  obtain ⟨t, ht⟩ := hxrow
  refine ⟨t, ?_⟩
  unfold Map.index?
  rw [if_pos ⟨hx, hy⟩, hrow]
  exact ht

/-- `Rect` stated on the heat grid. -/
theorem rect_iff_heats (m : Map) :
    Rect m ↔ ∀ hrow ∈ m.heats, hrow.length = (m.heats.headD []).length := by
  unfold Rect
  rw [← width_eq_heats]
  constructor
  · intro h hrow hmem
    obtain ⟨row, hrow', rfl⟩ := List.mem_map.mp (by simpa [Map.heats] using hmem)
    rw [List.length_map]
    exact h row hrow'
  · intro h row hmem
    have := h (row.map Tile.heat_loss)
      (by simp only [Map.heats, List.mem_map]; exact ⟨row, hmem, rfl⟩)
    rwa [List.length_map] at this

/-- `Rect` only depends on the heat grid. -/
theorem rect_congr {m m' : Map} (h : m'.heats = m.heats) : Rect m ↔ Rect m' := by
  rw [rect_iff_heats, rect_iff_heats, h]

/-- Entries at unrelated cells are untouched by a `relaxDir`. -/
theorem relaxDir_other {a b : Nat} {m : Map} {q : Queue} {c : Coord}
    {tt : TileType} {d : Dir} {m' : Map} {q' : Queue}
    (h : relaxDir a b m q c tt d = some (m', q')) :
    ∀ k ktt, k ≠ c.add d → m'.tableLookup k ktt = m.tableLookup k ktt := by
  intro k ktt hk
  obtain ⟨t, this_loss, -, -, hcase⟩ := relaxDir_spec h
  rcases hcase with ⟨-, rfl, -⟩ | ⟨-, next, prev, -, -, -, rfl, -⟩ |
    ⟨-, next, tl', hnext, -, rfl, -⟩
  · rfl
  · rfl
  · rw [tableLookup_setTL hnext tl', if_neg hk]

/-- A state all of whose legal moves are already relaxed in the table. -/
def Relaxed (m : Map) (a b : Nat) (c : Coord) (tt : TileType) (v : Nat) : Prop :=
  ∀ d, LegalStep m a b c tt d → ∃ hv w, m.heatAt (c.add d) = some hv ∧
    m.tableLookup (c.add d) ⟨d, nextStepsOf tt d⟩ = some w ∧ w ≤ v + hv

/-- Relaxedness survives monotone table updates that keep the heat grid. -/
theorem relaxed_mono {m m' : Map} (hh : m'.heats = m.heats)
    (hmono : ∀ k ktt w, m.tableLookup k ktt = some w →
      ∃ w' ≤ w, m'.tableLookup k ktt = some w')
    {a b : Nat} {c : Coord} {tt : TileType} {v : Nat}
    (hr : Relaxed m a b c tt v) : Relaxed m' a b c tt v := by
  intro d hl
  obtain ⟨hv, w, hheat, htab, hle⟩ := hr d ((legalStep_congr hh).mp hl)
  obtain ⟨w', hw', htab'⟩ := hmono _ _ _ htab
  exact ⟨hv, w', by rw [heatAt_congr hh]; exact hheat, htab', hw'.trans hle⟩

/-- Queue well-formedness: every queued state is present in the cost table. -/
def QWF (st : Map × Queue) : Prop :=
  ∀ e ∈ st.2.entries, ∃ v, st.1.tableLookup e.1 e.2 = some v

/-- Worklist invariant: every stored state is queued or fully relaxed. -/
def WorklistInv (a b : Nat) (st : Map × Queue) : Prop :=
  ∀ c tt v, st.1.tableLookup c tt = some v →
    (c, tt) ∈ st.2.entries ∨ Relaxed st.1 a b c tt v

/-- Quiescence: every stored state is fully relaxed. -/
def Quiescent (m : Map) (a b : Nat) : Prop :=
  ∀ c tt v, m.tableLookup c tt = some v → Relaxed m a b c tt v

/-- An empty pop means an empty queue. -/
theorem Queue.pop_none {q : Queue} (h : q.pop = none) : q.entries = [] := by
  obtain ⟨fr, bk⟩ := q
  unfold Queue.pop at h
  cases fr with
  | cons w f => cases h
  | nil =>
    dsimp only at h
    cases hrev : bk.reverse with
    | nil =>
      have : bk = [] := by
        have := congrArg List.reverse hrev
        simpa using this
      simp [Queue.entries, this]
    | cons w f => rw [hrev] at h; cases h

/-- The popped entry was queued. -/
theorem Queue.pop_mem {q : Queue} {x : Coord × TileType} {q' : Queue}
    (h : q.pop = some (x, q')) : x ∈ q.entries :=
  (Queue.mem_pop h x).mpr (Or.inl rfl)

/-- Decomposition of a `.next` loop iteration. -/
theorem step1_next_spec {a b : Nat} {st st' : Map × Queue}
    (h : step1 a b st = .next st') :
    ∃ c tt rest m1 q1 m2 q2,
      st.2.pop = some ((c, tt), rest) ∧
      relaxDir a b st.1 rest c tt tt.dir = some (m1, q1) ∧
      relaxDir a b m1 q1 c tt tt.dir.left = some (m2, q2) ∧
      relaxDir a b m2 q2 c tt tt.dir.right = some st' := by
  unfold step1 at h
  split at h
  · cases h
  · rename_i p c tt rest hpop
    split at h
    · cases h
    · rename_i m1 q1 h1
      split at h
      · cases h
      · rename_i m2 q2 h2
        split at h
        · cases h
        · rename_i st3 h3
          cases h
          exact ⟨c, tt, rest, m1, q1, m2, q2, hpop, h1, h2, h3⟩

/-- Decomposition of a `.done` loop iteration. -/
theorem step1_done_spec {a b : Nat} {st : Map × Queue} {m : Map}
    (h : step1 a b st = .done m) : st.2.pop = none ∧ m = st.1 := by
  unfold step1 at h
  split at h
  · rename_i hpop
    cases h
    exact ⟨hpop, rfl⟩
  · split at h
    · cases h
    · split at h
      · cases h
      · split at h
        · cases h
        · cases h

/-- One loop iteration preserves the heat grid. -/
theorem step1_heats {a b : Nat} {st st' : Map × Queue}
    (h : step1 a b st = .next st') : st'.1.heats = st.1.heats := by
  obtain ⟨c, tt, rest, m1, q1, m2, q2, -, h1, h2, h3⟩ := step1_next_spec h
  obtain ⟨m3, q3⟩ := st'
  exact (relaxDir_heats h3).trans ((relaxDir_heats h2).trans (relaxDir_heats h1))

/-- One loop iteration never raises a stored cost and never deletes one. -/
theorem step1_mono {a b : Nat} {st st' : Map × Queue}
    (h : step1 a b st = .next st') :
    ∀ k ktt v, st.1.tableLookup k ktt = some v →
      ∃ v' ≤ v, st'.1.tableLookup k ktt = some v' := by
  obtain ⟨c, tt, rest, m1, q1, m2, q2, -, h1, h2, h3⟩ := step1_next_spec h
  obtain ⟨m3, q3⟩ := st'
  intro k ktt v hv
  obtain ⟨v1, hle1, hv1⟩ := relaxDir_mono h1 k ktt v hv
  obtain ⟨v2, hle2, hv2⟩ := relaxDir_mono h2 k ktt v1 hv1
  obtain ⟨v3, hle3, hv3⟩ := relaxDir_mono h3 k ktt v2 hv2
  exact ⟨v3, hle3.trans (hle2.trans hle1), hv3⟩

/-- One loop iteration keeps every queued state present in the table. -/
theorem step1_qwf {a b : Nat} {st st' : Map × Queue}
    (h : step1 a b st = .next st') (hq : QWF st) : QWF st' := by
  obtain ⟨c, tt, rest, m1, q1, m2, q2, hpop, h1, h2, h3⟩ := step1_next_spec h
  obtain ⟨m3, q3⟩ := st'
  intro e he
  -- entries of `q3` come from `q2`, `q1`, `rest` or are freshly written
  rcases (relaxDir_qmem h3).2 e he with he2 | ⟨-, hw⟩
  · rcases (relaxDir_qmem h2).2 e he2 with he1 | ⟨-, hw⟩
    · rcases (relaxDir_qmem h1).2 e he1 with her | ⟨-, hw⟩
      · have heq : e ∈ st.2.entries := (Queue.mem_pop hpop e).mpr (Or.inr her)
        obtain ⟨v, hv⟩ := hq e heq
        obtain ⟨v1, -, hv1⟩ := relaxDir_mono h1 e.1 e.2 v hv
        obtain ⟨v2, -, hv2⟩ := relaxDir_mono h2 e.1 e.2 v1 hv1
        obtain ⟨v3, -, hv3⟩ := relaxDir_mono h3 e.1 e.2 v2 hv2
        exact ⟨v3, hv3⟩
      · obtain ⟨w, hw⟩ := hw
        obtain ⟨v2, -, hv2⟩ := relaxDir_mono h2 e.1 e.2 w hw
        obtain ⟨v3, -, hv3⟩ := relaxDir_mono h3 e.1 e.2 v2 hv2
        exact ⟨v3, hv3⟩
    · obtain ⟨w, hw⟩ := hw
      obtain ⟨v3, -, hv3⟩ := relaxDir_mono h3 e.1 e.2 w hw
      exact ⟨v3, hv3⟩
  · exact hw

/-- One relaxation preserves soundness of the table with respect to the
reachability relation over the pristine map. -/
theorem relaxDir_sound_step {m₀ : Map} {a b : Nat} {m : Map} {q : Queue}
    {c : Coord} {tt : TileType} {d : Dir} {m' : Map} {q' : Queue}
    (hh : m.heats = m₀.heats)
    (h : relaxDir a b m q c tt d = some (m', q'))
    (hdir : d = tt.dir ∨ d = tt.dir.left ∨ d = tt.dir.right)
    (hs : ∀ k ktt v, m.tableLookup k ktt = some v → Reach m₀ a b k ktt v) :
    ∀ k ktt v, m'.tableLookup k ktt = some v → Reach m₀ a b k ktt v := by
  intro k ktt v hv
  rcases relaxDir_new h k ktt v hv with hold | ⟨rfl, rfl, hmo, -, this_loss, hv', htl, hheat, rfl⟩
  · exact hs k ktt v hold
  · have hreach : Reach m₀ a b c tt this_loss := hs c tt this_loss htl
    have hlegal : LegalStep m₀ a b c tt d :=
      (@legalStep_congr m₀ m hh a b c tt d).mp ⟨hdir, hmo⟩
    have hheat' : m₀.heatAt (c.add d) = some hv' := by
      rw [← @heatAt_congr m₀ m hh (c.add d)]
      exact hheat
    exact Reach.step hreach hlegal hheat'

/-- One loop iteration preserves soundness. -/
theorem step1_sound {m₀ : Map} {a b : Nat} {st st' : Map × Queue}
    (hh : st.1.heats = m₀.heats) (h : step1 a b st = .next st')
    (hs : ∀ k ktt v, st.1.tableLookup k ktt = some v → Reach m₀ a b k ktt v) :
    ∀ k ktt v, st'.1.tableLookup k ktt = some v → Reach m₀ a b k ktt v := by
  obtain ⟨c, tt, rest, m1, q1, m2, q2, -, h1, h2, h3⟩ := step1_next_spec h
  obtain ⟨m3, q3⟩ := st'
  have hh1 : m1.heats = m₀.heats := (relaxDir_heats h1).trans hh
  have hh2 : m2.heats = m₀.heats := (relaxDir_heats h2).trans hh1
  have hs1 := relaxDir_sound_step hh h1 (Or.inl rfl) hs
  have hs2 := relaxDir_sound_step hh1 h2 (Or.inr (Or.inl rfl)) hs1
  exact relaxDir_sound_step hh2 h3 (Or.inr (Or.inr rfl)) hs2

/-- One loop iteration preserves the worklist invariant: after a pop, the
popped state is fully relaxed by the three direction relaxations, fresh
entries are pushed, and existing relaxed states stay relaxed because stored
costs only decrease. -/
theorem step1_worklist {a b : Nat} {st st' : Map × Queue}
    (h : step1 a b st = .next st') (hw : WorklistInv a b st) :
    WorklistInv a b st' := by
  obtain ⟨c, tt, rest, m1, q1, m2, q2, hpop, h1, h2, h3⟩ := step1_next_spec h
  obtain ⟨m3, q3⟩ := st'
  have hh1 : m1.heats = st.1.heats := relaxDir_heats h1
  have hh21 : m2.heats = m1.heats := relaxDir_heats h2
  have hh32 : m3.heats = m2.heats := relaxDir_heats h3
  have hh2 : m2.heats = st.1.heats := hh21.trans hh1
  have hh3 : m3.heats = st.1.heats := hh32.trans hh2
  have hh31 : m3.heats = m1.heats := hh32.trans hh21
  obtain ⟨v0, hv0⟩ := relaxDir_reads h1
  have hv1 : m1.tableLookup c tt = some v0 := by
    rw [relaxDir_other h1 c tt (Ne.symm (coord_add_ne c tt.dir))]
    exact hv0
  have hv2 : m2.tableLookup c tt = some v0 := by
    rw [relaxDir_other h2 c tt (Ne.symm (coord_add_ne c tt.dir.left))]
    exact hv1
  have mono23 : ∀ k ktt w, m1.tableLookup k ktt = some w →
      ∃ w' ≤ w, m3.tableLookup k ktt = some w' := by
    intro k ktt w hkw
    obtain ⟨w2, hle2, hw2⟩ := relaxDir_mono h2 k ktt w hkw
    obtain ⟨w3, hle3, hw3⟩ := relaxDir_mono h3 k ktt w2 hw2
    exact ⟨w3, hle3.trans hle2, hw3⟩
  have mono123 : ∀ k ktt w, st.1.tableLookup k ktt = some w →
      ∃ w' ≤ w, m3.tableLookup k ktt = some w' := by
    intro k ktt w hkw
    obtain ⟨w1, hle1, hw1⟩ := relaxDir_mono h1 k ktt w hkw
    obtain ⟨w', hle', hw'⟩ := mono23 k ktt w1 hw1
    exact ⟨w', hle'.trans hle1, hw'⟩
  have hrelaxed : Relaxed m3 a b c tt v0 := by
    intro d hl3
    have hl : LegalStep st.1 a b c tt d := (legalStep_congr hh3).mp hl3
    rcases hl.1 with hd | hd | hd
    · subst hd
      obtain ⟨hv', w, hheat, htab, hle⟩ := relaxDir_relaxed h1 hl.2 hv0
      obtain ⟨w', hle', htab'⟩ := mono23 _ _ _ htab
      exact ⟨hv', w', by rw [heatAt_congr hh3]; exact hheat, htab', hle'.trans hle⟩
    · subst hd
      have hmo1 : MoveOk m1 a b c tt tt.dir.left := (moveOk_congr hh1).mpr hl.2
      obtain ⟨hv', w, hheat, htab, hle⟩ := relaxDir_relaxed h2 hmo1 hv1
      obtain ⟨w', hle', htab'⟩ := relaxDir_mono h3 _ _ _ htab
      exact ⟨hv', w', by rw [heatAt_congr hh31]; exact hheat, htab', hle'.trans hle⟩
    · subst hd
      have hmo2 : MoveOk m2 a b c tt tt.dir.right := (moveOk_congr hh2).mpr hl.2
      obtain ⟨hv', w, hheat, htab, hle⟩ := relaxDir_relaxed h3 hmo2 hv2
      exact ⟨hv', w, by rw [heatAt_congr hh32]; exact hheat, htab, hle⟩
  intro c' tt' v' hv3'
  rcases relaxDir_new h3 c' tt' v' hv3' with hv2' | ⟨-, -, -, hq3, -⟩
  · rcases relaxDir_new h2 c' tt' v' hv2' with hv1' | ⟨-, -, -, hq2, -⟩
    · rcases relaxDir_new h1 c' tt' v' hv1' with hv0' | ⟨-, -, -, hq1, -⟩
      · rcases hw c' tt' v' hv0' with hmem | hrel
        · rcases (Queue.mem_pop hpop _).mp hmem with heq | hrest
          · injection heq with e1 e2
            subst e1
            subst e2
            have hveq : v' = v0 := by
              rw [hv0'] at hv0
              exact Option.some.inj hv0
            subst hveq
            exact Or.inr hrelaxed
          · exact Or.inl
              ((relaxDir_qmem h3).1 _ ((relaxDir_qmem h2).1 _
                ((relaxDir_qmem h1).1 _ hrest)))
        · exact Or.inr (relaxed_mono hh3 mono123 hrel)
      · exact Or.inl ((relaxDir_qmem h3).1 _ ((relaxDir_qmem h2).1 _ hq1))
    · exact Or.inl ((relaxDir_qmem h3).1 _ hq2)
  · exact Or.inl hq3

/-- On a rectangular map, a relaxation of a state present in the table never
panics. -/
theorem relaxDir_progress {a b : Nat} {m : Map} {q : Queue} {c : Coord}
    {tt : TileType} {d : Dir} (hpres : ∃ v, m.tableLookup c tt = some v)
    (hr : Rect m) : ∃ st', relaxDir a b m q c tt d = some st' := by
  obtain ⟨v, hv⟩ := hpres
  cases hrel : relaxDir a b m q c tt d with
  | some st' => exact ⟨st', rfl⟩
  | none =>
    exfalso
    unfold relaxDir at hrel
    split at hrel
    · rename_i hni
      unfold Map.tableLookup at hv
      rw [hni] at hv
      cases hv
    · rename_i t ht
      split at hrel
      · rename_i hnl
        unfold Map.tableLookup at hv
        rw [ht] at hv
        dsimp only at hv
        rw [hnl] at hv
        cases hv
      · dsimp only at hrel
        split at hrel
        case isFalse => cases hrel
        case isTrue hbnd =>
          split at hrel
          case isTrue => cases hrel
          case isFalse =>
            split at hrel <;>
            · split at hrel
              case isTrue => cases hrel
              case isFalse =>
                split at hrel
                case h_1 hnone =>
                  obtain ⟨nt, hnt⟩ := rect_index hr hbnd
                  rw [hnt] at hnone
                  cases hnone
                case h_2 =>
                  split at hrel <;> cases hrel

/-- Under queue well-formedness on a rectangular map, an iteration never
fails (the loop body cannot panic). -/
theorem step1_no_fail {a b : Nat} {st : Map × Queue} (hq : QWF st)
    (hr : Rect st.1) : step1 a b st ≠ .fail := by
  intro h
  unfold step1 at h
  split at h
  · cases h
  · rename_i p c tt rest hpop
    have hpres0 : ∃ v, st.1.tableLookup c tt = some v :=
      hq (c, tt) (Queue.pop_mem hpop)
    obtain ⟨st1, h1⟩ := @relaxDir_progress a b st.1 rest c tt tt.dir hpres0 hr
    obtain ⟨m1, q1⟩ := st1
    rw [h1] at h
    dsimp only at h
    have hr1 : Rect m1 := (rect_congr (relaxDir_heats h1)).mp hr
    have hpres1 : ∃ v, m1.tableLookup c tt = some v := by
      obtain ⟨v, hv⟩ := hpres0
      obtain ⟨v', -, hv'⟩ := relaxDir_mono h1 c tt v hv
      exact ⟨v', hv'⟩
    obtain ⟨st2, h2⟩ := @relaxDir_progress a b m1 q1 c tt tt.dir.left hpres1 hr1
    obtain ⟨m2, q2⟩ := st2
    rw [h2] at h
    dsimp only at h
    have hr2 : Rect m2 := (rect_congr (relaxDir_heats h2)).mp hr1
    have hpres2 : ∃ v, m2.tableLookup c tt = some v := by
      obtain ⟨v, hv⟩ := hpres1
      obtain ⟨v', -, hv'⟩ := relaxDir_mono h2 c tt v hv
      exact ⟨v', hv'⟩
    obtain ⟨st3, h3⟩ := @relaxDir_progress a b m2 q2 c tt tt.dir.right hpres2 hr2
    rw [h3] at h
    cases h

/-- Keys absent from the table are not among its stored keys. -/
theorem lookupTL_none_not_mem {tl : TLMap} {tt : TileType}
    (h : lookupTL tl tt = none) : tt ∉ tl.map Prod.fst := by
  induction tl with
  | nil => simp
  | cons kv rest ih =>
    obtain ⟨k, w⟩ := kv
    by_cases hk : k = tt
    · subst hk
      simp [lookupTL] at h
    · simp only [lookupTL, if_neg hk] at h
      simp only [List.map_cons, List.mem_cons]
      rintro (rfl | hmem)
      · exact hk rfl
      · exact ih h hmem

/-- `modifyTL` does not change the stored keys. -/
theorem modifyTL_keys (tl : TLMap) (tt : TileType) (loss : Nat) :
    (modifyTL tl tt loss).map Prod.fst = tl.map Prod.fst := by
  induction tl with
  | nil => rfl
  | cons kv rest ih =>
    obtain ⟨k, w⟩ := kv
    by_cases hk : k = tt
    · simp [modifyTL, if_pos hk]
    · simp [modifyTL, if_neg hk, ih]

/-- Every per-tile table has pairwise distinct keys (as Rust's `HashMap`
guarantees). -/
def NodupTL (m : Map) : Prop :=
  ∀ row ∈ m.rows, ∀ t ∈ row, (t.total_loss.map Prod.fst).Nodup

/-- A changed `entryUpdate` result keeps the keys pairwise distinct. -/
theorem entryUpdate_nodup {tl : TLMap} {tt : TileType} {loss : Nat}
    {tl' : TLMap} {chg : Bool} (h : entryUpdate tl tt loss = (tl', chg))
    (hn : (tl.map Prod.fst).Nodup) : (tl'.map Prod.fst).Nodup := by
  unfold entryUpdate at h
  split at h
  · split at h
    · injection h with h1 _
      subst h1
      rw [modifyTL_keys]
      exact hn
    · injection h with h1 _
      subst h1
      exact hn
  · rename_i hnone
    injection h with h1 _
    subst h1
    simp only [List.map_cons, List.nodup_cons]
    exact ⟨lookupTL_none_not_mem hnone, hn⟩

/-- `setTL` with nodup keys preserves `NodupTL`. -/
theorem setTL_nodup {m : Map} {c : Coord} {tl : TLMap} (hm : NodupTL m)
    (htl : (tl.map Prod.fst).Nodup) : NodupTL (m.setTL c tl) := by
  unfold Map.setTL
  split
  · cases hrow : m.rows[c.y.toNat]? with
    | none => exact hm
    | some row =>
      dsimp only
      cases ht : row[c.x.toNat]? with
      | none => exact hm
      | some t =>
        dsimp only
        intro row' hrow' t' ht'
        have hrowmem : row ∈ m.rows := by
          obtain ⟨hlt, hrw⟩ := List.getElem?_eq_some_iff.mp hrow
          exact hrw ▸ List.getElem_mem hlt
        rcases List.mem_or_eq_of_mem_set hrow' with hold | rfl
        · exact hm row' hold t' ht'
        · rcases List.mem_or_eq_of_mem_set ht' with hold | rfl
          · exact hm row hrowmem t' hold
          · obtain ⟨hlt, hrw⟩ := List.getElem?_eq_some_iff.mp ht
            exact htl
  · exact hm

/-- A relaxation preserves `NodupTL`. -/
theorem relaxDir_nodup {a b : Nat} {m : Map} {q : Queue} {c : Coord}
    {tt : TileType} {d : Dir} {m' : Map} {q' : Queue}
    (h : relaxDir a b m q c tt d = some (m', q')) (hm : NodupTL m) :
    NodupTL m' := by
  obtain ⟨t, this_loss, -, -, hcase⟩ := relaxDir_spec h
  rcases hcase with ⟨-, rfl, -⟩ | ⟨-, next, prev, -, -, -, rfl, -⟩ |
    ⟨-, next, tl', hnext, hupd, rfl, -⟩
  · exact hm
  · exact hm
  · refine setTL_nodup hm (entryUpdate_nodup hupd ?_)
    obtain ⟨hx, hy, row, hrow, ht⟩ := index?_eq_some_iff.mp hnext
    have hrowmem : row ∈ m.rows := by
      obtain ⟨hlt, hrw⟩ := List.getElem?_eq_some_iff.mp hrow
      exact hrw ▸ List.getElem_mem hlt
    have htmem : next ∈ row := by
      obtain ⟨hlt, hrw⟩ := List.getElem?_eq_some_iff.mp ht
      exact hrw ▸ List.getElem_mem hlt
    exact hm row hrowmem next htmem

/-- One loop iteration preserves `NodupTL`. -/
theorem step1_nodup {a b : Nat} {st st' : Map × Queue}
    (h : step1 a b st = .next st') (hm : NodupTL st.1) : NodupTL st'.1 := by
  obtain ⟨c, tt, rest, m1, q1, m2, q2, -, h1, h2, h3⟩ := step1_next_spec h
  obtain ⟨m3, q3⟩ := st'
  exact relaxDir_nodup h3 (relaxDir_nodup h2 (relaxDir_nodup h1 hm))

/-- Master facts about a completed loop run: the final heat grid, the
monotone evolution of the table, and (under the initial invariants)
soundness, quiescence and key-distinctness of the final table. -/
theorem search_master {a b : Nat} : ∀ st : Map × Queue, ∀ mF : Map,
    search a b st = some mF →
    mF.heats = st.1.heats ∧
    (∀ k ktt v, st.1.tableLookup k ktt = some v →
      ∃ v' ≤ v, mF.tableLookup k ktt = some v') ∧
    ((∀ k ktt v, st.1.tableLookup k ktt = some v → Reach st.1 a b k ktt v) →
      WorklistInv a b st → NodupTL st.1 →
      (∀ k ktt v, mF.tableLookup k ktt = some v → Reach st.1 a b k ktt v) ∧
      Quiescent mF a b ∧ NodupTL mF) := by
  intro st
  induction st using search.induct a b with
  | case1 x m hstep =>
    intro mF h
    rw [search, hstep] at h
    cases h
    obtain ⟨hpop, rfl⟩ := step1_done_spec hstep
    refine ⟨rfl, fun k ktt v hv => ⟨v, le_rfl, hv⟩, fun hsound hw hn => ⟨hsound, ?_, hn⟩⟩
    intro c tt v hv
    rcases hw c tt v hv with hmem | hrel
    · rw [Queue.pop_none hpop] at hmem
      cases hmem
    · exact hrel
  | case2 x hstep =>
    intro mF h
    rw [search, hstep] at h
    cases h
  | case3 x st' hstep ih =>
    intro mF h
    rw [search, hstep] at h
    obtain ⟨hheats, hmono, hrest⟩ := ih mF h
    have hstepheats := step1_heats hstep
    refine ⟨hheats.trans hstepheats, ?_, ?_⟩
    · intro k ktt v hv
      obtain ⟨v1, hle1, hv1⟩ := step1_mono hstep k ktt v hv
      obtain ⟨v2, hle2, hv2⟩ := hmono k ktt v1 hv1
      exact ⟨v2, hle2.trans hle1, hv2⟩
    · intro hsound hw hn
      have hsound' : ∀ k ktt v, st'.1.tableLookup k ktt = some v →
          Reach st'.1 a b k ktt v := by
        intro k ktt v hv
        exact @reach_congr st'.1 x.1 hstepheats.symm a b k ktt v
          (step1_sound rfl hstep hsound k ktt v hv)
      obtain ⟨hsF, hqF, hnF⟩ := hrest hsound' (step1_worklist hstep hw)
        (step1_nodup hstep hn)
      refine ⟨?_, hqF, hnF⟩
      intro k ktt v hv
      exact @reach_congr x.1 st'.1 hstepheats a b k ktt v (hsF k ktt v hv)

/-- The loop does not panic when the queue is well-formed and the map is
rectangular. -/
theorem search_progress {a b : Nat} : ∀ st : Map × Queue,
    QWF st → Rect st.1 → ∃ mF, search a b st = some mF := by
  intro st
  induction st using search.induct a b with
  | case1 x m hstep =>
    intro hq hr
    rw [search, hstep]
    exact ⟨m, rfl⟩
  | case2 x hstep =>
    intro hq hr
    exact absurd hstep (step1_no_fail hq hr)
  | case3 x st' hstep ih =>
    intro hq hr
    rw [search, hstep]
    exact ih (step1_qwf hstep hq)
      ((rect_congr (step1_heats hstep)).mp hr)

/-- In a quiescent table containing the seed at cost 0, every reachable
state has a stored cost no larger than the cost of any walk reaching it. -/
theorem quiescent_complete {m : Map} {a b : Nat} (hq : Quiescent m a b)
    (hs : m.tableLookup ⟨0, 0⟩ startTT = some 0) :
    ∀ c tt v, Reach m a b c tt v → ∃ w ≤ v, m.tableLookup c tt = some w := by
  intro c tt v hr
  induction hr with
  | seed => exact ⟨0, le_rfl, hs⟩
  | step hr hl hh ih =>
    obtain ⟨w, hwle, hwtab⟩ := ih
    obtain ⟨hv', w', hheat, htab, hle⟩ := hq _ _ _ hwtab _ hl
    rw [hh] at hheat
    cases Option.some.inj hheat
    exact ⟨w', hle.trans (Nat.add_le_add_right hwle _), htab⟩

/-!
### From the seeded state to the correctness of `find_min`
-/

/-- A found key/value pair is stored. -/
theorem lookupTL_some_mem {tl : TLMap} {tt : TileType} {v : Nat}
    (h : lookupTL tl tt = some v) : (tt, v) ∈ tl := by
  induction tl with
  | nil => cases h
  | cons kv rest ih =>
    obtain ⟨k, w⟩ := kv
    by_cases hk : k = tt
    · subst hk
      simp only [lookupTL, if_pos rfl] at h
      cases Option.some.inj h
      exact List.mem_cons_self _ _
    · simp only [lookupTL, if_neg hk] at h
      exact List.mem_cons_of_mem _ (ih h)

/-- With pairwise distinct keys, a stored pair is found by lookup. -/
theorem lookupTL_of_mem_nodup {tl : TLMap} {tt : TileType} {v : Nat}
    (hmem : (tt, v) ∈ tl) (hn : (tl.map Prod.fst).Nodup) :
    lookupTL tl tt = some v := by
  induction tl with
  | nil => cases hmem
  | cons kv rest ih =>
    obtain ⟨k, w⟩ := kv
    simp only [List.map_cons, List.nodup_cons] at hn
    rcases List.mem_cons.mp hmem with heq | hmem'
    · injection heq with e1 e2
      subst e1
      cases e2
      simp [lookupTL]
    · have hk : k ≠ tt := by
        rintro rfl
        exact hn.1 (List.mem_map.mpr ⟨(k, v), hmem', rfl⟩)
      simp only [lookupTL, if_neg hk]
      exact ih hmem' hn.2

/-- Tiles of a freshly built map carry empty tables. -/
theorem toMap_tile {g : List (List Nat)} {c : Coord} {t : Tile}
    (h : (toMap g).index? c = some t) : t.total_loss = [] := by
  obtain ⟨hx, hy, row, hrow, ht⟩ := index?_eq_some_iff.mp h
  unfold toMap at hrow
  dsimp only at hrow
  rw [List.getElem?_map] at hrow
  cases hg : g[c.y.toNat]? with
  | none => rw [hg] at hrow; cases hrow
  | some grow =>
    rw [hg] at hrow
    cases Option.some.inj hrow
    rw [List.getElem?_map] at ht
    cases hgx : grow[c.x.toNat]? with
    | none => rw [hgx] at ht; cases ht
    | some hv =>
      rw [hgx] at ht
      cases Option.some.inj ht
      rfl

/-- A freshly built map stores nothing. -/
theorem toMap_clean (g : List (List Nat)) :
    ∀ c tt, (toMap g).tableLookup c tt = none := by
  intro c tt
  unfold Map.tableLookup
  cases hic : (toMap g).index? c with
  | none => rfl
  | some t =>
    dsimp only
    rw [toMap_tile hic]
    rfl

/-- A freshly built map has pairwise distinct keys everywhere. -/
theorem toMap_nodup (g : List (List Nat)) : NodupTL (toMap g) := by
  intro row hrow t ht
  unfold toMap at hrow
  dsimp only at hrow
  obtain ⟨grow, -, rfl⟩ := List.mem_map.mp hrow
  obtain ⟨hv, -, rfl⟩ := List.mem_map.mp ht
  simp

/-- The bottom-right coordinate read by `find_min`. -/
def destC (m : Map) : Coord := ⟨(m.width : Int) - 1, (m.height : Int) - 1⟩

/-- Maps with the same heat grid have the same destination coordinate. -/
theorem destC_congr {m m' : Map} (h : m'.heats = m.heats) : destC m' = destC m := by
  unfold destC
  rw [width_eq_heats, width_eq_heats, height_eq_heats, height_eq_heats, h]

/-- Decomposition of a successful `find_min_full` run. -/
theorem find_min_full_parts {m : Map} {a b : Nat} {r : Option Nat} {mF : Map}
    (h : m.find_min_full a b = some (r, mF)) :
    ∃ t0, m.index? ⟨0, 0⟩ = some t0 ∧
      search a b (m.setTL ⟨0, 0⟩ [(startTT, 0)],
        Queue.empty.push (⟨0, 0⟩, startTT)) = some mF ∧
      readAnswer a mF = some r := by
  unfold Map.find_min_full Map.seed at h
  split at h
  · cases h
  · rename_i st hseedmatch
    split at hseedmatch
    · cases hseedmatch
    · rename_i t0 ht0
      cases hseedmatch
      split at h
      · cases h
      · rename_i mF' hsearch
        split at h
        · cases h
        · rename_i r' hread
          cases h
          exact ⟨t0, ht0, hsearch, hread⟩

/-- The entry table of the seeded start state. -/
theorem seed_tableLookup {m : Map} {t0 : Tile} (ht0 : m.index? ⟨0, 0⟩ = some t0)
    (hclean : ∀ c tt, m.tableLookup c tt = none) :
    ∀ c tt, (m.setTL ⟨0, 0⟩ [(startTT, 0)]).tableLookup c tt =
      if c = (⟨0, 0⟩ : Coord) ∧ tt = startTT then some 0 else none := by
  intro c tt
  rw [tableLookup_setTL ht0]
  by_cases hc : c = (⟨0, 0⟩ : Coord)
  · subst hc
    rw [if_pos rfl]
    by_cases htt : tt = startTT
    · subst htt
      simp [lookupTL]
    · rw [if_neg (fun hand => htt hand.2)]
      simp only [lookupTL]
      rw [if_neg (fun h => htt h.symm)]
  · rw [if_neg hc, if_neg (fun hand => hc hand.1)]
    exact hclean c tt

/-- An indexed tile of a `NodupTL` map has pairwise distinct keys. -/
theorem nodup_of_index? {m : Map} (hn : NodupTL m) {c : Coord} {t : Tile}
    (h : m.index? c = some t) : (t.total_loss.map Prod.fst).Nodup := by
  obtain ⟨-, -, row, hrow, ht⟩ := index?_eq_some_iff.mp h
  obtain ⟨hlt, hrw⟩ := List.getElem?_eq_some_iff.mp hrow
  obtain ⟨hlt', hrw'⟩ := List.getElem?_eq_some_iff.mp ht
  exact hn row (hrw ▸ List.getElem_mem hlt) t (hrw' ▸ List.getElem_mem hlt')

/-- What a successful `readAnswer` means in terms of stored destination
entries: `some v` is the least stored cost at the bottom-right cell among
entries with `steps_in_dir ≥ min_dist`, and `none` means no such entry. -/
theorem readAnswer_spec {a : Nat} {mF : Map} {r : Option Nat}
    (h : readAnswer a mF = some r) (hn : NodupTL mF) :
    (∀ v, r = some v →
      (∃ tt, a ≤ tt.steps_in_dir ∧ mF.tableLookup (destC mF) tt = some v) ∧
      (∀ tt w, a ≤ tt.steps_in_dir → mF.tableLookup (destC mF) tt = some w →
        v ≤ w)) ∧
    (r = none → ∀ tt w, a ≤ tt.steps_in_dir →
      mF.tableLookup (destC mF) tt = some w → False) := by
  unfold readAnswer at h
  cases hdt : mF.index? ⟨(mF.width : Int) - 1, (mF.height : Int) - 1⟩ with
  | none => rw [hdt] at h; cases h
  | some dt =>
    rw [hdt] at h
    cases Option.some.inj h
    have hdt' : mF.index? (destC mF) = some dt := hdt
    have hlook : ∀ tt, mF.tableLookup (destC mF) tt = lookupTL dt.total_loss tt := by
      intro tt
      unfold Map.tableLookup
      rw [hdt']
    have hmemlem : ∀ tt w, a ≤ tt.steps_in_dir →
        mF.tableLookup (destC mF) tt = some w →
        w ∈ ((dt.total_loss.filter fun kv => ¬ kv.1.steps_in_dir < a).map
          Prod.snd) := by
      intro tt w hs hw
      rw [hlook] at hw
      refine List.mem_map.mpr ⟨(tt, w), ?_, rfl⟩
      refine List.mem_filter.mpr ⟨lookupTL_some_mem hw, ?_⟩
      simpa using hs
    constructor
    · intro v hv
      have hmin := List.min?_eq_some_iff (α := Nat) Nat.le_refl
        (fun x y => min_choice x y) (fun x y z => le_min_iff) |>.mp hv
      obtain ⟨hvmem, hvle⟩ := hmin
      obtain ⟨⟨tt, w⟩, hmemf, rfl⟩ := List.mem_map.mp hvmem
      have hmemtl := List.mem_filter.mp hmemf
      refine ⟨⟨tt, by simpa using hmemtl.2, ?_⟩, ?_⟩
      · rw [hlook]
        exact lookupTL_of_mem_nodup hmemtl.1 (nodup_of_index? hn hdt')
      · intro tt' w' hs' hw'
        exact hvle w' (hmemlem tt' w' hs' hw')
    · intro hnone tt w hs hw
      have hempty := List.min?_eq_none_iff.mp hnone
      have := hmemlem tt w hs hw
      rw [hempty] at this
      cases this

/-- Correctness of `Map::find_min` on a clean map: the returned value is
exactly the minimum cumulative heat loss over all reachable destination
states with `steps_in_dir ≥ min_dist`, and `None` is returned exactly when
no such state is reachable. -/
theorem find_min_full_correct {m : Map} {a b : Nat} {r : Option Nat} {mF : Map}
    (hclean : ∀ c tt, m.tableLookup c tt = none)
    (hnodup : NodupTL m)
    (h : m.find_min_full a b = some (r, mF)) :
    mF.heats = m.heats ∧
    (∀ v, r = some v →
      (∃ tt, a ≤ tt.steps_in_dir ∧ Reach m a b (destC m) tt v) ∧
      (∀ u tt, a ≤ tt.steps_in_dir → Reach m a b (destC m) tt u → v ≤ u)) ∧
    (r = none → ∀ u tt, a ≤ tt.steps_in_dir → ¬ Reach m a b (destC m) tt u) := by
  obtain ⟨t0, ht0, hsearch, hread⟩ := find_min_full_parts h
  have hst0heats : (m.setTL ⟨0, 0⟩ [(startTT, 0)]).heats = m.heats :=
    heats_setTL m _ _
  have hst0look := seed_tableLookup ht0 hclean
  obtain ⟨hFheats, hmono, hmain⟩ := search_master _ mF hsearch
  have hsound0 : ∀ k ktt v,
      (m.setTL ⟨0, 0⟩ [(startTT, 0)]).tableLookup k ktt = some v →
      Reach (m.setTL ⟨0, 0⟩ [(startTT, 0)]) a b k ktt v := by
    intro k ktt v hv
    rw [hst0look] at hv
    split at hv
    · rename_i hif
      cases Option.some.inj hv
      obtain ⟨rfl, rfl⟩ := hif
      exact .seed
    · cases hv
  have hwl0 : WorklistInv a b
      (m.setTL ⟨0, 0⟩ [(startTT, 0)], Queue.empty.push (⟨0, 0⟩, startTT)) := by
    intro c tt v hv
    rw [hst0look] at hv
    split at hv
    · rename_i hif
      obtain ⟨rfl, rfl⟩ := hif
      exact Or.inl (List.mem_cons_self _ _)
    · cases hv
  have hnodup0 : NodupTL (m.setTL ⟨0, 0⟩ [(startTT, 0)]) :=
    setTL_nodup hnodup (by simp)
  obtain ⟨hFsound, hFquiet, hFnodup⟩ := hmain hsound0 hwl0 hnodup0
  have hFheatsm : mF.heats = m.heats := hFheats.trans hst0heats
  have hseed0 : (m.setTL ⟨0, 0⟩ [(startTT, 0)]).tableLookup ⟨0, 0⟩ startTT =
      some 0 := by
    rw [hst0look]
    exact if_pos ⟨rfl, rfl⟩
  obtain ⟨w0, hw0le, hw0⟩ := hmono _ _ _ hseed0
  have hseedF : mF.tableLookup ⟨0, 0⟩ startTT = some 0 := by
    rw [Nat.le_zero.mp hw0le] at hw0
    exact hw0
  have hcomplete := quiescent_complete hFquiet hseedF
  have hdest : destC mF = destC m := destC_congr hFheatsm
  obtain ⟨hra_some, hra_none⟩ := readAnswer_spec hread hFnodup
  refine ⟨hFheatsm, ?_, ?_⟩
  · intro v hv
    obtain ⟨⟨tt, hs, hlookup⟩, hminstored⟩ := hra_some v hv
    rw [hdest] at hlookup
    refine ⟨⟨tt, hs, ?_⟩, ?_⟩
    · exact reach_congr hst0heats (hFsound _ _ _ hlookup)
    · intro u tt' hs' hru
      have hrF : Reach mF a b (destC m) tt' u :=
        reach_congr hFheatsm.symm hru
      obtain ⟨w, hwle, hwtab⟩ := hcomplete _ _ _ hrF
      rw [← hdest] at hwtab
      exact (hminstored tt' w hs' hwtab).trans hwle
  · intro hnone u tt hs hru
    have hrF : Reach mF a b (destC m) tt u := reach_congr hFheatsm.symm hru
    obtain ⟨w, hwle, hwtab⟩ := hcomplete _ _ _ hrF
    rw [← hdest] at hwtab
    exact hra_none hnone tt w hs hwtab

/-- On a non-empty rectangular map (of any table state) `Map::find_min`
terminates without panicking. -/
theorem find_min_no_panic {m : Map} (hr : Rect m) (hh : 0 < m.height)
    (hw : 0 < m.width) (a b : Nat) : ∃ p, m.find_min_full a b = some p := by
  have hb0 : m.is_in_bounds ⟨0, 0⟩ := by
    refine ⟨le_rfl, le_rfl, ?_, ?_⟩ <;> simpa
  obtain ⟨t0, ht0⟩ := rect_index hr hb0
  have hst0heats : (m.setTL ⟨0, 0⟩ [(startTT, 0)]).heats = m.heats :=
    heats_setTL m _ _
  have hqwf : QWF (m.setTL ⟨0, 0⟩ [(startTT, 0)],
      Queue.empty.push (⟨0, 0⟩, startTT)) := by
    intro e he
    have he' : e = (⟨0, 0⟩, startTT) := by
      simpa [Queue.entries, Queue.empty, Queue.push] using he
    subst he'
    refine ⟨0, ?_⟩
    rw [tableLookup_setTL ht0, if_pos rfl]
    simp [lookupTL]
  obtain ⟨mF, hsearch⟩ := search_progress _ hqwf ((rect_congr hst0heats).mp hr)
  obtain ⟨hFheats, -, -⟩ := search_master _ mF hsearch
  have hFheatsm : mF.heats = m.heats := hFheats.trans hst0heats
  have hFw : mF.width = m.width := by
    rw [width_eq_heats, width_eq_heats, hFheatsm]
  have hFh : mF.height = m.height := by
    rw [height_eq_heats, height_eq_heats, hFheatsm]
  have hbF : mF.is_in_bounds ⟨(mF.width : Int) - 1, (mF.height : Int) - 1⟩ := by
    unfold Map.is_in_bounds
    dsimp only
    rw [hFw, hFh]
    refine ⟨by omega, by omega, by omega, by omega⟩
  obtain ⟨dt, hdt⟩ := rect_index ((rect_congr hFheatsm).mp hr) hbF
  have hseed : m.seed = some (m.setTL ⟨0, 0⟩ [(startTT, 0)],
      Queue.empty.push (⟨0, 0⟩, startTT)) := by
    unfold Map.seed
    rw [ht0]
  have hread : readAnswer a mF =
      some (((dt.total_loss.filter fun kv => ¬ kv.1.steps_in_dir < a).map
        Prod.snd).min?) := by
    unfold readAnswer
    rw [hdt]
  refine ⟨(((dt.total_loss.filter fun kv => ¬ kv.1.steps_in_dir < a).map
    Prod.snd).min?, mF), ?_⟩
  unfold Map.find_min_full
  rw [hseed]
  dsimp only
  rw [hsearch]
  dsimp only
  rw [hread]

/-!
### Structural properties of the reachability relation
-/

/-- Reached states never exceed the straight-run bound. -/
theorem reach_steps_le {m : Map} {a b : Nat} {c : Coord} {tt : TileType}
    {v : Nat} (h : Reach m a b c tt v) : tt.steps_in_dir ≤ b := by
  induction h with
  | seed => exact Nat.zero_le b
  | step _ hl _ _ => exact hl.2.2.2

/-- Raising `max_dist` keeps every reachable state reachable. -/
theorem reach_mono_max {m : Map} {a b1 b2 : Nat} (hb : b1 ≤ b2) {c : Coord}
    {tt : TileType} {v : Nat} (h : Reach m a b1 c tt v) : Reach m a b2 c tt v := by
  induction h with
  | seed => exact .seed
  | step _ hl hh ih =>
    exact .step ih ⟨hl.1, hl.2.1, hl.2.2.1, hl.2.2.2.trans hb⟩ hh

/-- Lowering `min_dist` keeps every reachable state reachable. -/
theorem reach_anti_min {m : Map} {a1 a2 b : Nat} (ha : a1 ≤ a2) {c : Coord}
    {tt : TileType} {v : Nat} (h : Reach m a2 b c tt v) : Reach m a1 b c tt v := by
  induction h with
  | seed => exact .seed
  | step _ hl hh ih =>
    refine .step ih ⟨hl.1, hl.2.1, ?_, hl.2.2.2⟩ hh
    rcases hl.2.2.1 with hd | hs
    · exact Or.inl hd
    · exact Or.inr (ha.trans hs)

/-- `find_min` in terms of `find_min_full`. -/
theorem find_min_eq_some {m : Map} {a b : Nat} {r : Option Nat} :
    m.find_min a b = some r ↔ ∃ mF, m.find_min_full a b = some (r, mF) := by
  unfold Map.find_min
  cases hf : m.find_min_full a b with
  | none => simp [hf]
  | some p =>
    obtain ⟨r', mF⟩ := p
    simp only [hf, Option.map_some', Option.some.injEq]
    constructor
    · rintro rfl
      exact ⟨mF, rfl⟩
    · rintro ⟨mF', h⟩
      cases h
      rfl

/-!
### A search started on an already-relaxed table does nothing
-/

/-- `entry(..).and_modify(..).or_insert_with(..)` leaves a table alone when
the stored value is no worse. -/
theorem entryUpdate_noop {tl : TLMap} {k : TileType} {loss w : Nat}
    (h : lookupTL tl k = some w) (hle : w ≤ loss) :
    entryUpdate tl k loss = (tl, false) := by
  unfold entryUpdate
  rw [h]
  dsimp only
  rw [if_neg (Nat.not_lt.mpr hle)]

/-- A relaxation whose every admissible target already stores a no-worse
value changes neither the map nor the queue. -/
theorem relaxDir_noop {a b : Nat} {m : Map} {q : Queue} {c : Coord}
    {tt : TileType} {v : Nat} {d : Dir} {t : Tile}
    (ht : m.index? c = some t) (hl : lookupTL t.total_loss tt = some v)
    (hrel : MoveOk m a b c tt d → ∃ hv w, m.heatAt (c.add d) = some hv ∧
      m.tableLookup (c.add d) ⟨d, nextStepsOf tt d⟩ = some w ∧ w ≤ v + hv) :
    relaxDir a b m q c tt d = some (m, q) := by
  unfold relaxDir
  rw [ht]
  dsimp only
  rw [hl]
  dsimp only
  by_cases hb : m.is_in_bounds (c.add d)
  · rw [if_pos hb]
    by_cases hturn : d ≠ tt.dir ∧ tt.steps_in_dir < a
    · rw [if_pos hturn]
    · rw [if_neg hturn]
      by_cases hmax : b < (if d = tt.dir then tt.steps_in_dir + 1 else 1)
      · rw [if_pos hmax]
      · rw [if_neg hmax]
        have hmove : MoveOk m a b c tt d := by
          refine ⟨hb, ?_, ?_⟩
          · rcases Decidable.em (d = tt.dir) with hd | hd
            · exact Or.inl hd
            · exact Or.inr (Nat.le_of_not_lt fun hlt => hturn ⟨hd, hlt⟩)
          · unfold nextStepsOf
            exact Nat.le_of_not_lt hmax
        obtain ⟨hv, w, hheat, hstored, hwle⟩ := hrel hmove
        obtain ⟨next, hnext, hnextheat⟩ :
            ∃ nx, m.index? (c.add d) = some nx ∧ nx.heat_loss = hv := by
          unfold Map.heatAt at hheat
          cases hn : m.index? (c.add d) with
          | none => rw [hn] at hheat; cases hheat
          | some nx =>
            rw [hn] at hheat
            exact ⟨nx, rfl, Option.some.inj hheat⟩
        rw [hnext]
        dsimp only
        have hstored' : lookupTL next.total_loss
            ⟨d, if d = tt.dir then tt.steps_in_dir + 1 else 1⟩ = some w := by
          unfold Map.tableLookup at hstored
          rw [hnext] at hstored
          unfold nextStepsOf at hstored
          exact hstored
        rw [entryUpdate_noop hstored' (by rw [hnextheat]; exact hwle)]
  · rw [if_neg hb]

/-- A search started from the freshly seeded queue on a map whose seed entry
is `0` and already relaxed terminates immediately with the map unchanged. -/
theorem search_noop {a b : Nat} {m : Map} {t : Tile}
    (ht : m.index? ⟨0, 0⟩ = some t) (hl : lookupTL t.total_loss startTT = some 0)
    (hrel : ∀ d, MoveOk m a b ⟨0, 0⟩ startTT d →
      ∃ hv w, m.heatAt (Coord.add ⟨0, 0⟩ d) = some hv ∧
        m.tableLookup (Coord.add ⟨0, 0⟩ d) ⟨d, nextStepsOf startTT d⟩ = some w ∧
        w ≤ 0 + hv) :
    search a b (m, Queue.empty.push (⟨0, 0⟩, startTT)) = some m := by
  have hpop : (Queue.empty.push (⟨0, 0⟩, startTT)).pop =
      some ((⟨0, 0⟩, startTT), (⟨[], []⟩ : Queue)) := rfl
  have hstep : step1 a b (m, Queue.empty.push (⟨0, 0⟩, startTT)) =
      .next (m, (⟨[], []⟩ : Queue)) := by
    unfold step1
    rw [hpop]
    dsimp only
    rw [relaxDir_noop ht hl (hrel _)]
    dsimp only
    rw [relaxDir_noop ht hl (hrel _)]
    dsimp only
    rw [relaxDir_noop ht hl (hrel _)]
  rw [search, hstep]
  dsimp only
  rw [search]
  have hdone : step1 a b (m, (⟨[], []⟩ : Queue)) = .done m := rfl
  rw [hdone]

/-- The final map of a successful `find_min_full` run on a clean map: heats
preserved, quiescent, keys distinct, seed entry still `0`, and every stored
cost is the cost of an actual walk. -/
theorem find_min_full_final {m : Map} {a b : Nat} {r : Option Nat} {mF : Map}
    (hclean : ∀ c tt, m.tableLookup c tt = none) (hnodup : NodupTL m)
    (h : m.find_min_full a b = some (r, mF)) :
    mF.heats = m.heats ∧ Quiescent mF a b ∧ NodupTL mF ∧
    mF.tableLookup ⟨0, 0⟩ startTT = some 0 ∧
    (∀ k ktt v, mF.tableLookup k ktt = some v → Reach m a b k ktt v) := by
  obtain ⟨t0, ht0, hsearch, hread⟩ := find_min_full_parts h
  have hst0heats : (m.setTL ⟨0, 0⟩ [(startTT, 0)]).heats = m.heats :=
    heats_setTL m _ _
  have hst0look := seed_tableLookup ht0 hclean
  obtain ⟨hFheats, hmono, hmain⟩ := search_master _ mF hsearch
  have hsound0 : ∀ k ktt v,
      (m.setTL ⟨0, 0⟩ [(startTT, 0)]).tableLookup k ktt = some v →
      Reach (m.setTL ⟨0, 0⟩ [(startTT, 0)]) a b k ktt v := by
    intro k ktt v hv
    rw [hst0look] at hv
    split at hv
    · rename_i hif
      cases Option.some.inj hv
      obtain ⟨rfl, rfl⟩ := hif
      exact .seed
    · cases hv
  have hwl0 : WorklistInv a b
      (m.setTL ⟨0, 0⟩ [(startTT, 0)], Queue.empty.push (⟨0, 0⟩, startTT)) := by
    intro c tt v hv
    rw [hst0look] at hv
    split at hv
    · rename_i hif
      obtain ⟨rfl, rfl⟩ := hif
      exact Or.inl (List.mem_cons_self _ _)
    · cases hv
  have hnodup0 : NodupTL (m.setTL ⟨0, 0⟩ [(startTT, 0)]) :=
    setTL_nodup hnodup (by simp)
  obtain ⟨hFsound, hFquiet, hFnodup⟩ := hmain hsound0 hwl0 hnodup0
  have hseed0 : (m.setTL ⟨0, 0⟩ [(startTT, 0)]).tableLookup ⟨0, 0⟩ startTT =
      some 0 := by
    rw [hst0look]
    exact if_pos ⟨rfl, rfl⟩
  obtain ⟨w0, hw0le, hw0⟩ := hmono _ _ _ hseed0
  have hseedF : mF.tableLookup ⟨0, 0⟩ startTT = some 0 := by
    rw [Nat.le_zero.mp hw0le] at hw0
    exact hw0
  exact ⟨hFheats.trans hst0heats, hFquiet, hFnodup, hseedF,
    fun k ktt v hv => reach_congr hst0heats (hFsound _ _ _ hv)⟩

/-- A second `find_min` call on the map a first call left behind (the Rust
caller's `&mut self` situation) returns the same answer. -/
theorem find_min_full_idem {g : List (List Nat)} {a b : Nat} {r : Option Nat}
    {mF : Map} (hrect : Rect (toMap g)) (hh : 0 < (toMap g).height)
    (hw : 0 < (toMap g).width)
    (h : (toMap g).find_min_full a b = some (r, mF)) :
    ∃ mF2, mF.find_min_full a b = some (r, mF2) ∧
      mF2.heats = (toMap g).heats := by
  obtain ⟨hFheatsm, hFquiet, hFnodup, hseedF, -⟩ :=
    find_min_full_final (toMap_clean g) (toMap_nodup g) h
  obtain ⟨t0, ht0, hsearch1, hread1⟩ := find_min_full_parts h
  have hFw : mF.width = (toMap g).width := by
    rw [width_eq_heats, width_eq_heats, hFheatsm]
  have hFh : mF.height = (toMap g).height := by
    rw [height_eq_heats, height_eq_heats, hFheatsm]
  have hb0 : mF.is_in_bounds ⟨0, 0⟩ := by
    refine ⟨le_rfl, le_rfl, ?_, ?_⟩
    · simpa [hFw] using hw
    · simpa [hFh] using hh
  obtain ⟨t2, ht2⟩ := rect_index ((rect_congr hFheatsm).mp hrect) hb0
  have hseed2 : mF.seed = some (mF.setTL ⟨0, 0⟩ [(startTT, 0)],
      Queue.empty.push (⟨0, 0⟩, startTT)) := by
    unfold Map.seed
    rw [ht2]
  have hm2heats : (mF.setTL ⟨0, 0⟩ [(startTT, 0)]).heats = mF.heats :=
    heats_setTL mF _ _
  have hidx2 : (mF.setTL ⟨0, 0⟩ [(startTT, 0)]).index? ⟨0, 0⟩ =
      some { t2 with total_loss := [(startTT, 0)] } := by
    rw [index?_setTL ht2]
    exact if_pos rfl
  have hrelax := hFquiet _ _ _ hseedF
  have hrel : ∀ d, MoveOk (mF.setTL ⟨0, 0⟩ [(startTT, 0)]) a b ⟨0, 0⟩ startTT d →
      ∃ hv w, (mF.setTL ⟨0, 0⟩ [(startTT, 0)]).heatAt (Coord.add ⟨0, 0⟩ d) =
          some hv ∧
        (mF.setTL ⟨0, 0⟩ [(startTT, 0)]).tableLookup (Coord.add ⟨0, 0⟩ d)
          ⟨d, nextStepsOf startTT d⟩ = some w ∧ w ≤ 0 + hv := by
    intro d hmv
    have hmvF : MoveOk mF a b ⟨0, 0⟩ startTT d := (moveOk_congr hm2heats).mp hmv
    have hdmem : d = startTT.dir ∨ d = startTT.dir.left ∨ d = startTT.dir.right := by
      cases d with
      | East => exact Or.inl rfl
      | North => exact Or.inr (Or.inl rfl)
      | South => exact Or.inr (Or.inr rfl)
      | West =>
        exfalso
        obtain ⟨hx, -⟩ := hmvF.1
        simp [Coord.add] at hx
    obtain ⟨hv, w, hheat, htab, hwle⟩ := hrelax d ⟨hdmem, hmvF⟩
    refine ⟨hv, w, ?_, ?_, hwle⟩
    · rw [heatAt_congr hm2heats]
      exact hheat
    · rw [tableLookup_setTL ht2, if_neg (coord_add_ne _ _)]
      exact htab
  have hsearch2 : search a b (mF.setTL ⟨0, 0⟩ [(startTT, 0)],
      Queue.empty.push (⟨0, 0⟩, startTT)) =
      some (mF.setTL ⟨0, 0⟩ [(startTT, 0)]) :=
    search_noop hidx2 (by simp [lookupTL]) hrel
  have hm2w : (mF.setTL ⟨0, 0⟩ [(startTT, 0)]).width = mF.width := by
    rw [width_eq_heats, width_eq_heats, hm2heats]
  have hm2h : (mF.setTL ⟨0, 0⟩ [(startTT, 0)]).height = mF.height := by
    rw [height_eq_heats, height_eq_heats, hm2heats]
  have hread2 : readAnswer a (mF.setTL ⟨0, 0⟩ [(startTT, 0)]) = some r := by
    by_cases h11 : (toMap g).width = 1 ∧ (toMap g).height = 1
    · have hidx0 : ((toMap g).setTL ⟨0, 0⟩ [(startTT, 0)]).index? ⟨0, 0⟩ =
          some { t0 with total_loss := [(startTT, 0)] } := by
        rw [index?_setTL ht0]
        exact if_pos rfl
      have hst0heats : ((toMap g).setTL ⟨0, 0⟩ [(startTT, 0)]).heats =
          (toMap g).heats := heats_setTL _ _ _
      have hrel0 : ∀ d,
          MoveOk ((toMap g).setTL ⟨0, 0⟩ [(startTT, 0)]) a b ⟨0, 0⟩ startTT d →
          ∃ hv w, ((toMap g).setTL ⟨0, 0⟩ [(startTT, 0)]).heatAt
              (Coord.add ⟨0, 0⟩ d) = some hv ∧
            ((toMap g).setTL ⟨0, 0⟩ [(startTT, 0)]).tableLookup
              (Coord.add ⟨0, 0⟩ d) ⟨d, nextStepsOf startTT d⟩ = some w ∧
            w ≤ 0 + hv := by
        intro d hmv
        exfalso
        obtain ⟨hx, hy, hxlt, hylt⟩ := hmv.1
        rw [width_eq_heats, hst0heats, ← width_eq_heats, h11.1] at hxlt
        rw [height_eq_heats, hst0heats, ← height_eq_heats, h11.2] at hylt
        cases d <;> simp [Coord.add] at hx hy hxlt hylt <;> omega
      have hnoop0 := search_noop hidx0 (by simp [lookupTL]) hrel0
      have hmFeq : mF = (toMap g).setTL ⟨0, 0⟩ [(startTT, 0)] :=
        (Option.some.inj (hnoop0.symm.trans hsearch1)).symm
      have ht2' : mF.index? ⟨0, 0⟩ = some { t0 with total_loss := [(startTT, 0)] } := by
        rw [hmFeq, index?_setTL ht0]
        exact if_pos rfl
      have ht2eq : t2 = { t0 with total_loss := [(startTT, 0)] } :=
        Option.some.inj (ht2.symm.trans ht2')
      have hidxall : ∀ c, (mF.setTL ⟨0, 0⟩ [(startTT, 0)]).index? c = mF.index? c := by
        intro c
        rw [index?_setTL ht2]
        by_cases hc : c = (⟨0, 0⟩ : Coord)
        · rw [if_pos hc, hc, ht2, ht2eq]
        · rw [if_neg hc]
      unfold readAnswer
      rw [hm2w, hm2h, hidxall]
      unfold readAnswer at hread1
      exact hread1
    · have hdne : (⟨(mF.width : Int) - 1, (mF.height : Int) - 1⟩ : Coord) ≠
          ⟨0, 0⟩ := by
        intro heq
        injection heq with hx hy
        rw [hFw] at hx
        rw [hFh] at hy
        rcases Decidable.not_and_iff_or_not.mp h11 with h1 | h1 <;> omega
      unfold readAnswer
      rw [hm2w, hm2h, index?_setTL ht2, if_neg hdne]
      unfold readAnswer at hread1
      exact hread1
  refine ⟨mF.setTL ⟨0, 0⟩ [(startTT, 0)], ?_, hm2heats.trans hFheatsm⟩
  unfold Map.find_min_full
  rw [hseed2]
  dsimp only
  rw [hsearch2]
  dsimp only
  rw [hread2]

/-!
### Distance certificates

To pin down the concrete values `find_min` returns on the test fixtures
without evaluating the search loop, we certify them: a packed table of
distances (one `Nat` per cell, one base-`2^32` digit per search state,
storing `cost + 1` with `0` meaning unreachable) that is *feasible* —
closed under every legal step — yields a lower bound on every walk, and an
explicit walk yields the matching upper bound.
-/

/-- The digit index of a search state inside a packed cell. -/
def ttIdxOf (tt : TileType) : Nat :=
  tt.steps_in_dir * 4 + (match tt.dir with
    | .North => 0
    | .South => 1
    | .East => 2
    | .West => 3)

/-- Read one digit of a packed distance table. -/
def getPhi (phi : List (List Nat)) (c : Coord) (tt : TileType) : Nat :=
  (phi.getD c.y.toNat []).getD c.x.toNat 0 / (2 ^ 32) ^ ttIdxOf tt % 2 ^ 32

/-- The four directions. -/
def dirsL : List Dir := [.North, .South, .East, .West]

/-- Every state the search can ever hold for straight-run bound `b`. -/
def allTT (b : Nat) : List TileType :=
  startTT :: (List.range b).flatMap fun s => dirsL.map fun d => ⟨d, s + 1⟩

/-- Every in-bounds coordinate of a `w × h` grid. -/
def allCoords (w h : Nat) : List Coord :=
  (List.range h).flatMap fun (y : Nat) =>
    (List.range w).map fun (x : Nat) => ⟨(x : Int), (y : Int)⟩

/-- Decidable feasibility of a packed distance table, together with the
claim that every admissible destination state costs at least `v`. -/
def feasPhi (m : Map) (a b : Nat) (phi : List (List Nat)) (v : Nat) : Bool :=
  ((getPhi phi ⟨0, 0⟩ startTT == 1) &&
    ((allCoords m.width m.height).all fun c =>
      (allTT b).all fun tt =>
        (getPhi phi c tt == 0) ||
        (dirsL.all fun d =>
          (!(decide (LegalStep m a b c tt d))) ||
          ((!(getPhi phi (c.add d) ⟨d, nextStepsOf tt d⟩ == 0)) &&
            decide (getPhi phi (c.add d) ⟨d, nextStepsOf tt d⟩ ≤
              getPhi phi c tt + (m.heatAt (c.add d)).getD 0))))) &&
  ((allTT b).all fun tt =>
    decide (tt.steps_in_dir < a) ||
    ((getPhi phi (destC m) tt == 0) ||
      decide (v + 1 ≤ getPhi phi (destC m) tt)))

/-- The state of a reached node: the seed, or a state with run between `1`
and `b`. -/
theorem reach_tt {m : Map} {a b : Nat} {c : Coord} {tt : TileType} {u : Nat}
    (h : Reach m a b c tt u) :
    tt = startTT ∨ (1 ≤ tt.steps_in_dir ∧ tt.steps_in_dir ≤ b) := by
  induction h with
  | seed => exact Or.inl rfl
  | step _ hl _ _ =>
    refine Or.inr ⟨?_, hl.2.2.2⟩
    show 1 ≤ nextStepsOf _ _
    unfold nextStepsOf
    split <;> omega

/-- Reached states lie on in-bounds coordinates (non-empty grid). -/
theorem reach_bounds {m : Map} {a b : Nat} (hw : 0 < m.width)
    (hh : 0 < m.height) {c : Coord} {tt : TileType} {u : Nat}
    (h : Reach m a b c tt u) : m.is_in_bounds c := by
  induction h with
  | seed => exact ⟨le_rfl, le_rfl, by simpa, by simpa⟩
  | step _ hl _ _ => exact hl.2.1

/-- Reached states are enumerated by `allTT`. -/
theorem mem_allTT {m : Map} {a b : Nat} {c : Coord} {tt : TileType} {u : Nat}
    (h : Reach m a b c tt u) : tt ∈ allTT b := by
  rcases reach_tt h with rfl | ⟨h1, h2⟩
  · exact List.mem_cons_self _ _
  · refine List.mem_cons_of_mem _ ?_
    simp only [List.mem_flatMap, List.mem_map, List.mem_range]
    refine ⟨tt.steps_in_dir - 1, by omega, tt.dir, ?_, ?_⟩
    · cases htt : tt.dir <;> simp [dirsL]
    · obtain ⟨d, s⟩ := tt
      simp only at h1 h2 ⊢
      congr 1
      omega

/-- Reached coordinates are enumerated by `allCoords`. -/
theorem mem_allCoords {m : Map} {c : Coord} (hb : m.is_in_bounds c) :
    c ∈ allCoords m.width m.height := by
  obtain ⟨hx, hy, hxlt, hylt⟩ := hb
  have hc : c = ⟨(c.x.toNat : Int), (c.y.toNat : Int)⟩ := by
    obtain ⟨x, y⟩ := c
    simp only [Coord.mk.injEq]
    exact ⟨(Int.toNat_of_nonneg hx).symm, (Int.toNat_of_nonneg hy).symm⟩
  rw [hc]
  have h1 : (⟨(c.x.toNat : Int), (c.y.toNat : Int)⟩ : Coord) ∈
      (List.range m.width).map
        (fun (x : Nat) => (⟨(x : Int), (c.y.toNat : Int)⟩ : Coord)) :=
    List.mem_map.mpr ⟨c.x.toNat, List.mem_range.mpr hxlt, rfl⟩
  exact List.mem_flatMap.mpr ⟨c.y.toNat, List.mem_range.mpr hylt, h1⟩

/-- A feasible table lower-bounds the cost of every walk. -/
theorem feasPhi_sound {m : Map} {a b : Nat} {phi : List (List Nat)} {v : Nat}
    (hw : 0 < m.width) (hh : 0 < m.height)
    (hfeas : feasPhi m a b phi v = true) :
    ∀ c tt u, Reach m a b c tt u →
      getPhi phi c tt ≠ 0 ∧ getPhi phi c tt ≤ u + 1 := by
  rw [feasPhi, Bool.and_eq_true, Bool.and_eq_true] at hfeas
  obtain ⟨⟨hseedB, hlocal⟩, -⟩ := hfeas
  have hseed : getPhi phi ⟨0, 0⟩ startTT = 1 := eq_of_beq hseedB
  intro c tt u h
  induction h with
  | seed => rw [hseed]; exact ⟨one_ne_zero, le_rfl⟩
  | step hr hl hheat ih =>
    rename_i c tt u d hv
    obtain ⟨ihne, ihle⟩ := ih
    have hc := List.all_eq_true.mp hlocal c
      (mem_allCoords (reach_bounds hw hh hr))
    have htt := List.all_eq_true.mp hc tt (mem_allTT hr)
    rw [Bool.or_eq_true] at htt
    rcases htt with hzero | hall
    · exact absurd (eq_of_beq hzero) ihne
    · have hd := List.all_eq_true.mp hall d (by cases d <;> simp [dirsL])
      rw [Bool.or_eq_true] at hd
      rcases hd with hnl | hgood
      · rw [Bool.not_eq_true', decide_eq_false_iff_not] at hnl
        exact absurd hl hnl
      · rw [Bool.and_eq_true] at hgood
        obtain ⟨hne, hle⟩ := hgood
        rw [Bool.not_eq_true'] at hne
        refine ⟨ne_of_beq_false hne, ?_⟩
        have hle' := of_decide_eq_true hle
        have hgd : (m.heatAt (c.add d)).getD 0 = hv := by rw [hheat]; rfl
        rw [hgd] at hle'
        calc getPhi phi (c.add d) ⟨d, nextStepsOf tt d⟩
            ≤ getPhi phi c tt + hv := hle'
          _ ≤ (u + 1) + hv := Nat.add_le_add_right ihle hv
          _ = (u + hv) + 1 := by omega

/-- A feasible table bounds every admissible destination cost from below. -/
theorem feasPhi_dest {m : Map} {a b : Nat} {phi : List (List Nat)} {v : Nat}
    (hw : 0 < m.width) (hh : 0 < m.height)
    (hfeas : feasPhi m a b phi v = true) :
    ∀ tt u, a ≤ tt.steps_in_dir → Reach m a b (destC m) tt u → v ≤ u := by
  intro tt u hs hr
  obtain ⟨hne, hle⟩ := feasPhi_sound hw hh hfeas _ _ _ hr
  rw [feasPhi, Bool.and_eq_true] at hfeas
  have htt := List.all_eq_true.mp hfeas.2 tt (mem_allTT hr)
  rw [Bool.or_eq_true, Bool.or_eq_true] at htt
  rcases htt with hlt | hzero | h2
  · exact absurd (of_decide_eq_true hlt) (Nat.not_lt.mpr hs)
  · exact absurd (eq_of_beq hzero) hne
  · have := of_decide_eq_true h2
    omega

/-- Execute a candidate walk: from a state, follow the listed directions,
checking each step's legality and accumulating the entered heats. -/
def runPath (m : Map) (a b : Nat) :
    List Dir → Coord → TileType → Nat → Option (Coord × TileType × Nat)
  | [], c, tt, acc => some (c, tt, acc)
  | d :: ds, c, tt, acc =>
    if LegalStep m a b c tt d then
      match m.heatAt (c.add d) with
      | none => none
      | some hv => runPath m a b ds (c.add d) ⟨d, nextStepsOf tt d⟩ (acc + hv)
    else none

/-- A walk certificate: the listed directions lead from the seed to the
bottom-right cell, ending with an admissible run length and total cost `v`. -/
def pathOk (m : Map) (a b : Nat) (ds : List Dir) (v : Nat) : Bool :=
  match runPath m a b ds ⟨0, 0⟩ startTT 0 with
  | none => false
  | some (c, tt, acc) =>
    decide (c = destC m) && (decide (a ≤ tt.steps_in_dir) && (acc == v))

/-- Running a walk from a reached state reaches its end state. -/
theorem runPath_sound {m : Map} {a b : Nat} :
    ∀ {ds : List Dir} {c0 : Coord} {tt0 : TileType} {acc0 : Nat}
      {c : Coord} {tt : TileType} {acc : Nat},
      Reach m a b c0 tt0 acc0 →
      runPath m a b ds c0 tt0 acc0 = some (c, tt, acc) →
      Reach m a b c tt acc := by
  intro ds
  induction ds with
  | nil =>
    intro c0 tt0 acc0 c tt acc hr h
    unfold runPath at h
    cases Option.some.inj h
    exact hr
  | cons d ds ih =>
    intro c0 tt0 acc0 c tt acc hr h
    unfold runPath at h
    split at h
    · rename_i hl
      cases hh : m.heatAt (c0.add d) with
      | none => rw [hh] at h; cases h
      | some hv =>
        rw [hh] at h
        exact ih (.step hr hl hh) h
    · cases h

/-- A valid walk certificate exhibits an admissible destination state of
cost `v`. -/
theorem pathOk_sound {m : Map} {a b : Nat} {ds : List Dir} {v : Nat}
    (h : pathOk m a b ds v = true) :
    ∃ tt, a ≤ tt.steps_in_dir ∧ Reach m a b (destC m) tt v := by
  unfold pathOk at h
  cases hrun : runPath m a b ds ⟨0, 0⟩ startTT 0 with
  | none => rw [hrun] at h; cases h
  | some out =>
    obtain ⟨c, tt, acc⟩ := out
    rw [hrun] at h
    rw [Bool.and_eq_true, Bool.and_eq_true] at h
    obtain ⟨hdest, hsteps, hacc⟩ := h
    have hr := runPath_sound (Reach.seed) hrun
    rw [of_decide_eq_true hdest] at hr
    rw [eq_of_beq hacc] at hr
    exact ⟨tt, of_decide_eq_true hsteps, hr⟩

/-- A feasible distance table and a matching walk certificate pin down the
exact return value of `find_min`. -/
theorem certified_value {g : List (List Nat)} {a b v : Nat}
    (phi : List (List Nat)) (ds : List Dir)
    (hrect : Rect (toMap g)) (hh : 0 < (toMap g).height)
    (hw : 0 < (toMap g).width)
    (hfeas : feasPhi (toMap g) a b phi v = true)
    (hpath : pathOk (toMap g) a b ds v = true) :
    (toMap g).find_min a b = some (some v) := by
  obtain ⟨⟨r, mF⟩, hfull⟩ := find_min_no_panic hrect hh hw a b
  obtain ⟨-, hsome, hnone⟩ :=
    find_min_full_correct (toMap_clean g) (toMap_nodup g) hfull
  obtain ⟨tt, hsteps, hreach⟩ := pathOk_sound hpath
  cases hr : r with
  | none => exact absurd hreach (hnone hr v tt hsteps)
  | some v' =>
    obtain ⟨⟨tt', hsteps', hreach'⟩, hmin⟩ := hsome v' hr
    have h1 : v' ≤ v := hmin v tt hsteps hreach
    have h2 : v ≤ v' := feasPhi_dest hw hh hfeas tt' v' hsteps' hreach'
    rw [find_min_eq_some]
    refine ⟨mF, ?_⟩
    rw [← Nat.le_antisymm h1 h2, ← hr]
    exact hfull


/-!
### The spec-side transition rule (for the refutation claims)

`SpecLegal`/`SpecReach` transcribe section 4.1 step 2 of the specification
*as worded there* — in particular the parenthetical run-0 exemption for
turning ("or `run == 0`, i.e., the synthetic start state, which is exempt").
They are deliberately **not** a translation of the source: comparing them
with the source-derived `LegalStep`/`Reach` is the point.
-/

/-- The spec's legality of one move (spec section 4.1 step 2): candidate
directions are the incoming direction and its two turns, the target is in
bounds, going straight needs `run < max_run`, turning needs `run ≥ min_run`
or `run == 0`. -/
def SpecLegal (m : Map) (a b : Nat) (c : Coord) (tt : TileType) (d : Dir) : Prop :=
  (d = tt.dir ∨ d = tt.dir.left ∨ d = tt.dir.right) ∧
  m.is_in_bounds (c.add d) ∧
  (d = tt.dir → tt.steps_in_dir < b) ∧
  (d ≠ tt.dir → (a ≤ tt.steps_in_dir ∨ tt.steps_in_dir = 0))

instance (m : Map) (a b : Nat) (c : Coord) (tt : TileType) (d : Dir) :
    Decidable (SpecLegal m a b c tt d) := by
  unfold SpecLegal
  infer_instance

/-- Walks legal per the spec's own transition rule. -/
inductive SpecReach (m : Map) (a b : Nat) : Coord → TileType → Nat → Prop
  | seed : SpecReach m a b ⟨0, 0⟩ startTT 0
  | step {c : Coord} {tt : TileType} {v : Nat} {d : Dir} {hv : Nat} :
      SpecReach m a b c tt v → SpecLegal m a b c tt d →
      m.heatAt (c.add d) = some hv →
      SpecReach m a b (c.add d) ⟨d, nextStepsOf tt d⟩ (v + hv)

/-- Packed distance table for the 13x13 fixture at `(1, 3)`. -/
def phi13a : List (List Nat) :=
  [[68678468106951829090395139056395306875320236556683466572001549096800185678491247036549798142865043718055155879498020680317865019967693221984731136,
    87408959408847782478684722435272510728446878822629932027689138113874044444304826425751813061117598150213552845504605519290425240340192541924130816,
    99895953610111751404211111354326969932888783933521636577226633705779032534705386533801864980167737937128963093749037821812367395366807690234822656,
    118626444918549253311161156748463304106596970831300523029389250753896397694138347219234525396281857914885280322858480509439993966230752432782049280,
    137356936229167271390998022813892991648174099035812309500142148686879339949290728210489350309724176980269133032008989101008407094481819420434890752,
    137356936227713593942406809033030756069622326814711318371816116127547597231872983755167523346387512514369887444857831017386172704211604904802779136,
    140478684781663779795266440715649345427212910582039422653466356630019204442197208017562065768066463034257436967584809789980059715870354410336944128,
    162330924636783080312120048886753422854791014019955762033367590320261523975246554024893269716186554311574313222667453914601432163552251087685681152,
    165452673188552749992092859897605834770174270718905906542887662218379694693211735215384663053123461104895616966947380767696674292442856359066599424,
    174817918841681242859124472258790913135897178650213421031246596134476546992383145895360215397181246174049776405627628171876405031043127178115940352,
    29073548971824275624415876700201208780910210127692843467442948777947408315787578735335287151324132784169195269217041489440713597612195840,
    30527226420415489405514524315472648154108221064656782631369050136158147762802474643206768692946759259421545545305091046258846781795205120,
    34161420041893523858379349373501854263530352884681171054851595276056118940235992923073514550013768003178723678991345574444257253255020544],
   [62434971006319844627631944597163592319563068600872154773045197851052113771442397817694483305617516617099638067114462459364556936568120871024066560,
    87408959408847782478684722435469520759401329235299446370050526332156165473635198988021212590270657959342235922120524086588650438739296953831522304,
    106139450710743735866974305814307322606368272999927921696470321251232540905674613639431799007240223699884815157948643797556007180770296777513369600,
    127991690579672972145444444905848552383864332562864024476339526313987660766616727131242835708348119022572807879313538866608604851506888697129730048,
    140478684776575908725197192481764676765754614390012628774999481985596212166579804961960911046615921127131037289695634912725130201057874626603909120,
    143600433329799255853761217274030952346475861996912871988792579271466720312399273078950708990111538735910985209798973704755765953365910368089538560,
    152965678984381426169384043416275276321750862534323509300286675843577848227371830268828427188475170221773859244451753338339527998469701271558291456,
    184183164492629219553269263948525030108855479424324404193267095285699502043434108804539183898476898877200612751643420015410958180038525456155148288,
    181061415943766904770478880499791109412759887826872526973161739831728998603018473246010368589499550322543210111619003250802492428905966325054046208,
    196670158698981059548864901101739972018130442081716039979756945358169828375000712904079246178043989537169374423035558958700106020638150994595676160,
    34161420041893523858615761411212312817696635819688375904732997708295706278147215860304909142285262393779116767245173509365310588949889024,
    33434581317597916967948231584203033166800732722078758375491089956540497912860920225775110266716943503227463669940916540247168964634869760,
    35615097490484737639714409026456230207509173859620747948163006464601732592942121430177171921382704409997327900906277341335016532854439936],
   [84287210858531790247303125205912766490831097967908149459802674843326688234548231168327539223359701909815210303362948654714125078926994682404667392,
    93652456509479766941447916895174059389551926919513947794398849987019105227832624841296991131526504882911822727675710555331404975225177492479279104,
    115504696361691712561119097503923233560810782292128701935819350079104416657293841272501664011911064071336388073206975929738589460442562330294747136,
    131113439131442641825417255916976778342558132655058808225352712395412133820630717300322598627229709765242107823713256148103556118287425075914211328,
    152965678980747232547906008963371049257488565967831121308951390873084357617837964854084432332501356506256690092144082066893952926703415096630050816,
    165452673183464878922023611664075784164511046823181504883475334999565519140298538502399804269267568187491614074592543100542768690022094306969387008,
    181061415938679033700409632266064048776087169551696985242147274896173601894559895688158812082342725133774018852706494088219009262099477326160986112,
    190426661593261204016032458408505382782380838463033402846475027574620221034881871368926397740161876047780020661293661125149501209339978282826727424,
    187304913048759921579015716303185610952147413542562857155622617029277423199258703593437449951315152029098249987085546908637162836762565926505676800,
    193548410153026099663256945215636768621673815937308523316259545934708934314069327048436186919015699767753323553287119031030121974462685007885369344,
    35615097490484737639911419057970294282465313741587601609669741314368221292744009150853188542270755928780623655967051775493365411876962304,
    35615097490484737639872017051241808124354018045973849421803078092095328027338983244089842967018848741263654379913264693000797086342447104,
    38522452387667165202148116295186615220205957491141420967215849014983575172434321115882727607122927865476489574398961187996319572159365120],
   [106139450710743735871035833686791022035479685544324612580998952245752773809927038669934618813221958942221146974326950099380106384207812544650280960,
    115504696361691712563319091768135984910543067379035483153990971710424658002706663320939885901741113959793540308176677053431229527766356172562497536,
    140478684764219650414879560590591030292938060424326026873572791557084912720447575785071981697656442194494155533217160093785038909851422473876144128,
    159209176087193926809264816747845975402597119352537988484000855026280187360843737184204412303009901840069489611734142167620276224342979392646938624,
    184183164488995025936360448351820197348183554491930396355308967070554578659811359099652590309380065422600963390558124995369682795073285277375004672,
    196670158695346865933479158457443088079014885852727768938369583675379807869551805004538276335107060476000973209885174165849736306374974919650836480,
    199791907250023890510803627358660706892021558952471775045897086690239348473628910848486745766067947944363034442519673749271334683984955776813760512,
    202913655802520398916764348540638303102948109135967426635322686308220134817376669942462200315121905175124778488251208122245377638041674567334756352,
    209157152905332899551568212031939294950021702878787398623365066951983814278848390105333543821613479452146245465520142834107123508845382468456415232,
    209157152906786577001005577453247068797296785425422322074616312653652706340075485130030508830712564162559755224272066116562973911364485729944076288,
    39249291120762749149627249514855248783971631121759708953929041278447349643862051092240913764117290077822709583163147736444633907231457280,
    40702968569692423586707102406529456354424555775729449566159707020521185628567873409830950312162317191644723469360403181112347629981794304,
    42156646018622098023786955298772451581630202242358672390804042658519251514127768368301563078050947433633039417318639635875656675822141440],
   [127991690562955681490030092983538383647635696104075249335156221205383349827188170602828796445939230128243741940978958573450198442708167603827769344,
    137356936213903658184174884673114892595927680889379279990561502431299077113000011281307663899682242110969639689757231154715311575693092838027821056,
    159209176066115603804015295609598556365125117237453637561669560246138674899169910809349083117459257695600814770176457997021228785276473313127825408,
    174817918842408081588327758661875454579536699334341275492751611829288647905197322593293276337938325628852265120066255490631812088117534952611905536,
    206035404347021681350734944741142177290004578688370232782566269133163622982875621209849961982019089708943650047284059403647335144537902578803933184,
    218522398549739327726375620393860840956619483455007834726725914918513172381154092976171066562625733547313049435666351835345365305958869860127604736,
    234131141307133998678494613307548595198545593364253794982507655020738956485608256355897746545806472617878851781128997566441761037566043117932511232,
    231009392758998522621861370357910760433101069107603926304336267241086473092321252055076177182780668475650892139823564828183089133078820793884868608,
    231009392764086393691253697279951224560150358459006019913979939760090357441162201419704759620407668282201337871639133399779840240473411983455027200,
    231009392766993748589113046154426146394225852736064825610496105896933374247424938650687930496313183004909834569845584685865720533556374429656678400,
    47971355812817722820525860176927005479613746176925584168981708286232368748056507515993746842061378815078907963950010760274885669810077696,
    47244517089199037241978348927554710112388044155812698183255010578585438819087441949052592034505693121356285683442378735033799535006580736,
    49425033262085857913547516338825934757024410157676354429435192428331850434781847880496243216180261821498404139886302451010437274316832768],
   [134235187663587665952793287443361128296302085270214905591429948170356761926417913448380505387161168373244227494063765096252424627692838197907161088,
    156087427515799611573649080348261231969358127783381866350124797325452954413781079876985644639027548384660594106473739725914173835838916475538636800,
    184183164468643541655744994760260915419879642969930503609318284336592092899535567636083722756019625613163583108548668676993449359299883600254599168,
    215400649997242819321937972163936575511481751662020224495185812092371772218579269340901722631790830035032296499343723841606788241496629663139627008,
    237252889855269474735635547241177938881779620103807272428304751159061382956582357585885123277521285580763639560672015589496065901727874991922348032,
    259105129709661936529716621473786023267331929353593966067845562376730647734751762930929866527660609295277829846978422419990051276496857786971324416,
    268470375368605139191620779943514809038743127953932344746522331209028719295567153050096269984666785155144367252112671410865610961936505755511291904,
    252861632618478855484827080528331387990743972345075118857271766339093035601422198999353533062117768513711821634147147146527998676809528546760327168,
    255983381174609557511250454194836173368261433414635570510110580181995018277888574996453341258833548438608202638316429552506065615813860025656410112,
    255983381177516912408771342413251085913449630591377437535995129656611849901495860690428899217969958263314372762442698070102917664492828957108862976,
    54512904331816645491963205805003378638323591562357185713319365823105897085697382038121360657077931544766850518231606796099646678571679744,
    55239743056958404022524645812674564697413839646488412492217164087956165646477140904816596221625666628648787887226894796019416144172548096,
    54512904333170488115848624903996053202769570348811119515765007985693974837638467647886071295128233814620731314197881738708915714460221440],
   [162330924616431596036073814151905761310538862417103786529419536179967092393960320330610074672257959714091638819760391995839305272165339283461242880,
    190426661569275526119692801516234589570288175309823652857337248938985653559786189123824797960432499615330830900628782242521415484437009744772726784,
    218522398522119456201619485600381577404309448066699770230220890887934585255724197915333824231428036710423009158657740072705008882652071030335471616,
    240374638404131789519779773313757876671460455310416929852152651877326302180077274613133488661497600825531325808650598732063119783282316451162095616,
    262226878261431606210027893140580238452921559770567521370945517302424235800386376987283738384654868114001030049238277839815727507904152966344474624,
    277835621015192083540838081929334667265766538925321317191319831197296163141955766109549893899659936399225292770480121314612200924165111016283176960,
    287200866672681608754320256946053913075153729717627377460193573496306637216351145877933187089675539595277492022490259722842821831492439802030063616,
    284079118127453487594361750575015884685435665907617663819258429730063948843131751128723147075246205950678837346852052054596966044347346067224788992,
    277835621031182535477879888442914013870010449723986964765721967923146412721900270720241842355197234159669319902294106819954728232960341770344857600,
    284079118136175552286755184901935102630079063296337226760426841066565724705002259046906978296222359202158062360039694811331863714864681937270734848,
    61781291576465017677914098353059617427995373122920989997770182247990619596000174785741146314514699687372821907176820589049378495409422336,
    63234969025056231458776333930886644086458453562827957555054117076222769308678036135038434138777506154858378477710227913636606530740551680,
    63961807750028759661406274310297804375443523547294429510430627475043834800237658560409075012451556606347979323450426582677125983226560512],
   [171696170267379572731403218137396787723367101517553426727797738789007891201378968088862146428362436352496442568143434445506365420725167900164358144,
    212278901421487471740379364092887977564751594678684907414814688643999703348399692525749873964239195182438694125712998114666565665398550374280855552,
    234131141273699417359542853717369828774892056186285436601078116423482346958684080563400243171913372328382650660435182153898705619516061225303670784,
    262226878261431606210535584124217129314971033923941819700625182528051612534994071061867016115507852715847916546759037655419544700275097688399151104,
    293444363767498883422380135624870429885070088805168009416599328866342850056195554127137168905190036527581266428807521492305725601908465639584956416,
    312174855073029030432655444440603967714061309635749336954987637240116929770776911252677083648054664625931613766624932996930801532944989287526432768,
    324661849280107709153392840124577359662649958349695620634419914284457571182356862807551618534779677171589353152316323860842203697287728861643014144,
    315296603636428119703896420621345763324387331140643714265519548680850995322598811371336858660353491928615844761221506524698406851724300205890207744,
    293444363787850367706549426105709942448788931873366785569173201172415334375273484524165821046731376470527128500903389004655350748192692851863191552,
    293444363792938238777295595651754031694071432833818507239297773097589109701696400447041229870859601414958267963537189635110983320477400093362749440,
    68322840096648552645029549408438834059797664068517336037842984080592961034830640143043827481305118012586897733618648968191342899028295680,
    70503356268858452004439296235014324461935011091344120033721294559707302670881662862608242704706351041147161220868417159710912254874484736,
    69049678820774929207371559543233386349779808632270828752252247542836540815165616856117409701491910260270172112560589205311362164018118656],
   [190426661569275526120877413812306715059628355530746299132806117960675393875122985784801758038226042325396755225876682406954236881789799385547145216,
    231009392723383425129007408127825190706738012061556430682998045735210759175895804675382349011631701782837126999844111681702283168573116856752144384,
    252861632575595370748678588736416756853275507478633870277419209689906715581786765360270162517211665638045657412408340448365333333395139444191789056,
    277835621017372599713386441944607413350999621577748271204907253136094725920350857345177560931746030713132885091151186389473810771918763980574687232,
    318418352174387853620560397430712338327702999096815669246948784121949214041283777035505743191422829675239376861982852031565612864746854291553124352,
    337148843477010645733484048356198875277604942997449802630244167111899716682955456394467186566005294790854594381578637212120511106445827279591309312,
    346514089134500170947473914356949032011014726729731863825097397751983674507725692620523706980317758857765849867923822266799944938886714611281690624,
    340270592043317089902245912755079769389753574319053374036826958787019309204295245847286929705428860259866417452516633331527212934704859110023626752,
    321540100745782168860576122359944046652586529640114542259580872121066402991649515926932248864017377626255302119932642749462113525085894821663473664,
    321540100750143201206518994031407901165985955109637046449322148459194703493184198998188842030307630912211091829815077351551543407844394258892062720,
    74137549892705711049684784309755439373624416305226830879701890141985791909190122454161217130717275945934426029351024846139742634033283072,
    78498582237633200752929208949535137522466577752972150823593243966833458591187791416170800811859194557447783970084498496491349210608697344,
    79952259686224414533791444528132779715895914259672591471451958110409214433570684703250566292545645442968205658052683597715749958005555200],
   [196670158669907510584317529584052468255096540495922397815890792757602625137642842660511552801625838040715801751146275132611627561815777533851860992,
    231009392723383425130022790095965816567139290922047245652471627708908212764278682720619969728573889496263136563276690791310132741086909433695436800,
    255983381125911362981244798262282048648355111847766071365844476027970199375004603910296055162207287313373897327795985767260688665629045355517575168,
    293444363771859915767646085983780843752626320747359033697401320114473090667714189598542175782723751171376085934367807100542447959350968462270791680,
    343392340579823146369641754471188276193358940504523459085629128544038682047825118936494382830598133206320456190010843292366745233822432284750381056,
    371488077534120753901344264632821253182095080368055539023218132447480506150891004971997074570698802919310984468093022473574056513919067861339340800,
    377731574639113770711234943060219379839807557637435100126609919513155137181812119227596897692468237015901135434497178795390672758948337110050930688,
    352757586246761575002351425626003442449802275637060438807840888876470337075616568303547634122508964376624339400736207715885060631518304880474193920,
    340270592051312315871697582815335082626226387300533088910681456992704757873615042178377060823704403021006883433993990424311236122127318140732833792,
    312174855104283095583797293199680283991289997585283633942993477064402808531181565848464772957160229748461596918473857477420466699561865714809700352,
    77044904790903520579904499383073682961581702115057737536114913353257170749672813389901223451437809069668432797599744447840731025127768064,
    79225420963621110923620971176936439724598528002759233335569922320747816944594314941680746430986102972188981925669990556169566469545263104,
    77771743514183745502155589304930823227898250107384083587222206450357746372470881672388773680972319358809258019896776363480768810487644160],
   [177939667368011557196535637186684446929414070505887162524477103113628981629560475945463429946300285842434377846003273023964835351540121553669718016,
    212278901421487471742579358354460794499334623652875672973049009484155552496746012059885735493264446312287425692505764815063807573384716023293280256,
    252861632575595370750370892013761652832826449133410310760282954023614541874670169904906992510157302232001626208707323201876598739965033710331363328,
    293444363768952560870971349402777514998956493046621426384170246973114401236502627065080049609092845150510057476682146139747526555812914032472489984,
    346514089130139138601700273009831094562526347106425793494268701911055203939403253279055703372037101499693799372285896009953872429655354489748586496,
    374609826087344101031092901717337659651051199745499327932414174724585592492001421051305071194236033355194621676788392412998862898452516011329454080,
    377731574640567448161010769133410550319069556537694789514208122890904121781213249558513335983155231780122697569584744986954857123868789552734797824,
    355879334795623889786157191038464964312385530373407793054693075607128271316494099993508701005755381480499494049179507107960498528858056676207493120,
    349635837700079776393970935796754809280016870834961817771210146340892813541082680389798532291901057185294021008588489026105943199307566829900136448,
    324661849301912870889030259957726028964019493537502307345284987790718515811997237275723554760483628662016744695683869289890979683932829861864800256,
    77771743515706818449756493371435290919359372200695915380430650311438292986896428316178347581828812886545478940225782419571866971676868608,
    82859614586283757667632670949738168164480505513642149811180538705755976112273744692898479094296577182655360363321816799680085733597511680,
    83586453308887061278078958344309269510253165116078400662995155337527667641919695089186037001908305123608886504627299955578338855436156928],
   [215400649971803463973960955584253960805129091767860445554140880184915733483134282372979298505668306939340982904716378559124591590082294821194563584,
    243496386924647394057410712620454279404911660931767283945329376762537284745196929667626893237484972273596920319800573425830909058079022614445031424,
    265348626776859339677081893229006443545206891897334002939778881756055067665811126721669685168781939587737871071317826477877832758207791520670547968,
    296566112327990617794577150631203781564706254865898523889410315898332075399218499632315579479332716118756124158190633957729254918254028485812027392,
    334027094933236202021778295105944068545519117428578087317893072102225884541146019221624222576933646848117748042632982301568936714624365089504886784,
    365244580437122963061243716918507484541665887868468310969420115642083716923090521624833824649711698601444463154748501833173974042218793079649861632,
    393340317394327925491651727594075871478144186442828612554629081380959091317440051045693439782415358160539085905499729601474455093632542951348371456,
    399583814500774619750979771442190741890103263120464045050030174167961827850162478990155535179544528074074614309291208124017768741782983217673928704,
    371488077555925915636643223810146325231810729297600587033293697796028979984897106170553049564814087821857699698901206972688727237508509901841760256,
    362122831911519487461328124463721044226806100047488416522004454343508632191971647308613992273932693619969473689746824507178876271748894071055187968,
    81405937138877156182606148824283956724337483687669395822163776182246356858432496732575229636089847159605729937456929541543385192766373888,
    82859614587129909307684189156396619758762452444622010482124861205357620872685660624425347179970870795416246035277740001720979291044315136,
    85040130759339808667290946014733872086399954968937091147405532215981944154963819003351137410097508103776485188317908124780595683010805760],
   [221644147072435448437739532011902115264634777955256644745130499557307668755690163011400667292683549748251650154137192526459894700859101093174444032,
    237252889824015409594816748488878250434746154965293731029807631765361807046336423901224700843161534807692169793651486869650888667640884715501649920,
    262226878226543347446207986983244188163453364711242471921578786766638234373530053635946375059133779151629192273653497107437799831159586213253349376,
    293444363776220948115450491260363485849849273243265769273096058688908436292008692799674050521243422905695415451125719926522039303184322003589922816,
    330905346381466532341974714423062558265353722519451967702960748854483257564253990673348739600804823755456582625072295103669782492921595242133585920,
    362122831888260648278791794125833573134338331443312568636524208007141420191597434110010263624158148136985902935017696102223443851307222406403194880,
    380853323195971311462800075253069590562670045075168964026347342403154138899950903363908048687229674411003529878321305609139757488352998770859835392,
    390218568852007159230060261080479821679184862933238562477832969554497466025537879544093494881735293970111877470020059197610336476201201297705140224,
    359001083351027753089977261094247648252030520698408498190548664816776536393419816250941763858925314706442012040855752505384924747132170084586356736,
    368366329006336762130234154782943697299185157020081619888549972509712033787934369483719062869930043645084700368129941757993303888097943061631336448,
    75591227345527683026273380209206758340498258289463698863287082822473672909851707816385271065773765432108975726523449594886771549021405184,
    81405937138369465198575237899288920371205188298159562816206619666620298003140599841869361029299372035785413061139876325261982326685958144,
    85766969484650797525902091670612018533896204620875167237066997344606920008088650012363255122475007534572211096783296257150536243046514688]]

/-- Optimal walk for the 13x13 fixture at `(1, 3)`. -/
def path13a : List Dir :=
  [.East, .East, .South, .East, .East, .East, .North, .East, .East, .East, .South, .East, .South, .East, .South, .South, .East, .South, .South, .South, .East, .South, .South, .South, .West, .South, .South, .East]

/-- Packed distance table for the 13x13 fixture at `(4, 10)`. -/
def phi13b : List (List Nat) :=
  [[169867876731400869792024495916797344549096472128599328809745214814571006758968918326424130503050074524213191180246425645878356756767206273255654548461701224721687120780818432493653907556269935343432997653808951219963678923199077820390833460885713381793962396783008561214527720602455258468470884903126836336158505376556316636237583617271294469589393820553211398480626643002119225485338733287129469436885638760208793600,
    174815484791538759203442685118730769675753063882395738018262084038856683840935735505212971270757064593575787442406542588069508048774119353618305553447337255767125305842156484911409727721536604362827630226076771557961441425427252554352755788446645634017940759283698389669178786373227112604186040383753181792880783340273281569746757558579404858238653466658629293063086844649772463658385573799422276234253240249262014464,
    158323457924412461165382054447423394167311100448378728067887481223562912969988079717241364666550050735399690877185731782660469962464906176723227297621913411237522055521353189285388084762736382532352413312545564511921449433998812715802452214730140028716140923289379299358220280123358129365359185857314790246753939237679642021678103287791640544999877634885025422342756532226682859722684700425245380631885070648249155584,
    3601144539814306337224146507427351964359236260906652994436016059262515750979390725022114224673498364337724798190176625966326195155624089481823045452635901133623255112460644871286106833882582700115095484215544312377191508204921505249283006422034502715281929160983400845424730389924408577495553203545803105441319579765081567950919004203160810267361340473638544632820536130290134397099180032,
    2851773421338045348447515849697759437588962464618907502074429991661108293130610945640931511976365720114707882585603694136206090271649938161257097301752877955453906377651238378814251479819253932383146784812478815075411388281533410489643129153655771381620140426324039577963123589388890557464298369222322413235596186931832276984560116832951678464486083840889912817565715249786406496112738304,
    3101563794009990926413721617554497490516340481826926551197484242296998443623629321362511420598565970662034564189304765264305914051076739899186342818367623666569613999140707810149961458310669936450610655897420224347498752197386380992742336231327389067458866683734294525302183562113884746784466964225430148090149810111577518799850191071632727049729832132390099072556778727059721259948441600,
    3184827251567306119069123540173410174825568441442524424987397303068823336735062242353949829280019884195750933183760047146178056933682315697336528207378598507325634616531265161113690324131423877888972213673486855346574184738739703376287027611628493585063352324375159679920905449536430288467093351497353685518999994518484233452886529245064469927921803820160665213944265942865275706293616640,
    3642776268132539678673834114577429938526046943854594919019294991542123823077303994338170713957803078665443533598979843400757813626589998586880007501772132334759025287782009138411857756798787106408215016345317597113528271330960650430402076826726491117456921119972158474118527257497631970448657140974527709021273490122744405063834792397828742436634065242510903578462679335905951291669479424,
    3309722437903278908052226424101779201288829243754739188512355541973628335495286776390836071435473456357492710634028914608556483435549711391890399340854952414063360038675534038833404333189477175774501107085198177616787995786649099074052209149976266166735322221821794548350435752804332136161276280412145042909977844177880207399267046087794299429382484137545403969881372355163575897072599040,
    3392985895460594100733582242922726906305809812313158383379628410960317850413148391790914207969281297911613683924339607108216165526918923968093525149876759538484450656851031451982628449351336527304497546430774872104771482754577620829059874468976294960339504415282514683784650366202164040480625947175634996740636219989464114068365357020680226259864984544453561871547136378658763166030233600,
    9983607999637810260226431323932590672312043790508789155206801664704911987222217505999279823106690263402150832080364955794629269236073506930141818286749456852677170698800485856802612810161437375735053221535826899082348150376848092280653685077391612446276398923766541015069500993929271562976014160686654605434623594090185316369684910273552784241914054431880289230779656287357044413556286737019856335740600320,
    36094582767921314009420171153345384425969644639062617106908460188257172749848898308893664658272849254393092899571136901760756952525442357478223942162657513770519784631031983220559078044947129396447854554796023315777335573249019828017496548292822255488898340998183692305947482485643798413117897525902460944105007162512142663356079859263497734050528854795170451075224550194098521895872028116765904303888007168,
    36478567690984306711384303883831073636766957702326123726755954961047925690591284799115572285356042369088479984124836876079580201280900894792339998402289320469958283376376901792040579744697459614157844896630027105771598466515633537156351231647631232755022850016830218658503307349018105455428463059920426550675856393918974734162190938955701976093700395398235075224906843128286556384156444959520517844268744704],
   [209448741212503985083370009528934207260187455872561960947463695088444170891772656554009229564210677514774913115284540571800777196366948453878126203982329243013246322722845376340664940850807298770773478815242820273711290745984532411842158565290811151406439759642355539966521844160492861012475105188957751750758380317542080160143628300763674549142339491742048144111362978527175319143486736759083165849679122317627621376,
    219343957332779763906206387932093318124244073958167946670482596631210257900726424660015635312637478865825527968927289369875499654524186674030731500051526679151105459548543076591596709372555338060579963198230222285209623082108244512849505186181901468974690897984616899342316852269133051310971555706264967606620702676907124449648159704374954130766361234081650415002745340842988238806847563488640392379580910736947281920,
    204501133152366095671951820327916680166675870951286910151570424708443349910652031263333877497369172986200777603379148697278953918058532098389607079787574057764576727911108666647234274927641586098264692565385337665662457291703943369183903004083315420627379528708570854492924227418821915351927604316725659405682187511726253407230436062150799391996153436512339303883362845880620200268479393520761497283436887731165200384,
    4100725285293901484067972505419381694462167492566254158501083194349371285782742882989249974312470525741834125639644420351367913959151436543620680751891448071470066963063110404242983073313726212593732040108914398449126547812769018844449716413413073876428927774736246148772450021161660938163823008860742318770537444038044061119812028961390902424651859922313888392021892954582931812206510080,
    3059932065231333330086020656245041148361023020254640522504907196186539511910191931057711228773740679823681419258302217494628818715724502262243344571219537238636815606170255973932917777871171000663415312478376266615445601350798425615263961638326089806172730692719365820638755721291697803776359097171696328923468135533173896118547908857511139937901117613296210053862673166394119988283703296,
    3288906573513950109888375943447051030211354029950234390623756232210544182970941569759556809159580648796970466299242990414173763873746125346374670597461425984537362501556392684775739148411306545115325250973036882700363438008006610347545607697675890752434770540135015180204199600405512368073641300340963846756329996544610448762590880065530947142050919702072396136409507985476461632468025344,
    3392985895460594100707628346720691885597812514060365674024307517683176292201721930424272553399933128869700155887309837334204834915019537015611728418436376537164256238092892222899181367279580709850641313429235506253199752265076689720422882539146190914632053882738609858323631747892179489119635315158359987002710754657552079684906913981532584413483158796361304040221128722250996189497393152,
    3871750776415156458476189401779439820375399196311983883527899366069845583209692311146344521594672016525807614237256816383642806377324371024088731817464085128222372963240545788069756689854440677433251491773017007236260519661505958563886832730944988269204674914437907217277072101141457751907991559672050838301164691168702649986900119113473107328049059109229404590756763654173220629676818432,
    3746855590079183669493086517851070793911159636759883566891766650936606608218019981589558425967194173135880742954735858680330643916212969821626681923304430517594398809240931289954995620459921044245962988410997517750007235902365612845212092578512853724765754163438426360733027523437884048736487487602612702808214226433595410107266152817120673467835578974273423782875060337757551712136069120,
    3850934912025827660421796657281120214890606324017307038570942623994784422531180857177266176652167240551438125210977574710869738343036752292986529079998709020383660825877430447302082521722842842418441774439159347696119349399178223242392700881560264743769921396244413481305543181557702069976464234835720914202217838408931066697839277077860844087949576924816015241464546355907029430387605504,
    39550447075488248329657717047604029497114008764742535493431128943544349718226128124738646331661322039748648580859703175262438510204816237232632241982914600323792327936855711684300081293745254257909985455967739077336108770603508284981587751968469063523620526812478957162471495401235265907953430455845633037506024703906835872150445191691980151206360291371675615460488924775058587163441166176282321840083304448,
    45694205844496131564997223240568870924302526151061817711195504680010068981234338209242086415338031499507324494805333367267480601131967942368879706568294584539446688108630269395736411840587908464288930090503437634636638124512508346031913521010704193327384674860664755091880694394506677934879192020338598843337973061613098041980807668550862343729153393123124502912275641951964055629796216257291142152344043520,
    48382100305937080479932656624160436895079884346979850339366293107897788702320030483823446784068098859592775211094086089397449533287656531648290910971184668765840074168618343401260422081633563582841472444362175498119493435560215969395046930642186398379083056671271861975162027021030113753653743334641618940605675384083240840939414243191861523034413388309605754486443774596151018112805557674833957565000318976],
   [229239173453055542729042766334253267497714687725092670168783461180456084027475307736209791462016584874879767430631741837449386671111930558149312922484598911162506969946492760966299506963944814535671826526033405014516752946194926543678600613983962164755630266958496800183713378044087947699227862067923197227567838743203792769917106703287090398241141760345416508230138808343964360522947261397977174937725913152511541248,
    242432794946756581159491270871819564514181122827765827976109564665985506204061192029247000446170138642860611909651003933202743706870273990008534883329614977594076243661658632480141954763163303006959467485637009287743925661198819996750875980731503719050550111980281179281962292872437213080855042015343286559441486738001488410685258809554289172790465049662569643327099669124962484748940754423938843339234038512405708800,
    234186781513193432140460955536332403675115967350451949093637506691460825345829589611632051712384148257221523937633985849608707719737045778449371120507509142000341142003585458019284657696121886095644149326143785179022890637250998471266149420552465951408091118833448027871854569857928293548928715395605863231562087331259445372183261668037793271859494949109605634182425982568158138215129060942906912532948727096642895872,
    4059093556583095883195978775249202164433629212022379854808394421959149008887436694386586214641974334388584300738802027229844445449755429104133303025564199809780994206547557077366952233181386586160423209280527764726963597495716505834422633106624520698796605671842759500004225290837828742508126978159523818242778289066581934236555169492031732290035271106268783082051590885774944574631837696,
    3018300336452675733758319694935584806207173694540701573071726579156397995666777183438872883831965569609836454175655989676680716580361949110329678530815839816144712823148551523445193250118902801539654816168886333975540223320498376886335486174468003586420095944207476931036753058724559575469274415296752932539827369771857054138410229313553996871251727313456504925233707039979468888958042112,
    3268090709124621311724525462792322859134551711748150910499422234265771406939258260551796626867574540835800417014142650799765017857885687622019638405482692620318241054498880268307764858244916353180821610182558245106339141010928977267224124222230538369048979224778573812226004762913170634420585262823628478161595155110399065009627422748800827609904086725241990443313316179005977590906224640,
    3413801759849922898871478827375420056675593589502334707260194033927456359862350513805361027011667989956485118590436507605644146538020677315736111292571940196733014633125323229225804602079547160569253486145246047004061269343232831858266459964447425539920634267881589695372516116092313865458148113584347107108553480736485492322445759740884809637567340477230585975230033982823148056039391232,
    3809303183247170063984637959815255307144258173775819278321232983510896786392933472835394620977776101776692126921316278147010794939949808403120598591325424008708340061699025661534572846694769042497301902447835912951343562959974917161381365085588669747701773664433548121070257088088545828948388100446730702794323863094392914786562132548720775422670918916408532687443549198688476870538690560,
    3663592132521868476837684595232158109603399813004114022769235426150333644184745154822637086863373313933465305587524614272288439411822092643852286333044507390011207022261873525762415312367013704965014675574161020973187590762097941989622778509841729961406808648265974688647906338885544658740822021931572498165223428346553354704494987229623341638055754649360013921090864351493920069196447744,
    3663592132521868476964068785433372123484217660431705182111533284849558426269365208457427440785454686973912040902486816111752489520382786486906371855971602545741185726103509038076049650742989960914158306719675492173158121011889851165597299348430858095354239259405631009191004904061934123744601336650749006644518604442751951747423959485952026972318664888642349533829741891875395683162783744,
    43774281229181168053532106301383449815499285483491626807287512481998252159155746544536594413677151308637995671883529996811176159431470633127267311064468193710640098725472443812004228179082483330760989604527722872473662057001480777031279842126528375643253204240133751918666585685125634049553020623946836688027340600237563167291655755395230885489643169275296514613163116298716017543941209480933149798651920384,
    52221949536567007502071887655736784782466817998858483825567934719936654356500808172781234843892984215303805392761576343100762494853988593476896101416893639914136473914685876399024480227940311240455867423078266612168587847174319365150126342888972475739120154374063757551072854644095673679668766236616849128949604225073240115764721929985450589431821502778708471111741273289546494679480255259296190978521563136,
    52605934459630000204077652115001131589591832023431446787569339990769038492839226137019802238650758377766116707010777154748647347572252131268861473011354719399904595858095611445286907577314261292301805889180524741454958457682799827688905079225758570346098318942510188611671056967848388123192986455211687895049450847506688296088642086199039948678131959518265811896034477070364663965512753644286666246971195392],
   [267170835247446028216582216875179483237633159744012592842589828575254183071630122193825345535738768645422566550680979890106093341103916850158326957557195016940820527396146540973802926224899500063677336927582513531576195040926640558082469858507725248249355338948009954857587460113600291659623313285739603972575744385058697497598259560190560027972202910902158447473823918534778473738426517105305207345393367280791846912,
    275416848681009177235612532210833170991832331891053191922053791007576810343586157773691552535510024381108631743833870099875470978258605449466968465709366254650653587600953325465337858419098606195633061654072054734997537497430630669118816154760271616882574473071510635872374696231994740127913503449605937523837694489168281909287287847054834803546583038354713935248783344167600523291623069987804734639592996254030757888,
    262223227187308138805164027673787270585094270171372317043157372026685006773992036389530753889885547820100101001299474504781127152035211368294628985997513632782109259328088810639057963026540671247587376666418329533244581655305417872360787461195047363017626851076221554507469654927491949236480259405801797244121022573576514061665753418655346099306199285758071759356258150573041436417932303973610814954193318226759254016,
    751218521116758630470564705676582133099630909462758993276750905424690538936355760383817383110259825059444073022377199579141360640814742293809518540554057095150556631774179927288605667675905829671890374666280800923850313897875329617834851238229718179232265826052161803658116740534160379394267669398011148996092451398061818228415826198936087678365330664404638889394604735513755648,
    8747642833599306999711400638121272530233206155764993231057110181382682459362225174801342658859311362995247053979805289970711981045074362521298428798844258218813436310304613817194342258385036513486631401897192319096527737949151248728462018747441688721521703848088669116423752846347726716380974121705998493258671775543154986421191840951256167756070912,
    9359366106405601629220956239038476201824565130461917997620485229373805122234012366754822243143551687568099078378600161066596545255590165581548233689295365608845441114109995142811406799995466347088861024301261531473000652454837799272773765041935485705549752747813365879388251926543469036759240998033456748082365822695497079758981906996562983687028736,
    9726400071362684046053150601353710562680458628797452945550872444233461832949775562455686246603909173506322836615935225471060097463883676092729197359079800552327673687049918348670668222729677501648256811976983038315981369202219836549320089578795959315939610011022313572349277331863130233581756481771161208839118573412410348676652547517321128479555584,
    10827501966233931296549733688299413645248498662449111960271037139200985242634479388158598897155404849993246595619147648541460778210515172441960584580676385872144099888286155792584540337973169982177546392309334938175339865839451680674452008624867192826129165436432726159925902503230810576970847367288150528288478383085787447314944941878976840191705088,
    10460468001276848880135375299275738407950142225888993857193932823365157111281536954632208787121880826715801056815540879107296280198417709555047387381488582961422951717256913308201010280181766760655774104872585645380247043013765430074049818278435059625607381335875953966403829884654772899285036218438066798803268612560276654265201625058936877779779584,
    147824365324634248388763580402963918945475154225298890550455762523812578541239603216424025421613845627732052093857585387415554096460649927783597581020938350778763181226874974926246104104379343432860439593597404212275790190685797596011957150681959835975781254649356238305600243928988810675213370016321046268884499033155033511260747271864675768511188671681293592427495424,
    51837964613504014796069477233721308727926520469094206182283236874339529172036583729869136180222381202827109978169367114952872859845384277350825122140575752970888599226238176127794870145903555808192461729809806390612606852052449236121474802163568256522184571899107152699499301368190454192807810052888402503896397327671181412715530655279310203014721567207301798214758137094837938195796981645019974240705708032,
    59901647997826861542124729247855734530020789649683118841729463243520857887535196209951990204298534824219158949840801684519856545766762832310219267841966713409113946380277078601990293394384599588217250168505061711584679020106153081330063044760631044850707397916449987615085082092211169524391796981256691151637961754693678936030545943893712913300415142831021500694029726982233559666968023731055105606911262720,
    58365708305574890733352300292782510567745115147213305759161032763709823767383595335172825696715560319523190184759982276810844379950864533553938680755981270277534975156628938774374363532260174514246378139299730805141104849939077415250453697934428113332731551962727079341466945988378360136788756528014005246402350029933262104139338885414399748219191868162701979398931326498011923115733631157839371805113974784],
   [166569471357975610184412369780204492635773205306600002641121916502629020868473913354770832506834143774596562201267240383197339602548874729757295769092383098018902569011968608138741893151620171201188281568871897952116277776566318027736006563152111044574181029273174702357854046211649823069449383027311642844261969435125958837163831181312721279841174989848433648569088104889834654844690080242293082312241611315496353792,
    273767645994296547431806469143702433440687163482094389566034252866541546119714734569374103632676318467323517928108898732432320000276161523526405907427281683155990764113907432020306446801596443065031818948282890742578234655114902054365479911337930645793717256284290277363230941321472064599409676687633564915449010507180892714461332541016149187640539296067877999679553085757795019271369743404796818903050104000623935488,
    247380403006894470570909460069610632627482448024555468732798522153255635166212578294964230822908053006478847646859259686008521942469187433251150435772231938595217136659604229317888602001719348440016249528741037629810173380908107757487898759719303761192105586937485654384014936631678855706972785908281863044843168141132309318301786779639872446621472387084924313184447094548989022115518928653630476124630532908730286080,
    707599381180946839023886755013445619792970975772071348750099980303065599767715887394676180680735923412481030793330955072574932650934121289632716113852345313626705794311414169768104730262186170952495551023426900100378239395838088446299369690070335157497901992980778144967253631248925681325970016393738101833649453045571289200336321012104975417594499591918081415514614385134796800,
    1993990933755084342808587271905353295564732215733286022479740532885630662962152314699634294233077963229969512516176887335751923498864031858404522873741133838493304822795129622332285221929834965582360389154433284597082203015504990943158545220339965164461810962690583639120971086229493694058644064421315919460084120374761513200907505482334208,
    26066550461112258527815543274530271003708602700728762873234048904250185652357121116620125247036108510578830174568776816128999858667940673112974484661409468489598940171475775906589215893942843523547945923279111781172407529583211626537932893824213976813568042615794136521469764280573382403557837575706076904423424,
    27684474276879664979031299938150980897796089655397738414152919261019452780965673450756716931230317944280372218564082378541029225948722714125682330119048705369940710051822146292979048677417556140993148330133107287847427237180547710003344643243498564228345857923806630106437690242640704532263297306696976779182080,
    30381013979173138841911639173839317876838682606024162032390138573681171022611321252678887424844198878138991291736232849450764431990609121269495179354525335377792270186963566392325230806233741675153342547280078307938615941431553665111971482593627178425872447557945521665342150568628354054490742160723306648436736,
    457629875509802849640066634320898955561073910567345529387086971382577116963341052194485135668847764751437459651005090714207628763392747506425408047615527591297078171800883285901434772975787417804008857109845671310031335704595157373341763629580355022804185911829634620713538753741746164779782965479261097819179264909406314227040256,
    163622389099786000113321231379833300263025362413316408245917065483156901172100934012874773949143882382127011626547748822760625419328682756824610379168977667644117476190045647647823151796484806741000279705417770142002824665647259856250700436916990920516831237299300666984170377838159618185279983650779273450358181040829218110297195850524717170479443895586302764276252672,
    57597738459448905328966085815245898586571732342484307776462734512002806169925297886822369663512613803201359442415488980836452182450470470889996593531200014525226835034324458217146825796581069026229387774068951852774417109713756515050602165463360424826992090450417467847662242365905378174212770445157995950337971628395768995968435365011547093456473122389702426067334334871106928555871489114409808614393905152,
    61053602767015839648704050964160652501750960454630792857109022916162736106386266075061779189077530422070037224525708768072545356993048452498842067684502508898574648527225546672022634645358312394504107766090610501584942777218456762327064540725258247252544098641592909078845327974348209611753189647028093127438014636328116200900304933888506019571073582751486125708441560822825292502676438431479492928656637952,
    60669617843952846946510943725392346511182888151715579858881416888613479649626359249162575758541827043327825206011344228796812466646880651457703710946606184085651924950006829045535692787662271184492442898201023603059635649454456038703443713751164317761621693134142098411185741145295435535717107525156766954380144033643669460676078775979329179976839949501106529758300851413154439697225180411345759830204743680],
   [179763092851676648614860874317250393042583965592840563839096132067940319918177192544166532475664498453125422584016544782627865363467370167502617271008781548155194062529974481874539401878586634347779518383309639897307260234815883114155004280409523136286855135279549249368108693995888058772883243711963115310354897862517613336459138428861767181727038758099008844547323979952836567324293732679428629619879208636500672512,
    291908875548135475273673162882140546500031966769871247475502405208129305167977062617915457984453802726134228734232061963319193817394040774761267893289675385557577644325024479014254792579313168548267623084734876814830285630143181072529366485714062801289771276491185664262288619346853273971828437026880519452728039677694729323563210065761361457693213863458112533889828399270488343319570762554047937214534731198413930496,
    268820037934158658020388279942310220788521459884460503537867818784655646854745639677477332901684940975811040496094610886406466093998151802630836912792581360891015978906963149801873747514725503383654914753765497033155985775152278203667527464942558165093410218675737177761181681756264704613570547559780845763418322024254213769236884889696604954518847734128533350239726284632457212712675490754111279758860925026764324864,
    775451376636654070163163567138022597033363584149426207764158365098158724758086386230067272340772911607999968836990133855049718115768455353307824179067589161893488808860668199521533693285119288774098985980814775321685351266889574292459626872631218323667484054686612046473091085642909172349985991059009587879411281338379320452624596916878031613688588583240666662860285873632575488,
    2164904442362663000763609038041734712901005129746108076845974469294509797988345526091336784152911333386872605320153657173867117406300453236971408885020097471229602315515761318515663131771658884829000895876747853181161583232497193189514551814948175510261732546491758509137346160138931540482616956131245006389316247898002037103571733890203648,
    6152803330327394382008534461473190380961371322153228716126874807419491059800380763546621085479137004788622140822326692771608088005992754964777845823059182007948495793140307459333647302479031557889094234951959868894045357270988035437433986655295867075081980431737990810758794277886464749270908270542848,
    77659296093917226707424358290166533740169549751045789555677387457750654974621214227798533031919908931346923666583993512773641461984125452775225920895477005280629335191419210852923554949993554189284194465266836730516828940718592517432510916096564257224026799914914659958784,
    1374089275607399870414882336203243656500455972264552579274001222789880661193286419540144030284723840597779665891772492345583956663028531941569632673149632431146637756704581032709424363939620177599443838638067177456270224632360782414089051855589100939091627389246718803859996810516990263296000,
    497423777728046575663092564096411173806500946132122669931460607177846298815158144947760558619224442567684721762420528418192184494336478429062589918250807021703304627997623115711472926519685023944818712973381171563623078888078641199136349126734656822079588990569188418911770394366391418909504959863010263532612491219371486131257344,
    178291982605284055295894859020783872010739777641065081427179313716927719635582218325620398595907254044288987000072713746962299568454107533893286496330917942592857773010807586279668538146590068109739167847693377448008942481710772113342912447281800991551133274574396899343780006626931483921357458496849063714140080755470839866680476280073038096196604449740170510576123904,
    62205557536204817755283372680465570473495800853083964927682044890739291675351121863859108271067382010642622824643549443983608979357970052480761471752732054584575350871776284881169970694506120477516450491416541801434589026774535777126991285913789046818020139974953550349905964482978141558859482588288926525462198668734557410824041406691726164152403444403979884991829205540206694528539663250972735553335721984,
    66045406766834744777214445068148630379253257140572546275528490295430674618243228476275989479873248499238801447649475540147059230212129513561479390468877265416881685556887710735894240452630171042897208836508474981510748413144341924768449178352949139141071287517821743504706293675655235249289410390281582288435460937585689177694017602621770171042833713157500282284849876865408888597186152156633343762190303232,
    64893451997645766670635123351843712407534370638321409225663098585141954676216324168713540431432222755244447505026495064389660562865664635100175742150896287041096333446279681621620113000212123706577453109027305772200838654242676915195041652095179010661971204605646301891540426485875982935936477795905088646987597452754388234705595146807566485587270556133026325218976865791049937597377164217789672253732945920],
   [196255119718802946652921504988557768551084087880105322844732972150769258966919847134854258009718381464162554060722972547163859359785724946855618434943482507997772108173143391704731606666013021868486003287325728650614223380113686344730194397273476654178790716344289742949994062564000984936750825094079298270208115419788106770297068892454585052565699456557947031583456922687044495773646545599373486245020340894188961792,
    306751699728549143507927730486317184457668021772207991225553853943020973652274213221843915036812021259890425250043754025490104940772220868376182961914513727298145354340328930372444793931606201010211015272389174489668649601995647452519916012710993948015074417082664430715972954902709869673586856157040211728412998954857564193339152942347556052685439444628301959974410450296003458453450556634257637640111432713371648000,
    285312064801284956058448910613617596297011889029517304367627619322895360621025322032542702744200140698172455437938848870219211587264903005618242489122901376921103226920692633813509932385772129306127765960739222069538274972448304037989542084132478304581561623884594025267168245941049447234693612090451253709930274480272636405744320907811060783793075930404073854519939824609181590189523460092490894544472165865207365632,
    814223945468486773671321745494923726885010399168321570820121905632296512298166089391319783032538239404589126925152517096015899380517018240322973427274127353443679134213597899607363587083973311635758361419670010208812197630790869058322145746054487427524009195650559663092296259803716703887639923247071018312844948969038483816055421409565772208485590759377993244721731426051948544,
    2293089573818346994229875362662626899849024320949480872953510190630677334415345266370169524252253278501155226700655278390029637806271205227487857396890396003346567259264318025231634722513483222649032996515577924027307253451820256599550214330227239520887044746636256130360955055108509762770482547277235562586627855009044665685043348057882624,
    6403938160136675785355821582272667070953322456186001266526390789798937329625149206377336962721354099266554503637177989776341908863446550211161204602328392972133758412147295209751230465747050026362714114955102016193544003670939856108765613445353756771686656904839332277092293519586651758991217914806272,
    17958460739386860672409633952663905705013585691706410718290861286959496205997792458831410646522136246763705273954184148406793621826433562309010288143961977618086714405877369948846353388554607203719108561641842650559178044381522899605101920990568983779612081258496,
    1383834589618799869410180299078276740148777327174526015842257770541963315560193484855192752581593833326579330051086835197985260231948790352764685240915924632625139249011335751944275519261247641668438511904066981738061400671686194169364325761644655009904631194639292993527138316901115053998080,
    497423777728046575663092564096411173806549672702179669926777318670272832652049913932293028459876723982127405184628441972542681823246019049192441933135508519782087806370511973798629956394654193812059638120428762559771867742680642301401298266668315472241766689565424207611157664192644633290049737317711162923279580813117964693798912,
    177163552335630358743389195356095366491701148327020103993152953443970651658275828265248542067140746942698358989382479681547308428993590292528363751074870500956786041520472985852200139954920192521238396911122087363879320355770069017971936599888222673936369266662154254874484930058505478418547662454681473168018923580821128225168629517592825876851415945217177593462128640,
    62973527382330803159669587158002182454655642494577118551739875882796263204770541129424332065668733124572850576927966465534670370452620153767007618072063938167185988160333179974302972694500055480883170851879873709160407392743774814571415633249003156134705133245726859788201796841165532577784020702542063079206659765662117078447793271183812289482360907039599220596051819311098492435869502724680047732642021376,
    69117286151338686394759302978295078303868926670882433144157195326700102120020769339407157808401332835419071040630155954517246671048937348315669192361163909622161421334421622233741631186434556920388482860311588161399291852827535625097893716584417012979750263167724274741278479845189927206207625877013021511053085866341387703965971616828964785771778083403431583380167055378531921415444563858185980445361963008,
    68349316305212700990373088500758466322731653634782353451149477607936900700982142557073942684343535450650548504338819703670327725356345919796508223343716911207218472389144134152175951580351157309529171262111714489001169404052914305302295173906252664344750920804736574471178749639553029410749386153558009985674488624802586393637924762263261205884849580838742526166966733172805926157909629410167654587245264896],
   [207799538525791355279563946458472931407035627452521847875060316140437900093409108455301867342622413309748363277251151221332621223637124169873588696087739098822899752251489129462558025215296969207358439308656236942564604028121675081621783431771121986961922361437169757358054216297425514275693507109060680748774834999834430489117301057251909631440150313406066548931025620717777803744820128281184977327445877873088397312,
    316646915848824922330764108889101609762774880344112417352049885673930794779243843812815047446656940613144165413075494218891444145243032140440254641561087887423472289304562306913804812907977517751368999526783519262899065944626894035321424445788024034089551684267403340191584187858190580193163721013622344139577606518512079519778345857336834971583770938946138766834915824366126201113673309500681867045579320148029865984,
    286961267487997585862254973680748333847875956314445319623213010670832631185470840262094355190783968093933903831298801191234959704282644034724058738565671303831638821675609510377557141836940523888099270611692230183522980460284508060446693021627663106552628496389456542750772906509924775019847488346904471618198724003282615102343299960050776238728471200283241882504170070686806608057890280646499675688563394189948092416,
    828763658780424037486881062378761650579426024224703213463658083204331017195801616072881265007888430368843244097869499331649342646546507963720237107970890564827077570649056585784876226862559559210845246306017299350610297780651463287657593277483711098839689532913017606630409925145134623792441863639443950049680470619517669389599741007818258629147236002075642583150754642777866240,
    2335817950970241658718630804202924295498503570700499183546886309982114162720719377887212539166968457035188073053845223894110457709163322545601777450782280863509344935003951851974127084521472867258076930917144836442528269184624640284957890040742403857461177064237915785461958278157963021623895307923974961960462243301935399673568279167762432,
    6529505575041316487167874614476269527438737144319145191230159460138460422167123124355856530494823366879067591861965062410014546266476601739647307674151628273980950861519386923604931860546295619742476325853189143466206362656623546421151864074797237107767123578433794213505328923220294707149028494147584,
    133871456299116822383265347695513792664315642349863769690549776253785961885998093759122448780443645868595937933837573333263670629429815726666505640410955941333175080467521607665110453568040630898993803296997842344150490134388144982617739037131424782040470810377293044848139620581376,
    1549504927978237418349671325649111976292432621086186141768742497367929185384474248394578666472601264469895773176943482132085079377816155331872561312343191374228194014987600418436491188344967748633067538058826584642558027491428571175312744708039378635390028900796689889513617420200457308995584,
    550482314019038210400489104266695032345787632354141757892618815300793405631841028198657038552033439794582796765481139831000215294589300670777616086856412051609397118198546710267107038059694572323245843240550178188829240044298310901148762714246120621865702425476832227731376354209731237731150485702830817030159850595025079140089856,
    197475297189396896688491141320488465834655136344248282024972246490528009060170019345148171425846437003780863280940654093802464372056904437111923791076793342349542124507367619418931509100844710588451876338493284608659261591085234377045358029735897314269823166466500127028483362913597269209548447796245345612445236210267111212395570781607228735231076264049817273763889152,
    69501271074401679096952410217063384294452796997572797894119880645554997654047120807105963500675442827907055940175255146435895543596256824866492627633290519843151064110294813254572336028877383360567793843765680356250666166008740943921856982602584974023916031356302236330610446265428580221386541018722134297997766511269455506155232015696547840145147726086107273842693870435419550213977572901770696295157071872,
    70653225843590657203531731933368302266176197220902549730195295010502471618150020456315719483948361823372727303131842991035439770790907067844346977685866863426294570956910658868641951320548152987017930639235174089619584997702757981553275205902966904042602071916883919853754821664324221347647880838387026575116516818185026994406941025255349585003067705888957153113605095944662116369413809639922122591483985920,
    68349316305212700990373088500758466322736167355860968237359500262595654723058366713659004520600233724701350273812378118495984024180027036290950426786849224903298270257509348825175892814721288850561149551142770881082728502081338282333300231583199262161682931805112263523026441533896646342840296665497666653924643891161959033546959146967447475542955606582299841659677994496054670936885429669460009895937966080],
   [217694754646067134102400324861257356712137639453322294913617828099053108579147281414046589836474406419610652775207953076548248693301627884718307690282584773804311366440176269500584944011167689714861184445514461964829103717997310269187156176364371328227142594679986135580755617173546605506082777793480033702688378699773436421868934365290925033177007700498949190413255740945861347254938211237849445462570459924734672896,
    262223227187308138805164027673787270584924640182733048965309179996362798001252392119718400847940811898441984773801564876792602415190240184714634878242566504357265428848319409408381085201199631278372374031606841154541313014882041507938330687919150551536300602272930945472355033472070462259180953581965125782582631329534204367019203613286513603160040124308088214268475224788516282977316533718707231578164649248927252480,
    249029605693607100374715523136741370178288356456235734933121676233657554035881117678324787013549644570898830348326435427580528874900052839476294312302655194274782080282068071604945465118475240309685293132601345895471821048706360660878610602998835330724641880235250568502277190760650085069097723533532891498414405727399160550880816239266780885598592222633604541165056323798152865788752679849445147031389872675050487808,
    707599381180946839023886755013445619792842790640615664756735631616948331235669986791835605673104961588838205795591054459277638580358405981453224023897019979807058963336291907068734871099332737936042879068463594113819330660440098213908067181551070803164119095362358149933990245181242807063727124317948508471579112486029180994958499262260486895707046925131549979364403782663274496,
    2022476518523014119180750432242274246455265525344101545336238181025129256567300067043854969659951480993672976369997633210870949925169457703905187638741861879291136159766339988032411450192453652749640813622867584415806749591587884189798730159367621847628745728589471901718019801273567401817293360095451179385153047807241994342594809901875200,
    51730922590598340725236882142893145607535991805892909909617134157948008024693765035364708235612283922385567235559503008339330408608348036437172090192428812240045277827153638324445534534573426367028436033800882181611355240991876032762170135922805946232643804919879269010006328834033498863521524457270251001075565225574400,
    50958819268350604291018268140596551000013233020442327185058459133914629043421924972238634445890514427064041390585024599387287594005204130753072114444615079223803323141978021487377007043807636782020813939548959261073198615991787941008501748425847850796773118388677112219973767822210019889511259348216258706686738272616448,
    63312472424314387149446939206026342265868253657363212317221543858152288803845851905764778851625200733836500687834351019887575273821672135886272635151717486024458811726106947035260311907499017694087025511518085857045137408897331155036990886823522476601325020609462913878792823485105774754397718953166617852480686408073216,
    381358229647093813876874655336844253041472004099064330433668155289408806445637244223606483098644907083744036903853543407056018002800636625325139267064401544635289286761438206928375506300483458067935396300144633184364378049208422436127026290586852022746509999859366007590103477918280338908863987907575115302640304190425006205829120,
    136540062628097282853185303427309167805720216805220770077596779603842029152668593949638465893961164902776827949481804123724921776072751352942520596690166762703290223471016679729136133346974240681987391665726845548252626568770456451867611892424958427781396871247842077873002133708433938597226754178503976150537352717279175258993558133858677607656944429100692886838575104,
    49534055075126058582910833801111472784459408277580935972177090419788882683886083937644295856722757166033986553728700353440807769224550845906122707433105859433898957007412894556926920441886479439089845941314420959536145449362523813682478292350871748089017289877070475815150362322212108444983446719572551876635972319679305121821311467083028761020827027929364497888821850010162980951967639942893539536295428096,
    57213753536385912626772978576477592595977706143367059757527498220165714086227482689749123775666463664399193564129121685988661521320151233221016671122928965495109310359390430656609622016949686826192178050168136860666697759749694822275634827128924093284588515570752377714044399068844750930223878468368307206790417921329836866188834105039896049294029172087861641540574516854363296355456861132580856305322819584,
    56445783690259927222386764098940980614855102700772478119702354129043463238936663175082152662290948534029376311474421825205970843413109768664537576244662052944549881556248679463116330793779522192428846688322720428602664093171481455758465941389393067467613504193873354669977869624192548558805012027088369542530095005333053670092096797569984343144294750267083729966897166461134351093814932836361555719594442752],
   [224291565392917653317624577129780306915545442881994565056605723745376302005092110847355986801999530622144258760604625310122051796628196761488421975279744586475812294376042704544346569869682986171211783338727670793284708760759645840292036596542793987888283405603864415114359262343297425134883794158731703329931987647446419340467095110921984354660558117315711598854561085783642453335207821060557186862904557477411422208,
    263872429874020768608970090740918008135788707467661064220927938453842320005036511377214979513799784488550893407509186065524749483895619906602083726905141817875158506114140287322216884854482130168048858317853265644402176799652779333409743246977344242245546744708576439990654078241706377125977832415048415866391266771271056977376341381582026732015537630087007043575950394106219956343273826765657969689096040944137928704,
    244081997633469210963297333935349157525764006596907396397536569712636558880099828139209890894546551343451192373337582401993355560601865939366101147808486449800443949956419207241449517595680015688149882434853894510994007776832172503993262893275924345692721029778730558499332443374092206607044463590256077592291863053734932350377934336583881118527556053884190717674160360625465859216864066453873752491621370214213484544,
    688213096765030487305539373691264312741490875700911304134300983439459458531810045577825753837020265867242951055095766794256255300175131804506570524159972912103851017412336173492852314935176725570126179827899221678534134249681727929869030055087531617729620753847333850520643369848378340426447502214859614703484280230638804028078335252308996430929528121730265614858313498508656640,
    17340387636130669264545567115641725213495080993462734638010044639256514297460276662932912653894372020323910733624428378890431920207308329219413174082663009005901461018800871644304670924595639106346121074624129573906827036132802097510017577836731759058965148094449589502482241769045271536805220934220266019019207512965711128799357002441365022889001587342049280,
    19442252804146507961074614708067245876948469644912688597464450114704573431261675755821235798239671255646436835183758601488687211020061488272205984186160947065684907661866185306594684132144148369752827245913994475332897276555468077122642879621662326167037596506917407712102886558750221362639039588496939336174626439542153771288232639844277296258431947498323968,
    19704985950148487798386433825743830280692706812252105109606229411191683943731114750954254440440893847698196862246256505160782579715357520950303538481001778648968801707784828765448974090560200076274585471331033134787467018331354612047276692025864767879738193421404942238082035151381447230674648556383478650117102402608413817256372496273343324683773240384946176,
    23908716286180165195375539708569180740563440530214877955387811601886239799075707173198210737451252764456982430618623275119917030166323017638140700888976093902270975670387213360869773999109505509597131246473375728735104962692319913805052611782997736524643632266562145316842266998230957763193408083026899087858504658355497480465524180929439153308226106691682304,
    21018651680158386984945529414521375163069649795763849337144067211436079897195260089114087593615363117878743517896054021145739657199055942851877310474503224882038499868637859445816908621457866773084159440427229756306772155324341732127032217705684989802701622631787213249684081815166415133814656905299762564061092890174767559283325616416596826980367544828821504,
    141053783727730720743366345071008719296074441848150601384668766485169093361145477878685462710089641606180662942315250357889937570171444777200808157453776424568832321681863374132622541663088817123830291556205386898077085719982057023902764110773347181774538561987208689987292921657936768853147001533231991295814626784188316521620097810105177742166946842620555685538037760,
    49534055075126058582910833801111472784461665138139160151794244295404710671396908434926988299403319980432810192328845397530134732752715307025289327100007981392524389531405242591488129998569352832206022130272738492979752969551570175506128930097837331995242906908825348229418668746743388967756479205765762815131068691520787050158175099587112299595053272841892464853624377488550756147497828159496616276029079552,
    56829768613322919924579871337709286605400606398330348894736116141173356985319418270745625585373090190081785144016859252068946764249831506792839639617485703142962093760330732622930696465474959053261533000550670450774988602184860608614570201764692540838452391748748396727524316952292512105397956751227531217562729407465291658379497920304700840268415160138830472837139139083630947501451080464096815158273245184,
    54525859074944963711421227905099450661967347114901434918295315778508434740988686798519057508538840644057172001312732832121250350131842345979914644994044584643745940764349162784564747315241771465395283297243390770734864774821219800957681511524141947512969701005437620527566342462271299652304823578141276682359677563921987048837895361288343124589201597096069631342032918971795557495755945467158972721952456704],
   [206150335839078725486575701662948915996276928490680203903217888054771880267851035058398573494833865819853698930309553991592801954877825915238450695219448334412817418743184021416773457202231974880918466496812921993338785819180895650102035732326006251369302832994442977464224204484755832883227354108742977339320264451237905375923778017023686795492874509429723605277555731628846422328616173453708753285121481903437774848,
    253977213753744989797666758264061410566791072531882661062948853743590824766848930964710662656921875348373067798085928500930283230197229849549958459241323129539894991456288976394079424795575047439104860003806409264279010688398210117257166680768990198357979019704468497830133703439907381456473178925420335357061553758089587528844691262729360051781259172017768933361242239045215483738026610293469321953309693099634589696,
    235835984199906061955263643784882468310606949534085358607802595164313265236758708219209948060815502756892615344419329382862023304769806804683800468737715796273756407211985794080277180927882338850032165417240118484428930925005100074864736052686034414890386237397448750516448746607208683661007148139189380228578527001011176707980886775052665327418040239474533981875902395666512598122108051775852781061126145629076062208,
    12516483950619347931344539464092394155896809477727406715757091197611123683879412853668504205143075774453506865852538640225807217916667885960595888258967101807659184278654689775825299104766845073766999398643102065470360431506153454855144340199725900944509502098882885798855658416583748809220613923832424090267169058734551423694112400000598965570753621860914948499255479185890950528114407025890295808,
    6437048888889950364340031796907547703389487935026509962798354918949814964973189430003165966008252131203379236152244426442677286870125128628249136782903346686352268637281630268562172750868365661042817827318905110838384658728211674818859522804022244107062091333447992268096145954117219665861478971538055837976126637184586886002130606017507516495739214377056100028011455066864503677671389171615268864,
    7331083456791332359387258435366929328858359929202010991577466354462317984070010389741706025595024901031207886414047429918165956183770648311540744547866202584793634735136995847928801382843676021058193521698801345209598981729304789555685569028877238071174163408488760287952191300934851557653714455390526162426872803147931812857434111804139552388189092112786551073828330030082912943397599562449289216,
    7241680000001194159882535771520991166312287202537067026195026723920204774844096805714998855517247507566599139401839503200156806216528490771922806602400090244887595912290085081252779253866647439666100207136778416868186986481483438099193101488010289549362597390362628349962124636324172316567878427102951651800536725320031635325792653355143237356422036774271633941747771856235489759337380320471154688,
    8850942222223681750967543720747878092155783872390165314293778306032778098712618942353652734527370466089980442648622426666879449958329404867146902951171883996759308276524683060696660338556699352833957441221013406057103693814927410691739834426362602642115662927203340226486976721481282317976363388092435692611794263029816551840114104213599070680147175362364238511559739152829541213144974685735223296,
    7688697283951885157406149090750681979047642765635824470016149439866984069764731592499670907198051318569510209635435875644023074824432495156792855943075291334575291482795457632603950163766914373127596726423973098499313294469319738119889018251570871286865903529851962155700225380681254247128257577796364482525625486527639451218485925858872941561114643501106510775029760774704524549542743223870423040,
    7599293827161746957901426427032256436972175016258018518906199113860134563918296579713513986711443391022500282432118729026821816416116643077795579406968954111293157803346993594026921360675173003365327962761211455187086977020890780122990304368863188105982338858001450957763038872392993333820450771137150143882083287737845433865236515464106762203730825975694818566554766826551204640792770176780075008,
    45310220928317205031627295536523752004255320179528935237661242941558625132248668141695510735508409490374342581810962352614098894332201835923606860034026449845777394679458910809809740607375140858861616370194533194934711444899037042158515030135097592358695100537911198035901144267763432205980078968529144681643694088518182897321523008278914664187291839097813890523888137034735539617457833927734538712180064256,
    54525859087640254575620852234770068928065740730599396384472897507691174560971405947176048091346388858912875588271798369040161073998600289000708942096418163444808705256566036074554143091344113101800976221678203590269413776846040930898048291271394538399711136708043058937281941600024545625681286247461233741172936579548503604744314750954755313463898407384895052072229090295818089231426891083629928745975939072,
    53757889239457989665061459168624835678482045828347347727485875029990295393545394331522983349709140603446137390430489628025046297292038576267718199676868902187471792528507245032843776661766075783468993718928681746263644074445182778400582484848646439058549071311033055025190682627079742703216116632970854095426311627434665582439970781252068350064724947045006721390620244249218925138125921352906108365604651008],
   [267170835247446028228651683541848140170756179649902307522603384346865734099400410319380949307678173714184321919580896843709912243181164995735878357117561946819561822114659363984272605967908091472918956265463103913016608188590962789838573559209737582956807679386428222455624787799710197062239170628780483245755576174062391312538684000753254513581889945355684664809808973736658113822044994899734478390073441322860019712,
    275416848681009177249380664556514453715564468694431648042212308930613273608435113013042904830080802086585913223220665031109163712454274643582319014750890154332149593516627602432200549184905903834987059443198264123475758698586288840786292289916681518274861832410914988315411103487632111680781970486887737161344279946491523930419504708497468785592522512906316930449847583465208845337841667197686261147795266556374548480,
    250678808380319730191932104722392837654885056173574370010431432689970393339013618785889146477246493469472704390755042067820474806338116054241199264051922838692093855518355943368629141703256726155055607060168065716253800098888506594971837764284736188142935480910290727851324613773546272244228193676548649471231902665863731233095788495792262535680335865409302497049344178925377769719461265471511150243425891663761899520,
    14751570370372802918996532057968701835134555505465417088851632414837155524398551369124578874873202947471132657611779835349574785791003297209943003743715633077451623583886886012260232376947532211470566068254899387156895418419293098821388876124692992311118309823766988505760895355460191936221807733057461849729774380790502575886404090852478440962387715278340824888409455466049581275273216291697065984,
    12158870123458795132642282283047590106375713281461206864010152621434731749607615953125263655279485993792214791502888725877549861738539670348131564479925223549827417509497625637639369531605136337773729634999785893946867454397283919744774907138470488882047255040842530214534883222800525630966849493338342868845806631394374690840452203400077931404170932560322470684493287533548763496696872744865759232,
    13052904691360177127689508921506971731843534343052699973439945566514608606648657725445034850274445928381934154945336192138544691452176743560666121520356050855357389198900791287760614511073268152387291179229896435250019557899640859758206302630390659990347997254236643778207355974256471114464907117096274256141739001542273130042232333053395520480885796593901481856626564592209541658310767831964188672,
    13589325432101006324717844904582600707124962632816401382643507913003142965675242674825258893123295151240523194131554080156630905572800314282924313337280092279763267637657589375441209121825947455229141778172576495666720246360161847717170461988573716424249543650686024308785667720374618691236765518345210119272570405558893670551169353326690656791963136049236933907188803398640138841172173707550916608,
    15198587654323493915802852853809487632968459302669499670742259495115716289543764039360590524396989457971963031660054504889384630726266320489990513061133290785466390897388732346164821361921300413164735829032883118935268835773210105469787423005459817148273046751027557526533982339698189884226597732525686050071539917586547629413355379869586908781001524757068759957995458103353723091011781124964745216,
    14393956543212250120260348879196044170047499167180956466204819161412844055208838422965227729716746583345437349417740362870826307392812919557975417328909798472378562049493238953312282296073216560864259097623687308834885663566512752194574993746784875095535104079626258998032146206725350515221004122460722859290839336463187112571627920042945473967368669439976141934046003608293347201957620415819939840,
    14393956543212250120260348879334841093214903843139153096961505340256309914790275630857888912204004197108999352678948259884151706352771708696752244708404052902295014003076076348488092862134757861858672281599307845452585282101805123486403110403841577450729069502776507615114494177195106336437582352699444735278183481415275259222184066149423853580001695875471208450445823165091260621740972900406525952,
    49918040012046587087575361963111791671163693799037108866411028815807723213718740217428267036888547914545407643529185561803570461250190947409727485885442172301302613956631382482955168269259345666812280031106832133856191295794135100128238279242504994990091218503079520896483879077489431909662050117946659168927119219281606275023726454270512007292021390071536980148664690059320403905887415832669663880542158848,
    57981723397710485685482686969817057430942521696749795164898804248468879269568724136186240764623495333258829601387177487695205693598015514371563965187909549870519208627184713512840645050314037716280004994485942111944637004234040271073133751415130339346249751812942404022313660190957179908355195503723465636931773387978537391741919612457044444283164824555046235853591876947557628103018803366947194837615509504,
    56829768626286421159149910265894072863093236015141331374153753554618486399350668095301405122612284888877462678394714367332781433226977298833411942263599781061883686113097794043755723238917250532302820632725671192465437339323135542144373425155075370309199285716489834340946402980335444832097959067522025068491559157569774967906085128955186116323210380583113893524163006003006635441012023108999786912815251456],
   [253977213753744989799544230856654312756540492176870714202524681534571746829270059852336827320258085561220093246756506445533320133465005776694967938451605554770807241854472627277910196249837196431577537873777491807372495314341682786035701159962540667262957291170614974462800524220010567026357865223921753603564029421288522513592631399783120153644957458942938873453286154922359706757508377920487967687480672839394131968,
    252328011067032359997526236925326339195766031597757483109939039868982869640829961210063786228032477137672229295277119503075212132088673830480962265848081402654635389872062066987063884788490927755535544239859622049953185113592223351325785298528354837630829246977582887985556233446708113181783396683075764140352779948928591149915129926782470867017143833766624377505300154894099403265113933630012270389527171940017504256,
    230888376139768172547332189398305645438747397280332692059756567630002606448244710101701570413314526252124615016161071332373420204962574530509198420528683843547781996757237208633132154349711430911449519141897374790202055211003707155223380836712357521940010145844999197462627821295656755137811604990934889710312743175387205072117709144021392979253097905424099489898207128821169776456729272966082020794076847644048621568,
    15466798024693908514985847657696416256126609789656907734227863167793289323599122815494118362832461818223272876797836735423826558269444555660190834665194388252117308414486013815822861860807098123124229976290235385709574959595108242078792655931952797307505368414898138365129504042288520478720046464243258253100912286316369600210039979928092602821318511743973525796941746931919261202372327986562072576,
    13589325432101006324717844904582600707124962632816401382645444932767362190465358666699006578362014391758242580556811825423232034990251460221541627209002991638021523998853570040341913998166822395206632750760601486367388242187397926958408467673413524014032653736004306680774937691063547537277235708002587694561207246287585999183523498459648133053883313560496055242927916142831159025518542216690139136,
    14304553086422111920755626215350106007500112774786002601635820435281963249576062307513765194968434311488197742367582708302038893679860525868994073438544065719662039295642257422243757765471103498540869330832166930773720096483254801610868930165763574152168066650948120259947974732657385611096429135872440565631977069500819317232297991810908518348082302959853007064518052091350068427963655898364116992,
    14662166913582664718774516870733858657688344678635808160725256244215564852535843912274539479349579441370075602355762489172804186485531196535632681077137043390042871988466948046739178411347350730732009430429447801760021301023866199437360192031149893224443393133966740597142020023436859712338171517569741304963156481555755156505545258654340162622430050339995812816047389093875057049665590942563827712,
    16450236049385428708868970147652621908625300467548804278775446183000747516874936793799649965432413643881791502703897114241500802808684257160663589720250369313524003765401734814147159181475841847502587900199468347970508830576330114173328785854325285332711309749341921220960453112363254871491964197477204160512103167126968037153121032117393021012567372133420711202611932623816471204088390088654848000,
    15824411851854461312335911500731054770797273984828154944514820567735101608776351782725978137867447789061592326033439888253755830833924946724244178482966556134826297482267549040648503647692934618247787402099513243548506381802595326345036305763084159823334450600542119707719792196627445238961163323813220129763377399973608030795067995309993030538233927368162232118692863445852301154200050049063321600,
    15824411851854461312335911500857438960999276198146795214471868643222023071981197726927157210809389519423689615610838803535900702250396150325800517612642412198217588758166689053248130175277079318293062222539261698979837757844517642640554890005149492212674877414462992539991307922688610300164942838842424860345720400181599595937556560079440018371505145138238370995247212727068094560512450971255701504,
    44926236013479330354126902652189931087505659819023163975153381607424218990854260440304590629401441358166223852728697309795724599960437445946528713171854980898477507326617237054264191354743776929494803809370099298581506053281297336104088366557567954070191609348245149015309118959545048202097848993337519854583524653665959242663012851147002978586316253606309944492456883912994352779613694834228701213149364224,
    53373904321848607827066782099644612182477834811619010007854994898513456462212019632558650067763871422279496613639064656506875066375877255065626784850040127733189058495925665403653274173171683336295586901645841578502742730611398455613191377208330464454171083260910702633659125152858291698330838881228365324948148342111654387683529067101913209250438877279767003213821612257953191195960990054283746943713673216,
    51837964627272147141750759957448598960208896513200992009454865893407924977096902953270315301796567523504346633478333147135923355289758776618046970683193674304385322271934158746438114703100629305909713663801414749484751491663775483590044776829573134396996790406142677147821774971233058815496199454689871457365555653214860431160941630074682862108881749947929702194842807561278356945652782042516726351593996288]]

/-- Optimal walk for the 13x13 fixture at `(4, 10)`. -/
def path13b : List Dir :=
  [.East, .East, .East, .East, .East, .East, .East, .East, .South, .South, .South, .South, .East, .East, .East, .East, .South, .South, .South, .South, .South, .South, .South, .South]

/-- Packed distance table for the corridor fixture at `(4, 10)`. -/
def phiCorr : List (List Nat) :=
  [[192956714345377687045309378854296293449385032736873166861193308088662393685417727382618020191166776538666806878589640930612945837698969877133580249414715396188651695959976347820664280880869145809468577413608255633590249613513330618222855321071495033534285869531521555101455153025346222817609335972533591655281751419072359168346724701522507752252781239556351407823707824998902261791649472748806867640124583935029018624,
    141831431057286163127321423773243429373204768292102079930361147839433586341539749347945839669261204137957664809857290624609233445125465530588718174756045088672921089724894164625233260174702906157467890567455691834400100436963356264951301551153085005233485719339595236421695566252338569749182300853292130108641733732258347894476588009237390035511236230828113647565356020282717562326864641681772930266582795281001086976,
    411958543838222474774180645042074504674326023016361806051231181446072186512765982927521770157624251044477186072214573694415320581341487937464158927780795740979448965475283007713137517792506989445363992249201762930691119373210673384170814871990917413899569677870254307874568919573550038724710268183891557417060962836960170780736993289887196101138928464258200311607202465896726528,
    1196394560253050605685152363128327078183158779560229163981165614708384847462882428797317217160489438535278456629983184715818968090470576134554677445779196848129940090120900364763581815958104103488841406529415889674714874917405237930341559209787956374950095820660994767596989729011723443744184912756149784010852814345673271320790466876669952,
    3474031812361726079637471838749224620193454019548249134452201223882701822648146659453662747622487737470353706926542699676988641773675809784466738239299413570894954692952056516256718818354529940636110342913348326276178167010749585734310736796196645412245378048540211803421228007717742776462540284100608,
    10086258769297169102563490710024340482130498336931181386567128764915447032878064721237494175991098271869011229079371615056111921701875072804442258418800784230502662433199130624638350208661329540883019875668940338476236440223270974669849342040248374698183812448256,
    200472327429324728430931487565003246168280974574712839530927727635517306539997664351621061039562607226821405326688132899200123770616779024959955104359624958878026823986455341724692794046560263638701777847144772937844818279633608638794951303173616173056,
    77962512091199992642827059103001506490217372099629255869838155458275171437101669770543608295678500294331484671098339203981759646071069688098397719637856762442303850184990355541746160282292575276853158946032029525904025416772993201379366591264431774580159676992818081419709753557684781580288,
    29845426663682794539785553845784670429400645830909540100515178859122664430470571702351933860231285381811874212366767033636675422819754697743431180941042938356423047390081825151523118915501448217926909290356611180884725385768109064928214722604328581699081265785050890983045918927393851594301242392521675153521162451078308064919552,
    11284302696536965525056636646885055190896981552250568824611044428709661911505094095995505375474355296608215546881181577906417752581285278687951756080182614332038655595596140683128641232172772948373060209157234666733844323089265041658385289604089891524458766572284881097434260474497233113305513700009897673219703560253862005799068985881719719635999881612884495111815168,
    4223834153692919724124179626451365896465453943840852718584753726662014084014547772638228191152829553596597721397810908243015491804193922434497237554354746952196525555211738249368759871636046272775213890862402575939036922552257589887979112656770953552065358947408060660645828133299522565134995175750487479485302867144355904881243861828278598162831438930966803724068547787847103512586356684024433394105450496,
    44542251075307153454400439697123494906943570428403338195127555076544682105800498809052620358788566629800845223384411386312611643130335653567304841977137960243672045447973286749113870709166043231320059860732857384957701937366835452013388530005403143380860836423495708689457127761579496634145143653564865682088927248568140972249937714721903330942949364306794381566585489898053173697783690564647840217535873024],
   [4097808644425025838077020170414935835728292884128406453466622514041733367435464273743104540057622613172287334762151936,
    4137210650621420317289299210515079449533372623398871900134570807445939628662753549975727306822024189171563252573798400,
    4176612656817814796501578250615223063338452362669337346802519100850183888932613429684223369392076388529350224631562240,
    4216014663014209275713857290715366677143532101939802793470467394254428149202473309392719431962128587887137196689326080,
    4255416669210603754926136330815510290948611841210268240138415687658558412344621378673595607115228917169391006008737792,
    4294818675406998234138415370915653904753691580480733686806363981062805595617755920187928077054946549093217289931587584,
    4334220681603392713350694411015797518558771319751199133474312274467052778890890461702260546994664181017043573854437376,
    7210567133940189695847064338326281326329592286495176740234537692976991929711824167238420187286095739078947073079377920,
    4097808644425025838077020170414935835728292884128406453466622514041581371265181859839611356835020119738243117777682432,
    4137210650621420317289299210515079449533372623398871900134570807445828554538316401353943826774737751662069401700532224,
    4176612656817814796501578250615223063338452362669337346802519100850075737811450942868276296714455383585895685623382016,
    2955150464729585940920928007510771035380980445284908500096122005318600128553858511497499800241796478173796843380539392],
   [65149343980682298599900113072472773628985107000513199527936634556752364589393619510624256,
    51721616597733851350942108567932181931281478836838081141709747744676515754063131500871680,
    51224293361439856798024042515208932076189710593894003408934924331822813841058511254978560,
    50726970125145862245105976462485682221097942350949925676160100918969111928053891009085440,
    11438434448888509604068095054310406838170594345812725983029087308448969248071667471613952,
    11935757685414088335460793497880798663279738404463343685135191849381586329092113976786944,
    12433080921939667066853491941451190488388882463113961387241296390314203410112560481959936,
    12930404166802276223332956455518693234123555887200017985273521542087766539702752321208320,
    13427727394064487815740359265203406258537667317589036914128380959863776900090148455186432,
    13925050630590066547133057708773798083646811376239654616234485500796393981110594960359424,
    14422373867115645278525756152344189908755955434890272318340590041729011062131041465532416,
    58684141904923438377896503742669112022496730975229009523232151012312681864064509906255872],
   [23692245921442509786436644639894514067450023837439838899161812822634703557909398634374810566442951009645526889193076293690720256,
    19123027065164311470481006030772000640156090668790727111466320349698010728884014612031103084166005881717439895050722272859914240,
    18953796737154007829149315711915611253960019069951871119329450258107762846327518907499854986575805689734920008146923724902236160,
    18784566409143704187817625393059221867763947471113015127192580166517514963771023202968606888985605497752400121243125176944558080,
    5415370496329716522614090203404460358274291162843391748379842930887932241807862544999980637335170497933178912623660210367496192,
    5584600824340020163945780522260849744470362761682247740516713022478180124364358249531229415490104531792625726276673621861597184,
    5753831152350323805277470841117239130666434360521103732653583114068428006920853954062478193645038565652072539929687033355698176,
    5923061480360627446609161159973628516862505959359959724790453205658675889477349658593751472130390907080888716554435532161024000,
    6092291808370931087940851478830017903058577558198815716927323297248923772033845363124973027695971265863258460238854402198208512,
    6261522136381234729272541797686407289254649157037671709064193388839171654590341067656221805850905299722705273891867813692309504,
    6430752464391538370604232116542796675450720755876527701201063480429419537146836772187470584005839333582152087544881225186410496,
    20138409033226133318471147943910336957332520261823863064287540899239498024222988839218588947448271666104851509476654106460291072],
   [225940768079630283121430640196911044466336811600362893993081790531374145370588289328220764520686429465206594617413275147730977336361585562101395081466782880976652864717722438143525419040427597394933700381069331854600209901884792316052207916330152772397039789014335011969662960330228241299255217560630813803273645976076027672136979544005044710346737009087861070829612301121723177880132743731169456319053129898052812800,
    346332564209652258799273244097454885678003371208850093060706105193062617976754869659918048693666443310979428065075538986301106108267449645344024667873572052216250123645877959301376366909556028806100444440983979546328301276501731031464797483724242949210405954176827191676355714988742212213514222926353007804107259439419833916837751674430297337610352237569745115581060092218234264647172443523907579800826200740734173184,
    974160791899796675642474231217140887521816168532907993766817967341010440485318563061663813401656650017055806987209337861895999874213948914977425604268693279539035563261863821820327922065248286260089945726809781343463141307213081649905775023004675452407086846966995341943747862637449604347257513057964489085629785088370678804623389212959570499278263711537836242121103156761853952,
    2734616137721258527280348258579033321555203493503881360549139485395341471051682386082726720476300252375771382665022012624043501290876588170939100902805090735608497011278115915394750891271588151541505074107222678962864950770772687156636063907370805173045144920352543400678169920351223977453891533601743489947274881203697400983161031358414848,
    7659612309183082802092257186639856692697465527404312154026537009082186932131932376036816041043168325119215294697141028345497910363640481119110854716635503166311810704616647515899634254426790371113562339453383144041729221342887022953818103034170599575734312996654945060721770726878250680072879862710272,
    21402549095825700290805455896880917608370600825838496905500421286668639991135280230398497612362241120221185231901102887502727877936007629182819122417699289735854275364642668776455964162440925820229974922341458088819293659796165798568274661828714439611102982569984,
    5813697495450417124497013138595635388438485688615144896235323955010270460406141783832965900551086785745614268880167913541410019432557348648591021541747489808122112147091092877291400957057890970662258330934920494218899645627725483860455967260209099833344,
    2066006570416799805034917066229539921910800540899793188867973874901471894016863330737966941292203102172500484842790247904331835881595024861361860060961696138341197923575396180993545000892585020546255533828385802463691047276301940471907188195342255694054248999787482990589164601434360944525312,
    732871032519321954810289711102045796074488772183699687072108654574390438887047017505452052281401768329913852108629307864792597163172556979690478256606446637771811007306739607617065507922085971900045637551874627537151707374357873050174705684918833906901145721247939750220761572458012660920811136477841920669916251884695422079336448,
    259538962020350207076302642878356269382578942819605102394654096889481648431269960160778539991889072624118113305670807109007709220615797318410771321637555065193430693398012967911617059487056408505737197888715641052266579249754573369908182758556510965930091763870054463760093640362039083539695363476004864819669523996047842005437776775723078789550431045232537901740326912,
    91772396612055255824152630065625131747886215582606241308898465619227929519299489751848134474216573968003868331900904348698339500379163285597400890177742986611102457465889568958557101204293472815124108684349654735869095126841167489148704106366426327187650619794336939947002415424553231475787962237701980319210687337743140328773504299873437967323534045104427774085022699082165351582877674578259989025693630464,
    78332924304850511247393876708734422077717063692081747446595816084173073130872360918785825844899019371273863389985170713613384195094333749313183791985807580240056748111564023553903466953079987342466720293120061264149683380642488668948208453968084233323773611965242919694817388535924159813717579560553225340627027875199054876662236836720914869563796838079194198042749751024873785228764108163623626842503643136]]

/-- Optimal walk for the corridor fixture at `(4, 10)`. -/
def pathCorr : List Dir :=
  [.East, .East, .East, .East, .East, .East, .East, .South, .South, .South, .South, .East, .East, .East, .East]


/-- On a 1×1 map every reachable state is the seed: all four moves leave
the grid. -/
theorem reach_one_by_one {m : Map} (hw : m.width = 1) (hh : m.height = 1)
    {a b : Nat} {c : Coord} {tt : TileType} {v : Nat}
    (h : Reach m a b c tt v) : tt = startTT := by
  cases h with
  | seed => rfl
  | step hr hl hh' =>
    exfalso
    rename_i c' tt' v' d hv
    have hb2 : m.is_in_bounds (c'.add d) := hl.2.1
    have hb1 : m.is_in_bounds c' := reach_bounds (by omega) (by omega) hr
    have e1 : c' = ⟨0, 0⟩ := by
      obtain ⟨hx, hy, hxlt, hylt⟩ := hb1
      rw [hw] at hxlt
      rw [hh] at hylt
      exact coord_eq_of_toNat (by decide) (by decide) hx hy
        (show c'.x.toNat = 0 by omega) (show c'.y.toNat = 0 by omega)
    have e2 : c'.add d = ⟨0, 0⟩ := by
      obtain ⟨hx, hy, hxlt, hylt⟩ := hb2
      rw [hw] at hxlt
      rw [hh] at hylt
      exact coord_eq_of_toNat (by decide) (by decide) hx hy
        (show (c'.add d).x.toNat = 0 by omega) (show (c'.add d).y.toNat = 0 by omega)
    rw [e1] at e2
    exact coord_add_ne _ _ e2

/-!
### The claims
-/

/-- **C1** (refuted, code bug): `find_min` does *not* return the minimum
cost over all paths satisfying the spec's run-length and no-reversal
constraints.  On the grid `[[1,9],[1,1]]` with `min_run = 1, max_run = 3`
it returns `Some 10`, while a path that is legal per the spec's own
transition rule (South, then East, using the run-0 turning exemption)
reaches the destination with admissible final run and cost `2 < 10`: the
source checks `steps_in_dir < min_dist` with no run-0 exemption, so every
South-first path is unreachable to the search. -/
theorem claim_C1 :
    (toMap [[1, 9], [1, 1]]).find_min 1 3 = some (some 10) ∧
    (∃ tt u, 1 ≤ tt.steps_in_dir ∧
      SpecReach (toMap [[1, 9], [1, 1]]) 1 3
        (destC (toMap [[1, 9], [1, 1]])) tt u ∧ u < 10) := by
  constructor
  · exact find_minFuel_sound
      (by rfl : (toMap [[1, 9], [1, 1]]).find_minFuel 300 1 3 =
        some (some (some 10)))
  · refine ⟨⟨.East, 1⟩, 2, by decide, ?_, by decide⟩
    have h1 : SpecReach (toMap [[1, 9], [1, 1]]) 1 3 ⟨0, 1⟩ ⟨.South, 1⟩ 1 :=
      @SpecReach.step (toMap [[1, 9], [1, 1]]) 1 3 ⟨0, 0⟩ startTT 0 .South 1
        SpecReach.seed (by decide) (by rfl)
    exact @SpecReach.step (toMap [[1, 9], [1, 1]]) 1 3 ⟨0, 1⟩ ⟨.South, 1⟩ 1
      .East 1 h1 (by decide) (by rfl)

/-- **C2** (refuted, code bug): the turn check of the source
(`!is_staight && steps_in_dir < min_dist`) has no `run == 0` exemption:
for every `min_run ≥ 1`, the first South move out of the synthetic start
state is rejected by the search even though the spec's transition rule
(section 4.1 step 2) permits it. -/
theorem claim_C2 (a b : Nat) (ha : 1 ≤ a) :
    SpecLegal (toMap [[1, 9], [1, 1]]) a b ⟨0, 0⟩ startTT .South ∧
    ¬ LegalStep (toMap [[1, 9], [1, 1]]) a b ⟨0, 0⟩ startTT .South := by
  constructor
  · refine ⟨Or.inr (Or.inr rfl), by decide, ?_, ?_⟩
    · intro hd
      exact absurd hd (by decide)
    · intro _
      exact Or.inr rfl
  · rintro ⟨-, -, hor, -⟩
    have h0 : startTT.steps_in_dir = 0 := rfl
    rcases hor with hd | hs
    · exact absurd hd (by decide)
    · omega

/-- Closed instance of `claim_C2` at `min_run = 4, max_run = 10`. -/
theorem claim_C2_witness :
    1 ≤ 4 ∧
    (SpecLegal (toMap [[1, 9], [1, 1]]) 4 10 ⟨0, 0⟩ startTT .South ∧
      ¬ LegalStep (toMap [[1, 9], [1, 1]]) 4 10 ⟨0, 0⟩ startTT .South) :=
  ⟨by decide, claim_C2 4 10 (by decide)⟩

/-- **C3** (corrected): on a 1×1 grid the result is `Some 0` only for
`min_run = 0`.  For `min_run ≥ 1` the destination filter
`steps_in_dir ≥ min_dist` rejects the sole stored state (the seed, with run
`0`), so `find_min` returns `None` — not `Some 0` as claimed. -/
theorem claim_C3 (h a b : Nat) (hab : a ≤ b) :
    (toMap [[h]]).find_min a b = some (if a = 0 then some 0 else none) := by
  cases a with
  | zero =>
    exact find_minFuel_sound
      (by rfl : (toMap [[h]]).find_minFuel 5 0 b = some (some (some 0)))
  | succ a' =>
    have hrect : Rect (toMap [[h]]) := by
      intro row hrow
      have hrw : row = [(⟨h, []⟩ : Tile)] := List.mem_singleton.mp hrow
      rw [hrw]
      rfl
    obtain ⟨⟨r, mF⟩, hfull⟩ :=
      find_min_no_panic hrect Nat.one_pos Nat.one_pos (a' + 1) b
    obtain ⟨-, hsome, -⟩ :=
      find_min_full_correct (toMap_clean [[h]]) (toMap_nodup [[h]]) hfull
    have hnone : r = none := by
      cases hr : r with
      | none => rfl
      | some v =>
        obtain ⟨⟨tt, hs, hre⟩, -⟩ := hsome v hr
        have htt : tt = startTT := @reach_one_by_one (toMap [[h]]) rfl rfl _ _ _ _ _ hre
        rw [htt] at hs
        have h0 : startTT.steps_in_dir = 0 := rfl
        omega
    rw [find_min_eq_some]
    exact ⟨mF, hnone ▸ hfull⟩

/-- Closed instance of `claim_C3` on the 1×1 grid `[[7]]` at `(2, 3)`. -/
theorem claim_C3_witness :
    2 ≤ 3 ∧ (toMap [[7]]).find_min 2 3 = some (if 2 = 0 then some 0 else none) :=
  ⟨by decide, claim_C3 7 2 3 (by decide)⟩

/-- The 1×1 grid `[[5]]` with `min_run = max_run = 1` — valid parameters per
the claim — returns `None`, not `Some 0`. -/
theorem claim_C3_counterexample :
    (toMap [[5]]).find_min 1 1 = some none ∧
    (some none : Option (Option Nat)) ≠ some (some 0) :=
  ⟨find_minFuel_sound
    (by rfl : (toMap [[5]]).find_minFuel 5 1 1 = some (some none)), by decide⟩

/-- **C4** (corrected): nothing is rejected before the search.  `from_str`
accepts *every* string (ragged rows, non-digit bytes, anything) and never
returns an error, and `find_min` performs no parameter validation: with
`max_run < min_run` it still runs the whole search and returns `Some None`
(no admissible path) rather than reporting a configuration error. -/
theorem claim_C4 :
    (∀ s, ∃ m, Map.from_str s = .ok m) ∧
    (∀ g a b, Rect (toMap g) → 0 < (toMap g).height → 0 < (toMap g).width →
      b < a → (toMap g).find_min a b = some none) := by
  constructor
  · intro s
    exact ⟨_, rfl⟩
  · intro g a b hrect hh hw hba
    obtain ⟨⟨r, mF⟩, hfull⟩ := find_min_no_panic hrect hh hw a b
    obtain ⟨-, hsome, -⟩ :=
      find_min_full_correct (toMap_clean g) (toMap_nodup g) hfull
    cases hr : r with
    | some v =>
      obtain ⟨⟨tt, hs, hre⟩, -⟩ := hsome v hr
      have := reach_steps_le hre
      omega
    | none =>
      rw [find_min_eq_some]
      exact ⟨mF, hr ▸ hfull⟩

/-- The claimed rejections do not happen: the ragged, non-digit string
`"1x\n234"` parses fine, and the invalid parameter pair
`min_run = 2 > max_run = 1` is searched and answered instead of rejected. -/
theorem claim_C4_counterexample :
    (∃ m, Map.from_str "1x\n234" = .ok m) ∧
    (toMap [[1, 9], [1, 1]]).find_min 2 1 = some none :=
  ⟨⟨_, rfl⟩, find_minFuel_sound
    (by rfl : (toMap [[1, 9], [1, 1]]).find_minFuel 300 2 1 = some (some none))⟩

/-- **C5** (confirmed): raising `max_run` with `min_run` fixed never raises
the returned minimum: whatever value a run with bound `b1` returns, the run
with bound `b2 ≥ b1` returns a value, and one that is no larger. -/
theorem claim_C5 (g : List (List Nat)) (a b1 b2 v1 : Nat)
    (hrect : Rect (toMap g)) (hh : 0 < (toMap g).height)
    (hw : 0 < (toMap g).width) (hb : b1 ≤ b2)
    (h1 : (toMap g).find_min a b1 = some (some v1)) :
    ∃ v2 ≤ v1, (toMap g).find_min a b2 = some (some v2) := by
  obtain ⟨mF1, hfull1⟩ := find_min_eq_some.mp h1
  obtain ⟨-, hsome1, -⟩ :=
    find_min_full_correct (toMap_clean g) (toMap_nodup g) hfull1
  obtain ⟨⟨tt, hs, hre⟩, -⟩ := hsome1 v1 rfl
  have hre2 : Reach (toMap g) a b2 (destC (toMap g)) tt v1 :=
    reach_mono_max hb hre
  obtain ⟨⟨r2, mF2⟩, hfull2⟩ := find_min_no_panic hrect hh hw a b2
  obtain ⟨-, hsome2, hnone2⟩ :=
    find_min_full_correct (toMap_clean g) (toMap_nodup g) hfull2
  cases hr2 : r2 with
  | none => exact absurd hre2 (hnone2 hr2 v1 tt hs)
  | some v2 =>
    obtain ⟨-, hmin2⟩ := hsome2 v2 hr2
    exact ⟨v2, hmin2 v1 tt hs hre2, find_min_eq_some.mpr ⟨mF2, hr2 ▸ hfull2⟩⟩

/-- Closed instance of `claim_C5`: on `[[1,9],[1,1]]` with `min_run = 1`,
the bound-3 run returns `10`, so the bound-10 run returns at most `10`. -/
theorem claim_C5_witness :
    ∃ v2 ≤ 10, (toMap [[1, 9], [1, 1]]).find_min 1 10 = some (some v2) :=
  claim_C5 [[1, 9], [1, 1]] 1 3 10 10 (by unfold Rect; decide) (by decide)
    (by decide) (by decide)
    (find_minFuel_sound
      (by rfl : (toMap [[1, 9], [1, 1]]).find_minFuel 300 1 3 =
        some (some (some 10))))

/-- **C6** (confirmed): raising `min_run` with `max_run` fixed never lowers
the returned minimum: whatever value a run with `min_run = a2` returns, the
run with `a1 ≤ a2` returns a value that is no larger. -/
theorem claim_C6 (g : List (List Nat)) (a1 a2 b v2 : Nat)
    (hrect : Rect (toMap g)) (hh : 0 < (toMap g).height)
    (hw : 0 < (toMap g).width) (ha : a1 ≤ a2)
    (h2 : (toMap g).find_min a2 b = some (some v2)) :
    ∃ v1 ≤ v2, (toMap g).find_min a1 b = some (some v1) := by
  obtain ⟨mF2, hfull2⟩ := find_min_eq_some.mp h2
  obtain ⟨-, hsome2, -⟩ :=
    find_min_full_correct (toMap_clean g) (toMap_nodup g) hfull2
  obtain ⟨⟨tt, hs, hre⟩, -⟩ := hsome2 v2 rfl
  have hre1 : Reach (toMap g) a1 b (destC (toMap g)) tt v2 :=
    reach_anti_min ha hre
  have hs1 : a1 ≤ tt.steps_in_dir := ha.trans hs
  obtain ⟨⟨r1, mF1⟩, hfull1⟩ := find_min_no_panic hrect hh hw a1 b
  obtain ⟨-, hsome1, hnone1⟩ :=
    find_min_full_correct (toMap_clean g) (toMap_nodup g) hfull1
  cases hr1 : r1 with
  | none => exact absurd hre1 (hnone1 hr1 v2 tt hs1)
  | some v1 =>
    obtain ⟨-, hmin1⟩ := hsome1 v1 hr1
    exact ⟨v1, hmin1 v2 tt hs1 hre1, find_min_eq_some.mpr ⟨mF1, hr1 ▸ hfull1⟩⟩

/-- Closed instance of `claim_C6`: on `[[1,9],[1,1]]` with `max_run = 3`,
the `min_run = 1` run returns `10`, so the `min_run = 0` run returns at
most `10`. -/
theorem claim_C6_witness :
    ∃ v1 ≤ 10, (toMap [[1, 9], [1, 1]]).find_min 0 3 = some (some v1) :=
  claim_C6 [[1, 9], [1, 1]] 0 1 3 10 (by unfold Rect; decide) (by decide)
    (by decide) (by decide)
    (find_minFuel_sound
      (by rfl : (toMap [[1, 9], [1, 1]]).find_minFuel 300 1 3 =
        some (some (some 10))))

set_option maxHeartbeats 400000000 in
set_option maxRecDepth 1000000 in
/-- **C7** (confirmed): the fixture values.  The 13×13 puzzle grid yields
`102` at `(min_run, max_run) = (1, 3)` and `94` at `(4, 10)`; the corridor
grid yields `71` at `(4, 10)`.  Each value is certified by a feasible
packed distance table (lower bound) and an explicit optimal walk (upper
bound). -/
theorem claim_C7 :
    m13.find_min 1 3 = some (some 102) ∧
    m13.find_min 4 10 = some (some 94) ∧
    corr12.find_min 4 10 = some (some 71) :=
  ⟨certified_value phi13a path13a (by unfold Rect; decide) (by decide)
      (by decide) (by rfl) (by rfl),
    certified_value phi13b path13b (by unfold Rect; decide) (by decide)
      (by decide) (by rfl) (by rfl),
    certified_value phiCorr pathCorr (by unfold Rect; decide) (by decide)
      (by decide) (by rfl) (by rfl)⟩

/-- **C8** (confirmed): entries of the cost tables are only ever lowered.
Any stored cost survives one loop iteration — and the whole remaining
search — with a value that is no larger. -/
theorem claim_C8 (a b : Nat) (st : Map × Queue) (c : Coord) (tt : TileType)
    (v : Nat) (hv : st.1.tableLookup c tt = some v) :
    (∀ st', step1 a b st = .next st' →
      ∃ v' ≤ v, st'.1.tableLookup c tt = some v') ∧
    (∀ mF, search a b st = some mF →
      ∃ v' ≤ v, mF.tableLookup c tt = some v') := by
  constructor
  · intro st' hstep
    exact step1_mono hstep c tt v hv
  · intro mF hsearch
    exact (search_master st mF hsearch).2.1 c tt v hv

/-- Closed instance of `claim_C8` at the freshly seeded state of the 2×2
grid, whose seed entry holds `0`. -/
theorem claim_C8_witness :
    (∀ st', step1 1 3 ((toMap [[1, 9], [1, 1]]).setTL ⟨0, 0⟩ [(startTT, 0)],
        Queue.empty.push (⟨0, 0⟩, startTT)) = .next st' →
      ∃ v' ≤ 0, st'.1.tableLookup ⟨0, 0⟩ startTT = some v') ∧
    (∀ mF, search 1 3 ((toMap [[1, 9], [1, 1]]).setTL ⟨0, 0⟩ [(startTT, 0)],
        Queue.empty.push (⟨0, 0⟩, startTT)) = some mF →
      ∃ v' ≤ 0, mF.tableLookup ⟨0, 0⟩ startTT = some v') :=
  claim_C8 1 3 ((toMap [[1, 9], [1, 1]]).setTL ⟨0, 0⟩ [(startTT, 0)],
    Queue.empty.push (⟨0, 0⟩, startTT)) ⟨0, 0⟩ startTT 0 (by rfl)

/-- **C9** (confirmed): `find_min` never touches the heat grid — the map it
returns carries the very heats it was given — and a second call on the map
the first call left behind (the Rust caller's `&mut self` situation) returns
the identical result. -/
theorem claim_C9 (g : List (List Nat)) (a b : Nat) (r : Option Nat) (mF : Map)
    (hrect : Rect (toMap g)) (hh : 0 < (toMap g).height)
    (hw : 0 < (toMap g).width)
    (h : (toMap g).find_min_full a b = some (r, mF)) :
    mF.heats = (toMap g).heats ∧ mF.find_min a b = some r := by
  obtain ⟨hheats, -, -, -, -⟩ :=
    find_min_full_final (toMap_clean g) (toMap_nodup g) h
  obtain ⟨mF2, hfull2, -⟩ := find_min_full_idem hrect hh hw h
  exact ⟨hheats, find_min_eq_some.mpr ⟨mF2, hfull2⟩⟩

/-- Closed instance of `claim_C9` on the 2×2 grid at `(1, 3)`. -/
theorem claim_C9_witness :
    ∃ r mF, (toMap [[1, 9], [1, 1]]).find_min_full 1 3 = some (r, mF) ∧
      mF.heats = (toMap [[1, 9], [1, 1]]).heats ∧ mF.find_min 1 3 = some r := by
  obtain ⟨⟨r, mF⟩, h⟩ := @find_min_no_panic (toMap [[1, 9], [1, 1]])
    (by unfold Rect; decide) (by decide) (by decide) 1 3
  obtain ⟨h1, h2⟩ := claim_C9 [[1, 9], [1, 1]] 1 3 r mF (by unfold Rect; decide)
    (by decide) (by decide) h
  exact ⟨r, mF, h, h1, h2⟩

/-- **C10** (confirmed): on every non-empty rectangular map, `find_min`
runs to completion and returns a value — no indexing panic is reachable. -/
theorem claim_C10 (m : Map) (a b : Nat) (hrect : Rect m) (hh : 0 < m.height)
    (hw : 0 < m.width) : ∃ r, m.find_min a b = some r := by
  obtain ⟨⟨r, mF⟩, h⟩ := find_min_no_panic hrect hh hw a b
  exact ⟨r, find_min_eq_some.mpr ⟨mF, h⟩⟩

/-- Closed instance of `claim_C10` on the 2×2 grid at `(4, 10)`. -/
theorem claim_C10_witness :
    ∃ r, (toMap [[1, 9], [1, 1]]).find_min 4 10 = some r :=
  claim_C10 (toMap [[1, 9], [1, 1]]) 4 10 (by unfold Rect; decide) (by decide)
    (by decide)

end Day17
